import Mathlib

/-!
# Cluster autoscaler: node readiness, drain simulation and node templates

A shallow embedding of

* `cluster-autoscaler/utils/kubernetes/ready.go`
  (`GetReadinessState`, `IsNodeReadyAndSchedulable`, `IsNodeExtendedReady`,
  `GetUnreadyNodeCopy`),
* `cluster-autoscaler/simulator/drain.go`
  (`FastGetPodsToMove`, `DetailedGetPodsForMove`, `checkJobPods`, `checkPdbs`),
* `cluster-autoscaler/utils/daemonset/daemonset.go`
  (`GetDaemonSetPodsForNode`, `fixupContainers`, `newPod`), and
* `cluster-autoscaler/core/utils/utils.go`
  (`GetNodeInfosForGroups`, `getPodsForNodes`, `GetNodeInfoFromTemplate`,
  `effectiveNodePods`, `FilterOutNodesFromNotAutoscaledGroups`, `deepCopyNodeInfo`,
  `sanitizeNodeInfo`, `sanitizeTemplateNode`),

followed by theorems about them.

Modelling conventions.

* Go strings are Lean `String`s; the Kubernetes string enumerations
  (`NodeConditionType`, `ConditionStatus`) stay strings, as in the API types, so a
  condition may carry any type and any status.
* `time.Time` is an instant on a linear time line, an `Int` counted from the zero value
  `time.Time{}` (year 1). Go represents instants before its zero value, so negative
  numbers are legal instants. `t.Before(u)` is `t < u`.
* A Go `error` is `Option String` (`none` is `nil`), a nilable pointer that the code tests
  against nil is an `Option`, a pointer that the code dereferences without a test is the
  value it points to, a slice is a `List` (the nil slice and the empty slice are both
  `[]`), a string map is an association list. The maps from node group ids to node infos
  are functions from keys to optional values.
* Values are immutable, so `DeepCopy` is the identity and no function modifies its
  arguments; what the Go code mutates in place (the result map, the cache, the random
  generator) is state handed from one step to the next.
* `GetUnreadyNodeCopy`, `sanitizeTemplateNode` and `fixupContainers`, which work on a deep
  copy of the object they are handed, are embedded a second time on a store of objects:
  a pointer is an address, `DeepCopy()` allocates, and a write goes to the address it goes
  to in the code. The two embeddings of each function are proved to agree, and what the
  call leaves of the object it was handed is proved on the store.
* `math/rand` is a stream of the successive results of `rand.Int63()`.
* Functions of other packages that the embedded code calls (the label selector conversion
  of apimachinery, `drain.GetPodsForDeletionOnNodeDrain`, the cloud provider, the
  predicate checker, `simulator.BuildNodeInfoForNode`, `cloudprovider.IsFakeKubeProxyPod`)
  and the clock are explicit parameters.
-/

namespace Autoscaler

/-! ## Data model -/

/-- An instant, counted from the zero value `time.Time{}`. -/
abbrev Time := Int

/-- The zero value `time.Time{}`. -/
def Time.zero : Time := 0

/-- A Go `map[string]string`. -/
abbrev StringMap := List (String × String)

/-- The `apiv1.NodeCondition` fields. -/
structure NodeCondition where
  type : String
  status : String
  lastHeartbeatTime : Time := 0
  lastTransitionTime : Time := 0
  reason : String := ""
  message : String := ""
  deriving DecidableEq, Repr

/-- The `apiv1.Taint` fields. -/
structure Taint where
  key : String
  value : String := ""
  effect : String := ""
  deriving DecidableEq, Repr

/-- The fields of `apiv1.Node` the embedded code reads: object metadata, `Spec.Unschedulable`,
`Spec.Taints`, `Status.Conditions`, and the resource lists `Status.Capacity` and
`Status.Allocatable` (a `resource.Quantity` is a number of milli-units). -/
structure Node where
  name : String := ""
  labels : StringMap := []
  creationTimestamp : Time := 0
  unschedulable : Bool := false
  taints : List Taint := []
  conditions : List NodeCondition := []
  capacity : List (String × Int) := []
  allocatable : List (String × Int) := []
  deriving DecidableEq, Repr

/-- Constant `apiv1.NodeReady`. -/
def NodeReady : String := "Ready"
/-- Constant `apiv1.NodeDiskPressure`. -/
def NodeDiskPressure : String := "DiskPressure"
/-- Constant `apiv1.NodeNetworkUnavailable`. -/
def NodeNetworkUnavailable : String := "NetworkUnavailable"
/-- Constant `apiv1.ConditionTrue`. -/
def ConditionTrue : String := "True"
/-- Constant `apiv1.ConditionFalse`. -/
def ConditionFalse : String := "False"
/-- Constant `apiv1.ConditionUnknown`. -/
def ConditionUnknown : String := "Unknown"

/-- Constant `nodeNotReadyZalandoTaint` of ready.go. -/
def nodeNotReadyZalandoTaint : String := "zalando.org/node-not-ready"

/-! ## ready.go -/

/-- The local variables of the loop of `GetReadinessState`. -/
structure ReadinessLoop where
  canNodeBeReady : Bool
  readyFound : Bool
  lastTransitionTime : Time
  deriving DecidableEq, Repr

/-- The statement `if lastTransitionTime.Before(t) then lastTransitionTime = t`. -/
def advance (lastTransitionTime t : Time) : Time :=
  if lastTransitionTime < t then t else lastTransitionTime

/-- One iteration of the loop of `GetReadinessState`: the `switch cond.Type`. -/
def readinessStep (s : ReadinessLoop) (cond : NodeCondition) : ReadinessLoop :=
  if cond.type = NodeReady then
    { canNodeBeReady :=
        if cond.status = ConditionFalse ∨ cond.status = ConditionUnknown then false
        else s.canNodeBeReady
      readyFound := true
      lastTransitionTime := advance s.lastTransitionTime cond.lastTransitionTime }
  else if cond.type = NodeDiskPressure then
    { canNodeBeReady := if cond.status = ConditionTrue then false else s.canNodeBeReady
      readyFound := s.readyFound
      lastTransitionTime := advance s.lastTransitionTime cond.lastTransitionTime }
  else if cond.type = NodeNetworkUnavailable then
    { canNodeBeReady := if cond.status = ConditionTrue then false else s.canNodeBeReady
      readyFound := s.readyFound
      lastTransitionTime := advance s.lastTransitionTime cond.lastTransitionTime }
  else s

/-- The loop `for _, cond := range node.Status.Conditions`. -/
def readinessLoop (s : ReadinessLoop) (conds : List NodeCondition) : ReadinessLoop :=
  conds.foldl readinessStep s

/-- Function `IsNodeExtendedReady`: no taint carries the reserved not-ready key. -/
def IsNodeExtendedReady (node : Node) : Bool :=
  !(node.taints.any (fun taint => taint.key = nodeNotReadyZalandoTaint))

/-- Function `GetReadinessState`: the triple `(isNodeReady, lastTransitionTime, err)`. -/
def GetReadinessState (node : Node) : Bool × Time × Option String :=
  let s := readinessLoop
    { canNodeBeReady := true, readyFound := false, lastTransitionTime := Time.zero }
    node.conditions
  if !s.readyFound then
    (false, Time.zero, some "readiness information not found")
  else
    let canNodeBeReady := if !IsNodeExtendedReady node then false else s.canNodeBeReady
    (canNodeBeReady, s.lastTransitionTime, none)

/-- Function `IsNodeReadyAndSchedulable`. -/
def IsNodeReadyAndSchedulable (node : Node) : Bool :=
  let (ready, _, _) := GetReadinessState node
  if !ready then false
  else if node.unschedulable then false
  else true

/-- Function `GetUnreadyNodeCopy`. The new Ready condition carries the three fields the
code sets; its other fields are zero values. -/
def GetUnreadyNodeCopy (node : Node) : Node :=
  let newNode := node
  let newReadyCondition : NodeCondition :=
    { type := NodeReady
      status := ConditionFalse
      lastTransitionTime := node.creationTimestamp }
  let newNodeConditions := newNode.conditions.foldl
    (fun newNodeConditions condition =>
      if condition.type ≠ NodeReady then newNodeConditions ++ [condition]
      else newNodeConditions)
    [newReadyCondition]
  { newNode with conditions := newNodeConditions }

/-! ## Data model of drain.go -/

/-- The `metav1.OwnerReference` fields. -/
structure OwnerReference where
  apiVersion : String
  kind : String
  name : String := ""
  controller : Bool := false
  deriving DecidableEq, Repr

/-- A `map[ResourceName]resource.Quantity`; a `resource.Quantity` is a number of
milli-units, and the nil map is the empty list. -/
abbrev ResourceList := List (String × Int)

/-- The fields of `apiv1.Container` the embedded code reads: the name and
`Resources.Limits` and `Resources.Requests`. -/
structure Container where
  name : String := ""
  limits : ResourceList := []
  requests : ResourceList := []
  deriving DecidableEq, Repr

/-- The fields of `apiv1.Pod` the embedded code reads; `ns` is `Namespace`, `containers` is
`Spec.Containers` and `nodeName` is `Spec.NodeName`. -/
structure Pod where
  ns : String := ""
  name : String := ""
  labels : StringMap := []
  ownerReferences : List OwnerReference := []
  nodeName : String := ""
  containers : List Container := []
  deriving DecidableEq, Repr

/-- The `metav1.LabelSelectorRequirement` fields. -/
structure LabelSelectorRequirement where
  key : String
  operator : String
  values : List String := []
  deriving DecidableEq, Repr

/-- The `metav1.LabelSelector` fields. -/
structure LabelSelector where
  matchLabels : StringMap := []
  matchExpressions : List LabelSelectorRequirement := []
  deriving DecidableEq, Repr

/-- The fields of `policyv1.PodDisruptionBudget` the embedded code reads: `ns` is `Namespace`,
`Spec.Selector` (a nilable pointer) and `Status.DisruptionsAllowed` (an `int32`). -/
structure PodDisruptionBudget where
  ns : String := ""
  name : String := ""
  selector : Option LabelSelector := none
  disruptionsAllowed : Int := 0
  deriving DecidableEq, Repr

/-- The `drain.BlockingPodReason` enumeration. -/
inductive BlockingPodReason where
  | NoReason
  | ControllerNotFound
  | MinReplicasReached
  | NotReplicated
  | LocalStorageRequested
  | NotSafeToEvictAnnotation
  | UnmovableKubeSystemPod
  | NotEnoughPdb
  | UnexpectedError
  deriving DecidableEq, Repr

/-- The `drain.BlockingPod` fields. -/
structure BlockingPod where
  pod : Pod
  reason : BlockingPodReason
  deriving DecidableEq, Repr

/-- What the embedded code reads of a `schedulernodeinfo.NodeInfo`: `Node()` and `Pods()`.
The code dereferences `Node()` without a nil test, so the node is a value. -/
structure NodeInfo where
  node : Node := {}
  pods : List Pod := []
  deriving DecidableEq, Repr

/-- A converted `labels.Selector`, through its `Matches` method on a label set. -/
abbrev Selector := StringMap → Bool

/-- The result triple `([]*apiv1.Pod, *drain.BlockingPod, error)`. -/
abbrev DrainResult := List Pod × Option BlockingPod × Option String

/-- The functions of other packages that drain.go calls, as parameters; `L` is the type of
the lister registry handed through to the delegate.

* `LabelSelectorAsSelector` is `metav1.LabelSelectorAsSelector`: a selector or an error.
* `GetPodsForDeletionOnNodeDrain` is `drain.GetPodsForDeletionOnNodeDrain`, with its
  arguments in the order of the call: pods, budgets, `skipNodesWithSystemPods`,
  `skipNodesWithLocalStorage`, `checkReferences`, listers, `minReplica`, `currentTime`. -/
structure DrainDeps (L : Type) where
  LabelSelectorAsSelector : Option LabelSelector → Except String Selector
  GetPodsForDeletionOnNodeDrain :
    List Pod → List PodDisruptionBudget → Bool → Bool → Bool → Option L → Int → Time →
      DrainResult

/-! ## drain.go -/

/-- Go `strings.HasPrefix(s, pre)`. -/
def hasPrefix (s pre : String) : Bool := pre.toList.isPrefixOf s.toList

/-- The test of the inner loop of `checkJobPods` on one owner reference. -/
def isJobReference (ownerReference : OwnerReference) : Bool :=
  hasPrefix ownerReference.apiVersion "batch/" && ownerReference.kind == "Job"

/-- The inner loop of `checkJobPods`: some owner reference of the pod passes the test. -/
def isJobPod (pod : Pod) : Bool := pod.ownerReferences.any isJobReference

/-- Function `checkJobPods`. -/
def checkJobPods : List Pod → Option BlockingPod × Option String
  | [] => (none, none)
  | pod :: rest =>
    if isJobPod pod then
      (some { pod := pod, reason := BlockingPodReason.NotReplicated },
        some ("job pod " ++ pod.ns ++ "/" ++ pod.name ++ " is unmovable"))
    else checkJobPods rest

/-- The inner loop of `checkPdbs` for one budget and its converted selector: the first pod in
the budget's namespace that the selector matches while the budget allows less than one
disruption. -/
def findPdbViolation (pdb : PodDisruptionBudget) (selector : Selector) (pods : List Pod) :
    Option Pod :=
  pods.find? (fun pod =>
    (pod.ns == pdb.ns && selector pod.labels) &&
      decide (pdb.disruptionsAllowed < 1))

/-- Function `checkPdbs`. -/
def checkPdbs (asSelector : Option LabelSelector → Except String Selector)
    (pods : List Pod) : List PodDisruptionBudget → Option BlockingPod × Option String
  | [] => (none, none)
  | pdb :: rest =>
    match asSelector pdb.selector with
    | .error err => (none, some err)
    | .ok selector =>
      match findPdbViolation pdb selector pods with
      | some pod =>
        (some { pod := pod, reason := BlockingPodReason.NotEnoughPdb },
          some ("not enough pod disruption budget to move " ++ pod.ns ++ "/" ++ pod.name))
      | none => checkPdbs asSelector pods rest

/-- Function `FastGetPodsToMove`; `now` is the value of `time.Now()`. -/
def FastGetPodsToMove {L : Type} (deps : DrainDeps L) (nodeInfo : NodeInfo)
    (skipNodesWithSystemPods skipNodesWithLocalStorage : Bool)
    (pdbs : List PodDisruptionBudget) (now : Time) : DrainResult :=
  match checkJobPods nodeInfo.pods with
  | (blockingPod, some err) => ([], blockingPod, some err)
  | (_, none) =>
    match deps.GetPodsForDeletionOnNodeDrain nodeInfo.pods pdbs skipNodesWithSystemPods
        skipNodesWithLocalStorage false none 0 now with
    | (pods, blockingPod, some err) => (pods, blockingPod, some err)
    | (pods, _, none) =>
      match checkPdbs deps.LabelSelectorAsSelector pods pdbs with
      | (pdbBlockingPod, some err) => ([], pdbBlockingPod, some err)
      | (_, none) => (pods, none, none)

/-- Function `DetailedGetPodsForMove`; `now` is the value of `time.Now()`. -/
def DetailedGetPodsForMove {L : Type} (deps : DrainDeps L) (nodeInfo : NodeInfo)
    (skipNodesWithSystemPods skipNodesWithLocalStorage : Bool) (listers : L)
    (minReplicaCount : Int) (pdbs : List PodDisruptionBudget) (now : Time) : DrainResult :=
  match checkJobPods nodeInfo.pods with
  | (blockingPod, some err) => ([], blockingPod, some err)
  | (_, none) =>
    match deps.GetPodsForDeletionOnNodeDrain nodeInfo.pods pdbs skipNodesWithSystemPods
        skipNodesWithLocalStorage true (some listers) minReplicaCount now with
    | (pods, blockingPod, some err) => (pods, blockingPod, some err)
    | (pods, _, none) =>
      match checkPdbs deps.LabelSelectorAsSelector pods pdbs with
      | (pdbBlockingPod, some err) => ([], pdbBlockingPod, some err)
      | (_, none) => (pods, none, none)

/-! ## Data model of daemonset.go and utils.go -/

deriving instance DecidableEq for Except

/-- What the embedded code reads of an `appsv1.DaemonSet`: `ns` is `Namespace`, `name` is
`Name`, and `template` holds `Spec.Template`, its `ObjectMeta` and its `Spec`, as a pod. -/
structure DaemonSet where
  ns : String := ""
  name : String := ""
  template : Pod := {}
  deriving DecidableEq, Repr

/-- The `simulator.PredicateErrorType` enumeration. -/
inductive PredicateErrorType where
  | NotSchedulablePredicateError
  | InternalPredicateError
  deriving DecidableEq, Repr

/-- What the embedded code reads of a `*simulator.PredicateError`: `ErrorType()` and its
rendering with `%v`. -/
structure PredicateError where
  errorType : PredicateErrorType
  message : String := ""
  deriving DecidableEq, Repr

/-- The scheduling snapshot and the predicate checker, as parameters; `S` is the type of
a snapshot.

* `AddNodeWithPods node pods` is `simulator.NewBasicClusterSnapshot()` followed by
  `AddNodeWithPods(node, pods)` on it: the staged snapshot or an error.
* `CheckPredicates snapshot pod nodeName` is `predicateChecker.CheckPredicates`: `none` when
  the pod is admitted. -/
structure PredicateChecker (S : Type) where
  AddNodeWithPods : Node → List Pod → Except String S
  CheckPredicates : S → Pod → String → Option PredicateError

/-- The `errors.AutoscalerErrorType` enumeration. -/
inductive AutoscalerErrorType where
  | CloudProviderError
  | ApiCallError
  | InternalError
  | TransientError
  | ConfigurationError
  deriving DecidableEq, Repr

/-- An `errors.AutoscalerError`: its `Type()` and its message. -/
structure AutoscalerError where
  errorType : AutoscalerErrorType
  message : String
  deriving DecidableEq, Repr

/-- Modelled from the spec: `errors.ToAutoscalerError` of the package utils/errors, which is
not among the sources. The spec has provider call failures, listing failures and deep-copy
failures surfaced to the caller as distinguishable error kinds: the error is given the
kind passed in and keeps its message. -/
def ToAutoscalerError (defaultType : AutoscalerErrorType) (err : String) : AutoscalerError :=
  { errorType := defaultType, message := err }

/-- A `cloudprovider.NodeGroup`, through the two methods the embedded code calls: `Id()`
and `TemplateNodeInfo()`. -/
structure NodeGroup where
  id : String
  templateNodeInfo : Except String NodeInfo

/-- A `cloudprovider.CloudProvider`, through the two methods the embedded code calls.
`NodeGroupForNode` answers `none` for a node of no node group (the nil interface or a nil
pointer in it). -/
structure CloudProvider where
  NodeGroupForNode : Node → Except String (Option NodeGroup)
  NodeGroups : List NodeGroup

/-- A `kube_util.ListerRegistry`, through the one call the embedded code makes:
`ScheduledPodLister().List()`. -/
structure ListerRegistry where
  scheduledPods : Except String (List Pod)

/-- The functions of other packages of the repository that utils.go calls, as parameters:
`simulator.BuildNodeInfoForNode` (on a node and the pods listed by node name) and
`cloudprovider.IsFakeKubeProxyPod`. -/
structure UtilsDeps where
  BuildNodeInfoForNode : Node → (String → List Pod) → Except AutoscalerError NodeInfo
  IsFakeKubeProxyPod : Pod → Bool

/-- A `map[string]*schedulernodeinfo.NodeInfo`. -/
abbrev NodeInfoMap := String → Option NodeInfo

/-- The empty map. -/
def NodeInfoMap.empty : NodeInfoMap := fun _ => none

/-- The assignment `m[id] = nodeInfo`. -/
def NodeInfoMap.set (m : NodeInfoMap) (id : String) (nodeInfo : NodeInfo) : NodeInfoMap :=
  fun k => if k = id then some nodeInfo else m k

/-- The state of `math/rand`: the successive results of `rand.Int63()`. -/
abbrev Rng := Nat → Nat

/-- One call of `rand.Int63()`: the result and the generator after it. -/
def Rng.Int63 (r : Rng) : Nat × Rng := (r 0, fun i => r (i + 1))

/-- Constant `apiv1.LabelHostname`. -/
def LabelHostname : String := "kubernetes.io/hostname"

/-! ## daemonset.go -/

/-- The loop over `container.Resources.Limits` in `fixupContainers`: a limit whose resource
has no request becomes a request. -/
def fixupRequests (limits requests : ResourceList) : ResourceList :=
  limits.foldl
    (fun requests limit =>
      if (requests.lookup limit.1).isNone then requests ++ [(limit.1, limit.2)]
      else requests)
    requests

/-- Function `fixupContainers`, on the container list of the pod spec; the other fields of
the spec are copied as they are. -/
def fixupContainers (containers : List Container) : List Container :=
  containers.map (fun container =>
    { container with requests := fixupRequests container.limits container.requests })

/-- Function `newPod`; `randInt63` is the result of its call of `rand.Int63()`. -/
def newPod (ds : DaemonSet) (nodeName : String) (randInt63 : Nat) : Pod :=
  { ds.template with
    containers := fixupContainers ds.template.containers
    ns := ds.ns
    name := ds.name ++ "-pod-" ++ toString randInt63
    nodeName := nodeName }

/-- The loop over the daemon sets in `GetDaemonSetPodsForNode`, from the pods collected so
far and the state of the generator. -/
def daemonSetLoop {S : Type} (predicateChecker : PredicateChecker S) (clusterSnapshot : S)
    (nodeName : String) : List DaemonSet → List Pod → Rng → Except String (List Pod) × Rng
  | [], result, rng => (.ok result, rng)
  | ds :: rest, result, rng =>
    let pod := newPod ds nodeName rng.Int63.1
    match predicateChecker.CheckPredicates clusterSnapshot pod nodeName with
    | none => daemonSetLoop predicateChecker clusterSnapshot nodeName rest (result ++ [pod])
        rng.Int63.2
    | some err =>
      if err.errorType = PredicateErrorType.NotSchedulablePredicateError then
        daemonSetLoop predicateChecker clusterSnapshot nodeName rest result rng.Int63.2
      else
        (.error ("unexpected error while calling PredicateChecker; " ++ err.message),
          rng.Int63.2)

/-- Function `GetDaemonSetPodsForNode`, with the state of the generator. -/
def GetDaemonSetPodsForNode {S : Type} (nodeInfo : NodeInfo) (daemonsets : List DaemonSet)
    (predicateChecker : PredicateChecker S) (rng : Rng) : Except String (List Pod) × Rng :=
  match predicateChecker.AddNodeWithPods nodeInfo.node nodeInfo.pods with
  | .error err => (.error err, rng)
  | .ok clusterSnapshot =>
    daemonSetLoop predicateChecker clusterSnapshot nodeInfo.node.name daemonsets [] rng

/-! ## utils.go: the helpers -/

/-- Method `SetNode` of `schedulernodeinfo.NodeInfo`, which stores the node and returns a
nil error. -/
def NodeInfo.SetNode (nodeInfo : NodeInfo) (node : Node) : NodeInfo × Option String :=
  ({ nodeInfo with node := node }, none)

/-- Function `getPodsForNodes`: the scheduled pods by the name of their node, in the order
of the listing. -/
def getPodsForNodes (listers : ListerRegistry) :
    Except AutoscalerError (String → List Pod) :=
  match listers.scheduledPods with
  | .error err => .error (ToAutoscalerError AutoscalerErrorType.ApiCallError err)
  | .ok pods =>
    .ok (pods.foldl
      (fun podsForNodes p => fun name =>
        if name = p.nodeName then podsForNodes p.nodeName ++ [p] else podsForNodes name)
      (fun _ => []))

/-- Go `strings.Contains(s, substr)`. -/
def strContains (s substr : String) : Bool :=
  s.toList.tails.any (fun t => substr.toList.isPrefixOf t)

/-- Function `effectiveNodePods`. -/
def effectiveNodePods (IsFakeKubeProxyPod : Pod → Bool) (daemonsetPods nodePods : List Pod) :
    List Pod :=
  let foundDaemonsetKubeProxy :=
    daemonsetPods.any (fun pod => pod.ns == "kube-system" && strContains pod.name "kube-proxy")
  daemonsetPods ++ nodePods.filter (fun pod => !(IsFakeKubeProxyPod pod && foundDaemonsetKubeProxy))

/-- Function `deepCopyNodeInfo`. -/
def deepCopyNodeInfo (nodeInfo : NodeInfo) : Except AutoscalerError NodeInfo :=
  let newPods := nodeInfo.pods
  match NodeInfo.SetNode { pods := newPods } nodeInfo.node with
  | (_, some err) => .error (ToAutoscalerError AutoscalerErrorType.InternalError err)
  | (newNodeInfo, none) => .ok newNodeInfo

/-- Modelled from the spec: `taints.SanitizeTaints` of the package utils/taints, which is
not among the sources. The spec has sanitization strip any taint whose key is in the
caller-supplied ignored-taint set; `ignoredTaints` lists the keys of that set. -/
def SanitizeTaints (taints : List Taint) (ignoredTaints : List String) : List Taint :=
  taints.filter (fun taint => !(ignoredTaints.contains taint.key))

/-- Function `sanitizeTemplateNode`; `randInt63` is the result of its call of
`rand.Int63()`. -/
def sanitizeTemplateNode (node : Node) (nodeGroup : String) (ignoredTaints : List String)
    (randInt63 : Nat) : Except AutoscalerError Node :=
  let nodeName := "template-node-for-" ++ nodeGroup ++ "-" ++ toString randInt63
  let labels := node.labels.map (fun kv =>
    if kv.1 ≠ LabelHostname then (kv.1, kv.2) else (kv.1, nodeName))
  .ok { node with
    labels := labels
    name := nodeName
    taints := SanitizeTaints node.taints ignoredTaints }

/-- Function `sanitizeNodeInfo`; `randInt63` is the result of the call of `rand.Int63()`
made in `sanitizeTemplateNode`. -/
def sanitizeNodeInfo (nodeInfo : NodeInfo) (nodeGroupName : String)
    (ignoredTaints : List String) (randInt63 : Nat) : Except AutoscalerError NodeInfo :=
  match sanitizeTemplateNode nodeInfo.node nodeGroupName ignoredTaints randInt63 with
  | .error err => .error err
  | .ok sanitizedNode =>
    let sanitizedPods := nodeInfo.pods.map (fun pod => { pod with nodeName := sanitizedNode.name })
    match NodeInfo.SetNode { pods := sanitizedPods } sanitizedNode with
    | (_, some err) => .error (ToAutoscalerError AutoscalerErrorType.InternalError err)
    | (sanitizedNodeInfo, none) => .ok sanitizedNodeInfo

/-- Function `GetNodeInfoFromTemplate`, with the state of the generator. -/
def GetNodeInfoFromTemplate {S : Type} (deps : UtilsDeps) (nodeGroup : NodeGroup)
    (daemonsets : List DaemonSet) (predicateChecker : PredicateChecker S)
    (ignoredTaints : List String) (rng : Rng) : Except AutoscalerError NodeInfo × Rng :=
  let id := nodeGroup.id
  match nodeGroup.templateNodeInfo with
  | .error err => (.error (ToAutoscalerError AutoscalerErrorType.CloudProviderError err), rng)
  | .ok baseNodeInfo =>
    match GetDaemonSetPodsForNode baseNodeInfo daemonsets predicateChecker rng with
    | (.error err, rng1) =>
      (.error (ToAutoscalerError AutoscalerErrorType.InternalError err), rng1)
    | (.ok daemonsetPods, rng1) =>
      let pods := effectiveNodePods deps.IsFakeKubeProxyPod daemonsetPods baseNodeInfo.pods
      let pods := pods ++ baseNodeInfo.pods
      let fullNodeInfo := (NodeInfo.SetNode { pods := pods } baseNodeInfo.node).1
      match sanitizeNodeInfo fullNodeInfo id ignoredTaints rng1.Int63.1 with
      | .error typedErr => (.error typedErr, rng1.Int63.2)
      | .ok sanitizedNodeInfo => (.ok sanitizedNodeInfo, rng1.Int63.2)

/-! ## utils.go: `GetNodeInfosForGroups` -/

/-- What `GetNodeInfosForGroups` mutates while it runs: its local maps `result` and
`seenGroups` (the keys set so far), the caller's `nodeInfoCache` (`none` is the nil map) and
the random generator. -/
structure SynthState where
  result : NodeInfoMap
  seenGroups : List String
  nodeInfoCache : Option NodeInfoMap
  rng : Rng

/-- The triple `(bool, string, errors.AutoscalerError)` returned by `processNode`. -/
abbrev ProcessResult := Bool × String × Option AutoscalerError

/-- The closure `processNode` of `GetNodeInfosForGroups`, on the state it captures. -/
def processNode (deps : UtilsDeps) (cloudProvider : CloudProvider)
    (podsForNodes : String → List Pod) (ignoredTaints : List String) (node : Node)
    (st : SynthState) : ProcessResult × SynthState :=
  match cloudProvider.NodeGroupForNode node with
  | .error err =>
    ((false, "", some (ToAutoscalerError AutoscalerErrorType.CloudProviderError err)), st)
  | .ok none => ((false, "", none), st)
  | .ok (some nodeGroup) =>
    let id := nodeGroup.id
    if (st.result id).isNone then
      match deps.BuildNodeInfoForNode node podsForNodes with
      | .error err => ((false, "", some err), st)
      | .ok nodeInfo =>
        match sanitizeNodeInfo nodeInfo id ignoredTaints st.rng.Int63.1 with
        | .error err => ((false, "", some err), { st with rng := st.rng.Int63.2 })
        | .ok sanitizedNodeInfo =>
          ((true, id, none),
            { st with result := st.result.set id sanitizedNodeInfo, rng := st.rng.Int63.2 })
    else ((false, "", none), st)

/-- The closure that replaces `processNode` when `forceTemplateFromCloudProvider` is set. -/
def processNodeForced (_node : Node) (st : SynthState) : ProcessResult × SynthState :=
  ((false, "", none), st)

/-- The variable `processNode` after the test of `forceTemplateFromCloudProvider`. -/
def processNodeFor (deps : UtilsDeps) (cloudProvider : CloudProvider)
    (podsForNodes : String → List Pod) (ignoredTaints : List String)
    (forceTemplateFromCloudProvider : Bool) : Node → SynthState → ProcessResult × SynthState :=
  if forceTemplateFromCloudProvider then processNodeForced
  else processNode deps cloudProvider podsForNodes ignoredTaints

/-- The statement `if added && nodeInfoCache != nil` of the first loop: a deep copy of
`result[id]` is written to the cache. -/
def cacheAdded (added : Bool) (id : String) (st : SynthState) : SynthState :=
  match added, st.nodeInfoCache, st.result id with
  | true, some cache, some nodeInfo =>
    match deepCopyNodeInfo nodeInfo with
    | .ok nodeInfoCopy => { st with nodeInfoCache := some (cache.set id nodeInfoCopy) }
    | .error _ => st
  | _, _, _ => st

/-- The first loop of `GetNodeInfosForGroups`, over the ready and schedulable nodes: the
state it ends in and the error it returns with, if any. -/
def readyNodesLoop (process : Node → SynthState → ProcessResult × SynthState) :
    List Node → SynthState → SynthState × Option AutoscalerError
  | [], st => (st, none)
  | node :: rest, st =>
    if !IsNodeReadyAndSchedulable node then readyNodesLoop process rest st
    else
      match process node st with
      | ((_, _, some typedErr), st1) => (st1, some typedErr)
      | ((added, id, none), st1) => readyNodesLoop process rest (cacheAdded added id st1)

/-- The cache lookup of the second loop: the deep copy of the entry of `id`, when the
cache is not nil, has the entry and the copy succeeds. -/
def cachedCopy (nodeInfoCache : Option NodeInfoMap) (id : String) : Option NodeInfo :=
  match nodeInfoCache with
  | none => none
  | some cache =>
    match cache id with
    | none => none
    | some nodeInfo =>
      match deepCopyNodeInfo nodeInfo with
      | .ok nodeInfoCopy => some nodeInfoCopy
      | .error _ => none

/-- One iteration of the second loop of `GetNodeInfosForGroups`, for one node group. Both
branches of the test of the error against `cloudprovider.ErrNotImplemented` go on with the
next group; they differ in logging only. -/
def nodeGroupStep {S : Type} (deps : UtilsDeps) (daemonsets : List DaemonSet)
    (predicateChecker : PredicateChecker S) (ignoredTaints : List String)
    (st : SynthState) (nodeGroup : NodeGroup) : SynthState :=
  let id := nodeGroup.id
  let st := { st with seenGroups := id :: st.seenGroups }
  if (st.result id).isSome then st
  else
    match cachedCopy st.nodeInfoCache id with
    | some nodeInfoCopy => { st with result := st.result.set id nodeInfoCopy }
    | none =>
      match GetNodeInfoFromTemplate deps nodeGroup daemonsets predicateChecker ignoredTaints
          st.rng with
      | (.error _, rng) => { st with rng := rng }
      | (.ok nodeInfo, rng) => { st with result := st.result.set id nodeInfo, rng := rng }

/-- The second loop of `GetNodeInfosForGroups`, over `cloudProvider.NodeGroups()`. -/
def nodeGroupsLoop {S : Type} (deps : UtilsDeps) (daemonsets : List DaemonSet)
    (predicateChecker : PredicateChecker S) (ignoredTaints : List String)
    (nodeGroups : List NodeGroup) (st : SynthState) : SynthState :=
  nodeGroups.foldl (nodeGroupStep deps daemonsets predicateChecker ignoredTaints) st

/-- The third loop of `GetNodeInfosForGroups`: the cache entries of the groups not seen
are deleted. -/
def pruneCache (st : SynthState) : SynthState :=
  { st with
    nodeInfoCache := st.nodeInfoCache.map (fun cache => fun id =>
      if id ∈ st.seenGroups then cache id else none) }

/-- The last loop of `GetNodeInfosForGroups`, over the nodes that are not ready and
schedulable: the state it ends in and the error it returns with, if any. -/
def unreadyNodesLoop (process : Node → SynthState → ProcessResult × SynthState)
    (cloudProvider : CloudProvider) :
    List Node → SynthState → SynthState × Option AutoscalerError
  | [], st => (st, none)
  | node :: rest, st =>
    if !IsNodeReadyAndSchedulable node then
      match process node st with
      | ((_, _, some typedErr), st1) => (st1, some typedErr)
      | ((_, _, none), st1) =>
        match cloudProvider.NodeGroupForNode node with
        | .error err =>
          (st1, some (ToAutoscalerError AutoscalerErrorType.CloudProviderError err))
        | .ok _ => unreadyNodesLoop process cloudProvider rest st1
    else unreadyNodesLoop process cloudProvider rest st

/-- What a call of `GetNodeInfosForGroups` leaves: the two values it returns, the cache
after the call and the random generator after the call. -/
structure SynthOutcome where
  result : NodeInfoMap
  err : Option AutoscalerError
  nodeInfoCache : Option NodeInfoMap
  rng : Rng

/-- Function `GetNodeInfosForGroups`, with the functions of other packages and the state of
the random generator. -/
def GetNodeInfosForGroups {S : Type} (deps : UtilsDeps) (nodes : List Node)
    (nodeInfoCache : Option NodeInfoMap) (cloudProvider : CloudProvider)
    (listers : ListerRegistry) (daemonsets : List DaemonSet)
    (predicateChecker : PredicateChecker S) (ignoredTaints : List String)
    (forceTemplateFromCloudProvider : Bool) (rng : Rng) : SynthOutcome :=
  match getPodsForNodes listers with
  | .error err =>
    { result := NodeInfoMap.empty, err := some err, nodeInfoCache := nodeInfoCache, rng := rng }
  | .ok podsForNodes =>
    let process := processNodeFor deps cloudProvider podsForNodes ignoredTaints
      forceTemplateFromCloudProvider
    match readyNodesLoop process nodes
        { result := NodeInfoMap.empty, seenGroups := [], nodeInfoCache := nodeInfoCache,
          rng := rng } with
    | (st1, some typedErr) =>
      { result := NodeInfoMap.empty, err := some typedErr, nodeInfoCache := st1.nodeInfoCache,
        rng := st1.rng }
    | (st1, none) =>
      let st2 := nodeGroupsLoop deps daemonsets predicateChecker ignoredTaints
        cloudProvider.NodeGroups st1
      let st3 := pruneCache st2
      match unreadyNodesLoop process cloudProvider nodes st3 with
      | (st4, some typedErr) =>
        { result := NodeInfoMap.empty, err := some typedErr,
          nodeInfoCache := st4.nodeInfoCache, rng := st4.rng }
      | (st4, none) =>
        { result := st4.result, err := none, nodeInfoCache := st4.nodeInfoCache,
          rng := st4.rng }

/-- The loop of `FilterOutNodesFromNotAutoscaledGroups`, from the nodes collected so far:
the two values the function returns. -/
def filterOutLoop (cloudProvider : CloudProvider) :
    List Node → List Node → List Node × Option AutoscalerError
  | [], result => (result, none)
  | node :: rest, result =>
    match cloudProvider.NodeGroupForNode node with
    | .error err => ([], some (ToAutoscalerError AutoscalerErrorType.CloudProviderError err))
    | .ok none => filterOutLoop cloudProvider rest (result ++ [node])
    | .ok (some _) => filterOutLoop cloudProvider rest result

/-- Function `FilterOutNodesFromNotAutoscaledGroups`. -/
def FilterOutNodesFromNotAutoscaledGroups (nodes : List Node) (cloudProvider : CloudProvider) :
    List Node × Option AutoscalerError :=
  filterOutLoop cloudProvider nodes []

/-! ## The functions that copy their argument, on a store of objects

`GetUnreadyNodeCopy`, `sanitizeTemplateNode` and `fixupContainers` take a pointer, call
`DeepCopy()` on it and write through the pointer they got. Here a pointer is an address of
a store, `DeepCopy()` allocates, and every write of the code goes to the address it goes
to in the code, so that what a call does to the object it was handed is a property of
these definitions. -/

/-- The objects of one Go type that are reached through pointers: the object at each
address, and the next address to allocate. The addresses below `next` are the allocated
ones. -/
structure Store (α : Type) where
  cells : Nat → α
  next : Nat

/-- The allocation of a new object with the value `v`: its address and the store after. -/
def Store.alloc {α : Type} (s : Store α) (v : α) : Nat × Store α :=
  (s.next, { cells := fun p => if p = s.next then v else s.cells p, next := s.next + 1 })

/-- A write through the pointer `p`: the object at `p` becomes `v`. -/
def Store.write {α : Type} (s : Store α) (p : Nat) (v : α) : Store α :=
  { s with cells := fun q => if q = p then v else s.cells q }

/-- Method `DeepCopy()` of an object all of whose parts are values of the cell (a node with
its labels, taints and conditions): a new object with the value of the object at `p`. -/
def Store.deepCopy {α : Type} (s : Store α) (p : Nat) : Nat × Store α :=
  s.alloc (s.cells p)

/-- Function `GetUnreadyNodeCopy` on the store of nodes: `node` is the pointer it is handed
and the result is the pointer it returns, with the store after the call. -/
def GetUnreadyNodeCopyInStore (s : Store Node) (node : Nat) : Nat × Store Node :=
  let (newNode, s) := s.deepCopy node
  let newReadyCondition : NodeCondition :=
    { type := NodeReady
      status := ConditionFalse
      lastTransitionTime := (s.cells node).creationTimestamp }
  let newNodeConditions := (s.cells newNode).conditions.foldl
    (fun newNodeConditions condition =>
      if condition.type ≠ NodeReady then newNodeConditions ++ [condition]
      else newNodeConditions)
    [newReadyCondition]
  let s := s.write newNode { s.cells newNode with conditions := newNodeConditions }
  (newNode, s)

/-- Function `sanitizeTemplateNode` on the store of nodes; `randInt63` is the result of its
call of `rand.Int63()`. The map that `make` returns is new and `newNode.Labels` alone
holds it, so the assignment `newNode.Labels[k] = v` is a write through `newNode`; the keys
of a Go map are distinct, so it adds an entry. -/
def sanitizeTemplateNodeInStore (s : Store Node) (node : Nat) (nodeGroup : String)
    (ignoredTaints : List String) (randInt63 : Nat) : Except AutoscalerError Nat × Store Node :=
  let (newNode, s) := s.deepCopy node
  let nodeName := "template-node-for-" ++ nodeGroup ++ "-" ++ toString randInt63
  let s := s.write newNode { s.cells newNode with labels := [] }
  let s := (s.cells node).labels.foldl
    (fun s kv =>
      if kv.1 ≠ LabelHostname then
        s.write newNode { s.cells newNode with labels := (s.cells newNode).labels ++ [(kv.1, kv.2)] }
      else
        s.write newNode
          { s.cells newNode with labels := (s.cells newNode).labels ++ [(kv.1, nodeName)] })
    s
  let s := s.write newNode { s.cells newNode with name := nodeName }
  let s := s.write newNode
    { s.cells newNode with taints := SanitizeTaints (s.cells newNode).taints ignoredTaints }
  (.ok newNode, s)

/-- An `apiv1.Container` as it lies in memory: the name and the two resource maps of
`Resources`, which are references (`none` is the nil map). -/
structure ContainerObject where
  name : String := ""
  limits : Option Nat := none
  requests : Option Nat := none
  deriving DecidableEq, Repr

/-- The pod specs reached through pointers, each with the container structs of its
`Containers` slice, and the resource maps that the containers refer to. -/
structure SpecStore where
  specs : Store (List ContainerObject)
  maps : Store ResourceList

/-- The deep copy of a resource map: nil for the nil map, a new map with the same entries
otherwise. -/
def copyResourceList (maps : Store ResourceList) (m : Option Nat) :
    Option Nat × Store ResourceList :=
  match m with
  | none => (none, maps)
  | some a =>
    let (a', maps) := maps.alloc (maps.cells a)
    (some a', maps)

/-- The deep copy of the containers of a pod spec, one after the other: the limits and the
requests of each are copied. -/
def deepCopyContainers (maps : Store ResourceList) :
    List ContainerObject → List ContainerObject × Store ResourceList
  | [] => ([], maps)
  | container :: rest =>
    let (limits, maps) := copyResourceList maps container.limits
    let (requests, maps) := copyResourceList maps container.requests
    let (rest, maps) := deepCopyContainers maps rest
    ({ container with limits := limits, requests := requests } :: rest, maps)

/-- Method `DeepCopy()` of `apiv1.PodSpec`: a new pod spec whose containers have new
resource maps with the entries of those of the spec at `spec`. -/
def SpecStore.deepCopy (s : SpecStore) (spec : Nat) : Nat × SpecStore :=
  let (containers, maps) := deepCopyContainers s.maps (s.specs.cells spec)
  let (newSpec, specs) := s.specs.alloc containers
  (newSpec, { specs := specs, maps := maps })

/-- The loop over `container.Resources.Limits` in `fixupContainers`, on the store of the
resource maps: `requests` is the local `container.Resources.Requests`, and the entries of
the limits are those the loop ranges over. A resource without a request is written into
the map that `requests` refers to, which is made first when `requests` is nil. -/
def fixupRequestsInStore (maps : Store ResourceList) (requests : Option Nat) :
    List (String × Int) → Option Nat × Store ResourceList
  | [] => (requests, maps)
  | (resourceName, resourceValue) :: rest =>
    match requests with
    | none =>
      let (made, maps) := maps.alloc []
      let maps := maps.write made (maps.cells made ++ [(resourceName, resourceValue)])
      fixupRequestsInStore maps (some made) rest
    | some a =>
      if ((maps.cells a).lookup resourceName).isNone then
        fixupRequestsInStore
          (maps.write a (maps.cells a ++ [(resourceName, resourceValue)])) (some a) rest
      else fixupRequestsInStore maps (some a) rest

/-- The body of the loop `for i := range newSpec.Containers` of `fixupContainers`: the
container struct at index `i` is copied to the local `container`, the loop over its limits
runs, and the local is written back to index `i`. -/
def fixupContainerInStore (s : SpecStore) (newSpec i : Nat) : SpecStore :=
  match (s.specs.cells newSpec)[i]? with
  | none => s
  | some container =>
    let limits :=
      match container.limits with
      | none => []
      | some a => s.maps.cells a
    let (requests, maps) := fixupRequestsInStore s.maps container.requests limits
    let container := { container with requests := requests }
    { specs := s.specs.write newSpec ((s.specs.cells newSpec).set i container), maps := maps }

/-- The loop `for i := range newSpec.Containers` of `fixupContainers`, over the indices
given. -/
def fixupContainersLoop (newSpec : Nat) (indices : List Nat) (s : SpecStore) : SpecStore :=
  indices.foldl (fun s i => fixupContainerInStore s newSpec i) s

/-- Function `fixupContainers` on the store of pod specs and resource maps: `spec` is the
pointer it is handed and the result is the pointer it returns, with the store after the
call. -/
def fixupContainersInStore (s : SpecStore) (spec : Nat) : Nat × SpecStore :=
  let (newSpec, s) := s.deepCopy spec
  (newSpec, fixupContainersLoop newSpec (List.range (s.specs.cells newSpec).length) s)

/-! ## Concrete collaborators for the closed examples -/

/-- Go map lookup `m[k]` with the found flag. -/
def StringMap.get? (m : StringMap) (k : String) : Option String :=
  (m.find? (fun kv => kv.1 == k)).map (fun kv => kv.2)

/-- One requirement of a selector as a test on a label set, for the four operators of
`metav1.LabelSelectorOperator`; an error for any other operator and for a value list of
the wrong shape for the operator. -/
def requirementAsSelector (r : LabelSelectorRequirement) : Except String Selector :=
  if r.operator = "In" then
    if r.values = [] then .error "for 'in', 'notin' operators, values set can't be empty"
    else .ok (fun ls => match ls.get? r.key with
      | some v => decide (v ∈ r.values)
      | none => false)
  else if r.operator = "NotIn" then
    if r.values = [] then .error "for 'in', 'notin' operators, values set can't be empty"
    else .ok (fun ls => match ls.get? r.key with
      | some v => !decide (v ∈ r.values)
      | none => true)
  else if r.operator = "Exists" then
    if r.values = [] then .ok (fun ls => (ls.get? r.key).isSome)
    else .error "values set must be empty for exists and does not exist"
  else if r.operator = "DoesNotExist" then
    if r.values = [] then .ok (fun ls => (ls.get? r.key).isNone)
    else .error "values set must be empty for exists and does not exist"
  else .error ("\"" ++ r.operator ++ "\" is not a valid pod selector operator")

/-- The conversion of the expression list: the conjunction of the requirements, or the
error of the first requirement that does not convert. -/
def expressionsAsSelector : List LabelSelectorRequirement → Except String Selector
  | [] => .ok (fun _ => true)
  | r :: rest =>
    match requirementAsSelector r with
    | .error err => .error err
    | .ok m =>
      match expressionsAsSelector rest with
      | .error err => .error err
      | .ok sel => .ok (fun ls => m ls && sel ls)

/-- A concrete selector conversion in the manner of `metav1.LabelSelectorAsSelector`, used
to instantiate the conversion parameter in the closed examples: a nil selector matches
nothing, `matchLabels` are equalities, the expressions use the four operators, and an
unknown operator is a conversion error. The syntax checks of keys and values are left out. -/
def exampleLabelSelectorAsSelector : Option LabelSelector → Except String Selector
  | none => .ok (fun _ => false)
  | some ps =>
    match expressionsAsSelector ps.matchExpressions with
    | .error err => .error err
    | .ok sel =>
      .ok (fun ls => ps.matchLabels.all (fun kv => ls.get? kv.1 == some kv.2) && sel ls)

/-- A concrete eligibility delegate for the closed examples: every pod is movable. -/
def exampleDelegate :
    List Pod → List PodDisruptionBudget → Bool → Bool → Bool → Option Unit → Int → Time →
      DrainResult :=
  fun pods _ _ _ _ _ _ _ => (pods, none, none)

/-- The concrete collaborators of the closed examples. -/
def exampleDeps : DrainDeps Unit where
  LabelSelectorAsSelector := exampleLabelSelectorAsSelector
  GetPodsForDeletionOnNodeDrain := exampleDelegate

/-- A concrete `BuildNodeInfoForNode` for the closed examples: the node with the pods
listed under its name. -/
def exampleBuildNodeInfoForNode (node : Node) (podsForNodes : String → List Pod) :
    Except AutoscalerError NodeInfo :=
  .ok { node := node, pods := podsForNodes node.name }

/-- A concrete `IsFakeKubeProxyPod` for the closed examples: the pods of namespace
"kube-system" named "kube-proxy-fake". -/
def exampleIsFakeKubeProxyPod (pod : Pod) : Bool :=
  pod.ns == "kube-system" && pod.name == "kube-proxy-fake"

/-- The concrete functions of other packages of the closed examples. -/
def exampleUtilsDeps : UtilsDeps where
  BuildNodeInfoForNode := exampleBuildNodeInfoForNode
  IsFakeKubeProxyPod := exampleIsFakeKubeProxyPod

/-- A concrete snapshot and predicate checker for the closed examples. The snapshot is the
staged node with its pods and staging always succeeds. A pod labelled `fits=no` is
rejected as not schedulable, a pod labelled `fits=error` makes the checker fail, and
every other pod is admitted. -/
def examplePredicateChecker : PredicateChecker NodeInfo where
  AddNodeWithPods := fun node pods => .ok { node := node, pods := pods }
  CheckPredicates := fun _ pod _ =>
    if pod.labels.get? "fits" = some "no" then
      some { errorType := PredicateErrorType.NotSchedulablePredicateError,
             message := "does not fit" }
    else if pod.labels.get? "fits" = some "error" then
      some { errorType := PredicateErrorType.InternalPredicateError, message := "broken" }
    else none

/-- A concrete random generator for the closed examples: the draws 1, 2, 3, ... -/
def exampleRng : Rng := fun i => i + 1

/-! ## Vocabulary of the statements -/

/-- The condition is of one of the three types `GetReadinessState` examines. -/
def isExamined (cond : NodeCondition) : Bool :=
  cond.type == NodeReady || cond.type == NodeDiskPressure ||
    cond.type == NodeNetworkUnavailable

/-- The transition times of the node's conditions of type Ready, DiskPressure and
NetworkUnavailable, in list order. -/
def examinedTimes (node : Node) : List Time :=
  (node.conditions.filter isExamined).map (fun cond => cond.lastTransitionTime)

/-- Instant `t` is the maximum (latest) of the instants `ts`. -/
def IsLatestOf (ts : List Time) (t : Time) : Prop :=
  t ∈ ts ∧ ∀ u ∈ ts, u ≤ t

/-- A condition that makes the loop clear `canNodeBeReady`. -/
def clearsReady (c : NodeCondition) : Bool :=
  (c.type == NodeReady && (c.status == ConditionFalse || c.status == ConditionUnknown)) ||
  (c.type == NodeDiskPressure && c.status == ConditionTrue) ||
  (c.type == NodeNetworkUnavailable && c.status == ConditionTrue)

/-- The budget `pdb`, with converted selector `selector`, blocks `pod`: same namespace,
the selector matches the pod's labels, and less than one disruption is allowed. -/
def PdbBlocks (pdb : PodDisruptionBudget) (selector : Selector) (pod : Pod) : Prop :=
  pod.ns = pdb.ns ∧ selector pod.labels = true ∧ pdb.disruptionsAllowed < 1

instance (pdb : PodDisruptionBudget) (selector : Selector) (pod : Pod) :
    Decidable (PdbBlocks pdb selector pod) := by
  unfold PdbBlocks
  infer_instance

/-- The budget converts to a selector and blocks none of `pods`. -/
def PdbPasses (asSelector : Option LabelSelector → Except String Selector)
    (pods : List Pod) (pdb : PodDisruptionBudget) : Prop :=
  ∃ selector, asSelector pdb.selector = .ok selector ∧ ∀ p ∈ pods, ¬ PdbBlocks pdb selector p

/-- Pod `pod` is the first pod of `pods` (in list order) blocked by the first budget of
`pdbs` (in list order) that blocks one of `pods`, and every budget before that one
converts to a selector. -/
def FirstPdbViolation (asSelector : Option LabelSelector → Except String Selector)
    (pods : List Pod) (pdbs : List PodDisruptionBudget) (pod : Pod) : Prop :=
  ∃ pre pdb post selector before after,
    pdbs = pre ++ pdb :: post ∧ (∀ b ∈ pre, PdbPasses asSelector pods b) ∧
    asSelector pdb.selector = .ok selector ∧
    pods = before ++ pod :: after ∧ (∀ p ∈ before, ¬ PdbBlocks pdb selector p) ∧
    PdbBlocks pdb selector pod

/-- The shape of a drain result `r`, given the result `delegated` of the eligibility
delegate on the same input. Without error there is no blocking pod. With an error, a
blocking pod is named, or `r` is the failed delegate's result handed on unchanged, or `r`
is the conversion error of the selector of one of the budgets, with no pods and no
blocking pod. -/
def NamesBlockingPod (asSelector : Option LabelSelector → Except String Selector)
    (pdbs : List PodDisruptionBudget) (delegated r : DrainResult) : Prop :=
  (r.2.2 = none → r.2.1 = none) ∧
  (r.2.2 ≠ none →
    r.2.1 ≠ none ∨ (delegated.2.2 ≠ none ∧ r = delegated) ∨
    ∃ pdb ∈ pdbs, ∃ e, asSelector pdb.selector = .error e ∧ r = ([], none, some e))

/-- The value of a list of decimal digit characters. -/
def digitsValue (l : List Char) : Nat :=
  l.foldl (fun a c => 10 * a + (c.toNat - 48)) 0

/-- The pods that `GetDaemonSetPodsForNode` synthesizes, one per daemon set in the order of
the list: the pod of the `i`-th daemon set is made with the `i`-th draw of the generator. -/
def daemonCandidates (nodeName : String) : List DaemonSet → Rng → List Pod
  | [], _ => []
  | ds :: rest, rng => newPod ds nodeName rng.Int63.1 :: daemonCandidates nodeName rest rng.Int63.2

/-- Every pod of the node info is bound to the node of the node info. -/
def PodsBound (nodeInfo : NodeInfo) : Prop :=
  ∀ pod ∈ nodeInfo.pods, pod.nodeName = nodeInfo.node.name

/-- The state in which `GetNodeInfosForGroups` enters its first loop. -/
def initialState (nodeInfoCache : Option NodeInfoMap) (rng : Rng) : SynthState :=
  { result := NodeInfoMap.empty, seenGroups := [], nodeInfoCache := nodeInfoCache, rng := rng }

/-- The cloud provider places the node in a node group of the given id. -/
def BelongsTo (cloudProvider : CloudProvider) (id : String) (node : Node) : Prop :=
  ∃ nodeGroup, cloudProvider.NodeGroupForNode node = .ok (some nodeGroup) ∧ nodeGroup.id = id

/-- Element `a` of the list `l` satisfies `P`, and no element before it does. -/
def IsFirstWith {α : Type} (P : α → Prop) (l : List α) (a : α) : Prop :=
  ∃ pre post, l = pre ++ a :: post ∧ (∀ b ∈ pre, ¬ P b) ∧ P a

/-- The call of `GetNodeInfosForGroups` gets to the pruning of the cache: the listing of the
scheduled pods succeeds and the first loop, over the ready nodes, returns no error. -/
def ReachesPruning (deps : UtilsDeps) (nodes : List Node) (nodeInfoCache : Option NodeInfoMap)
    (cloudProvider : CloudProvider) (listers : ListerRegistry) (ignoredTaints : List String)
    (forceTemplateFromCloudProvider : Bool) (rng : Rng) : Prop :=
  ∃ podsForNodes, getPodsForNodes listers = .ok podsForNodes ∧
    (readyNodesLoop (processNodeFor deps cloudProvider podsForNodes ignoredTaints
      forceTemplateFromCloudProvider) nodes (initialState nodeInfoCache rng)).2 = none

/-- Every template of the result and every entry of the cache has its pods bound to its
node. -/
def StateBound (st : SynthState) : Prop :=
  (∀ id t, st.result id = some t → PodsBound t) ∧
  (∀ cache, st.nodeInfoCache = some cache → ∀ id t, cache id = some t → PodsBound t)

/-- The generator after `k` calls of `rand.Int63()`. -/
def Rng.drop (k : Nat) (r : Rng) : Rng := fun i => r (i + k)

/-- The generators `r` and `r'` give the same first `k` results. -/
def Rng.AgreeUpTo (k : Nat) (r r' : Rng) : Prop := ∀ i, i < k → r' i = r i

/-- A step of `GetNodeInfosForGroups`, from a state to a state and the error it returns
with, if any. -/
abbrev SynthStep := SynthState → SynthState × Option AutoscalerError

/-- Step `F` followed by step `G`, unless `F` returns with an error. -/
def seqStep (F G : SynthStep) : SynthStep := fun st =>
  match F st with
  | (st1, some e) => (st1, some e)
  | (st1, none) => G st1

/-- A step reads the random generator through a number of calls of `rand.Int63()` only:
from every state it makes `k` calls, for some `k`, and from the same state with another
generator that gives the same first `k` results it does the same and leaves that generator
after `k` calls. -/
def StepLocal (F : SynthStep) : Prop :=
  ∀ st, ∃ k, (F st).1.rng = Rng.drop k st.rng ∧
    ∀ r', Rng.AgreeUpTo k st.rng r' →
      F { st with rng := r' } = ({ (F st).1 with rng := Rng.drop k r' }, (F st).2)

/-- One iteration of the first loop of `GetNodeInfosForGroups`, as a step. -/
def readyStep (process : Node → SynthState → ProcessResult × SynthState) (node : Node) :
    SynthStep := fun st =>
  if !IsNodeReadyAndSchedulable node then (st, none)
  else
    match process node st with
    | ((_, _, some typedErr), st1) => (st1, some typedErr)
    | ((added, id, none), st1) => (cacheAdded added id st1, none)

/-- The generator `r` without its results `k`, ..., `k + d - 1`: the first `k` results of
`r`, then those that follow the `d` skipped ones. -/
def Rng.skip (k d : Nat) (r : Rng) : Rng := fun i => if i < k then r i else r (i + d)

/-- The loops of `GetNodeInfosForGroups` after the listing of the pods, as one step: the
first loop, then, unless it returns with an error, the second loop, the pruning of the
cache and the last loop. -/
def synthesisLoops {S : Type} (deps : UtilsDeps) (cloudProvider : CloudProvider)
    (podsForNodes : String → List Pod) (daemonsets : List DaemonSet)
    (predicateChecker : PredicateChecker S) (ignoredTaints : List String)
    (forceTemplateFromCloudProvider : Bool) (nodes : List Node) : SynthStep :=
  seqStep
    (readyNodesLoop (processNodeFor deps cloudProvider podsForNodes ignoredTaints
      forceTemplateFromCloudProvider) nodes)
    (fun st =>
      unreadyNodesLoop (processNodeFor deps cloudProvider podsForNodes ignoredTaints
        forceTemplateFromCloudProvider) cloudProvider nodes
        (pruneCache (nodeGroupsLoop deps daemonsets predicateChecker ignoredTaints
          cloudProvider.NodeGroups st)))

/-- The cloud provider answers, without error, that the node has no node group. -/
def hasNoNodeGroup (cloudProvider : CloudProvider) (node : Node) : Bool :=
  match cloudProvider.NodeGroupForNode node with
  | .ok none => true
  | _ => false

/-- The lookup of the node group of the node fails. -/
def lookupFails (cloudProvider : CloudProvider) (node : Node) : Bool :=
  match cloudProvider.NodeGroupForNode node with
  | .error _ => true
  | .ok _ => false

/-- The string is made of decimal digits only, and of one at least. -/
def isDecimal (s : String) : Bool :=
  !s.toList.isEmpty && s.toList.all Char.isDigit

/-- A daemon pod that makes `effectiveNodePods` drop the fake kube-proxy pods: a pod of
namespace "kube-system" whose name contains "kube-proxy". -/
def isDaemonsetKubeProxy (pod : Pod) : Bool :=
  pod.ns == "kube-system" && strContains pod.name "kube-proxy"

/-- The entries of the resource map that `m` refers to; the nil map has none. -/
def resourceListAt (maps : Store ResourceList) (m : Option Nat) : ResourceList :=
  match m with
  | none => []
  | some a => maps.cells a

/-- The container that a container struct stands for, with the entries of its maps. -/
def containerAt (maps : Store ResourceList) (c : ContainerObject) : Container :=
  { name := c.name
    limits := resourceListAt maps c.limits
    requests := resourceListAt maps c.requests }

/-- The containers of the pod spec at `spec`, with the entries of their resource maps. -/
def SpecStore.containers (s : SpecStore) (spec : Nat) : List Container :=
  (s.specs.cells spec).map (containerAt s.maps)

/-- The references of the resource maps of a container struct. -/
def ContainerObject.refs (c : ContainerObject) : List Nat :=
  c.limits.toList ++ c.requests.toList

/-- The references of the resource maps of the container structs of a list. -/
def refsOf : List ContainerObject → List Nat
  | [] => []
  | c :: rest => c.refs ++ refsOf rest

/-- The pod spec at `spec` is allocated, with the resource maps of its containers. -/
def SpecStore.Allocated (s : SpecStore) (spec : Nat) : Prop :=
  spec < s.specs.next ∧ ∀ a ∈ refsOf (s.specs.cells spec), a < s.maps.next

/-! ## Concrete inputs of the closed examples -/

/-- A node without a Ready condition, under disk pressure, cordoned and tainted. -/
def nodeWithoutReady : Node :=
  { name := "n1"
    unschedulable := true
    taints := [{ key := nodeNotReadyZalandoTaint, effect := "NoSchedule" }]
    conditions :=
      [{ type := NodeDiskPressure, status := ConditionTrue, lastTransitionTime := 7 },
       { type := "MemoryPressure", status := ConditionFalse, lastTransitionTime := 9 }] }

/-- A healthy node: Ready, no pressure, an unrelated taint. -/
def healthyNode : Node :=
  { name := "n2"
    taints := [{ key := "dedicated", value := "db", effect := "NoSchedule" }]
    conditions :=
      [{ type := NodeReady, status := ConditionTrue, lastTransitionTime := 5 },
       { type := NodeDiskPressure, status := ConditionFalse, lastTransitionTime := 8 },
       { type := NodeNetworkUnavailable, status := ConditionFalse, lastTransitionTime := 3 },
       { type := "MemoryPressure", status := ConditionTrue, lastTransitionTime := 11 }] }

/-- The healthy node with the reserved not-ready taint added. -/
def taintedNode : Node :=
  { healthyNode with taints := [{ key := nodeNotReadyZalandoTaint, effect := "NoSchedule" }] }

/-- A node whose only condition is a Ready condition that changed one instant before the
zero value of `time.Time`. -/
def earlyNode : Node :=
  { name := "n3"
    conditions := [{ type := NodeReady, status := ConditionTrue, lastTransitionTime := -1 }] }

/-- A pod of namespace "ns" labelled `app=x`. -/
def podA : Pod := { ns := "ns", name := "a", labels := [("app", "x")] }

/-- A second pod of namespace "ns" labelled `app=x`. -/
def podB : Pod := { ns := "ns", name := "b", labels := [("app", "x"), ("tier", "web")] }

/-- A pod of namespace "ns" with other labels. -/
def podC : Pod := { ns := "ns", name := "c", labels := [("app", "y")] }

/-- A pod owned by a batch Job. -/
def jobPod : Pod :=
  { ns := "ns", name := "j", labels := [("app", "x")]
    ownerReferences :=
      [{ apiVersion := "apps/v1", kind := "ReplicaSet", name := "rs" },
       { apiVersion := "batch/v1", kind := "Job", name := "job" }] }

/-- A second pod owned by a batch Job. -/
def jobPod2 : Pod :=
  { ns := "ns", name := "k"
    ownerReferences := [{ apiVersion := "batch/v1beta1", kind := "Job", name := "job2" }] }

/-- A budget of namespace "ns" selecting `app=x` with no disruption left. -/
def pdbTight : PodDisruptionBudget :=
  { ns := "ns", name := "tight", selector := some { matchLabels := [("app", "x")] }
    disruptionsAllowed := 0 }

/-- A budget of namespace "ns" selecting `app=x` with one disruption left. -/
def pdbLoose : PodDisruptionBudget :=
  { ns := "ns", name := "loose", selector := some { matchLabels := [("app", "x")] }
    disruptionsAllowed := 1 }

/-- A budget of another namespace selecting `app=x` with no disruption left. -/
def pdbElsewhere : PodDisruptionBudget :=
  { ns := "other", name := "elsewhere", selector := some { matchLabels := [("app", "x")] }
    disruptionsAllowed := 0 }

/-- A budget of namespace "ns" selecting `app=z` with a negative count. -/
def pdbUnmatched : PodDisruptionBudget :=
  { ns := "ns", name := "unmatched", selector := some { matchLabels := [("app", "z")] }
    disruptionsAllowed := -1 }

/-- A budget whose selector uses an operator that does not exist. -/
def pdbMalformed : PodDisruptionBudget :=
  { ns := "ns", name := "malformed"
    selector := some { matchExpressions := [{ key := "app", operator := "Bogus" }] }
    disruptionsAllowed := 1 }

/-- A daemon set of namespace "kube-system" whose pods carry no label. -/
def dsLogging : DaemonSet :=
  { ns := "kube-system", name := "logging"
    template := { containers := [{ name := "agent", limits := [("cpu", 100)] }] } }

/-- A daemon set whose pods the example checker rejects as not schedulable. -/
def dsTooBig : DaemonSet :=
  { ns := "monitoring", name := "big", template := { labels := [("fits", "no")] } }

/-- A daemon set on whose pods the example checker fails. -/
def dsBroken : DaemonSet :=
  { ns := "monitoring", name := "broken", template := { labels := [("fits", "error")] } }

/-- A daemon set of namespace "default". -/
def dsProxy : DaemonSet := { ns := "default", name := "proxy" }

/-- A base template of a cloud provider: a node of 4 CPU and 8Gi with one declared pod. -/
def baseTemplate : NodeInfo :=
  { node := { name := "base", labels := [(LabelHostname, "base"), ("zone", "a")]
              capacity := [("cpu", 4000), ("memory", 8589934592000)]
              allocatable := [("cpu", 4000), ("memory", 8589934592000)] }
    pods := [{ ns := "kube-system", name := "static", nodeName := "base" }] }

/-- A concrete cloud provider for the closed examples. It enumerates the node groups
"ng-1", whose template is `baseTemplate`, and "ng-2", which has no template. A node
labelled `group=<id>` belongs to the node group `<id>` with the template `baseTemplate`,
the lookup fails for a node labelled `group=broken`, and a node without that label
belongs to no node group. -/
def exampleCloudProvider : CloudProvider where
  NodeGroupForNode := fun node =>
    match node.labels.get? "group" with
    | none => .ok none
    | some id =>
      if id = "broken" then .error "lookup failed"
      else .ok (some { id := id, templateNodeInfo := .ok baseTemplate })
  NodeGroups :=
    [{ id := "ng-1", templateNodeInfo := .ok baseTemplate },
     { id := "ng-2", templateNodeInfo := .error "no template" }]

/-- A ready node of the node group "ng-1". -/
def readyNode1 : Node :=
  { healthyNode with name := "live-1", labels := [("group", "ng-1"), (LabelHostname, "live-1")] }

/-- A ready node for which the lookup of the node group fails. -/
def readyNodeBroken : Node :=
  { healthyNode with name := "live-x", labels := [("group", "broken")] }

/-- A node that is not ready and for which the lookup of the node group fails. -/
def unreadyNodeBroken : Node :=
  { nodeWithoutReady with name := "down-x", labels := [("group", "broken")] }

/-- A node of the node group "ng-2" that is not ready. -/
def unreadyNode2 : Node :=
  { nodeWithoutReady with name := "down-2", labels := [("group", "ng-2")], taints := [] }

/-- A lister registry with one pod scheduled on "live-1". -/
def exampleListers : ListerRegistry :=
  { scheduledPods := .ok [{ ns := "ns", name := "a", nodeName := "live-1" }] }

/-- A cached template whose pod is bound to another node than the template's. -/
def staleTemplate : NodeInfo :=
  { node := { name := "old-node", capacity := [("cpu", 2000)] }
    pods := [{ ns := "ns", name := "p", nodeName := "elsewhere" }] }

/-- A cache with one entry, under the key `id`. -/
def cacheWith (id : String) (nodeInfo : NodeInfo) : Option NodeInfoMap :=
  some (NodeInfoMap.empty.set id nodeInfo)

/-- A base template of a node of zone "b". -/
def zoneBTemplate : NodeInfo :=
  { node := { name := "base-b", labels := [(LabelHostname, "base-b"), ("zone", "b")] } }

/-- A node group "ng-b" whose template is `zoneBTemplate`. -/
def groupB : NodeGroup := { id := "ng-b", templateNodeInfo := .ok zoneBTemplate }

/-- A node group "ng-1" whose template is `baseTemplate`. -/
def group1 : NodeGroup := { id := "ng-1", templateNodeInfo := .ok baseTemplate }

/-- A predicate checker that fails for every pod on a staged node labelled `zone=b` and
admits every pod elsewhere. -/
def zonedPredicateChecker : PredicateChecker NodeInfo where
  AddNodeWithPods := fun node pods => .ok { node := node, pods := pods }
  CheckPredicates := fun snapshot _ _ =>
    if snapshot.node.labels.get? "zone" = some "b" then
      some { errorType := PredicateErrorType.InternalPredicateError,
             message := "zone b is closed" }
    else none

/-- A cloud provider that enumerates "ng-b" before "ng-1" and looks nodes up as
`exampleCloudProvider` does. -/
def zonedCloudProvider : CloudProvider where
  NodeGroupForNode := exampleCloudProvider.NodeGroupForNode
  NodeGroups := [groupB, group1]

/-- A base template of a cloud provider that declares no pod: a node of 4 CPU and 8Gi. -/
def bareTemplate : NodeInfo :=
  { node := { name := "base", labels := [(LabelHostname, "base"), ("zone", "a")]
              capacity := [("cpu", 4000), ("memory", 8589934592000)]
              allocatable := [("cpu", 4000), ("memory", 8589934592000)] } }

/-- The node group "ng-1" with the template `bareTemplate`. -/
def bareGroup1 : NodeGroup := { id := "ng-1", templateNodeInfo := .ok bareTemplate }

/-- A cloud provider that enumerates the node group "ng-1" of template `bareTemplate` and
no other, and looks nodes up as `exampleCloudProvider` does. -/
def scenarioCloudProvider : CloudProvider where
  NodeGroupForNode := exampleCloudProvider.NodeGroupForNode
  NodeGroups := [bareGroup1]

/-- The daemon set "kube-proxy" of namespace "kube-system". -/
def dsKubeProxy : DaemonSet := { ns := "kube-system", name := "kube-proxy" }

/-- The fake kube-proxy pod that a base template declares, by `exampleIsFakeKubeProxyPod`. -/
def fakeKubeProxyPod : Pod := { ns := "kube-system", name := "kube-proxy-fake", nodeName := "base" }

/-- A base template that declares the fake kube-proxy pod and a second pod. -/
def proxyTemplate : NodeInfo :=
  { node := { name := "base", labels := [(LabelHostname, "base")] }
    pods := [fakeKubeProxyPod, { ns := "kube-system", name := "static", nodeName := "base" }] }

/-- The node group "ng-1" with the template `proxyTemplate`. -/
def proxyGroup1 : NodeGroup := { id := "ng-1", templateNodeInfo := .ok proxyTemplate }

/-- A store of nodes with three allocated nodes: `healthyNode` at address 0,
`nodeWithoutReady` at address 1 and `readyNode1` at address 2. -/
def exampleNodeStore : Store Node :=
  { cells := fun p =>
      if p = 0 then healthyNode
      else if p = 1 then nodeWithoutReady
      else if p = 2 then readyNode1
      else {}
    next := 3 }

/-- A store with one allocated pod spec, at address 0, of two containers: "agent", with
limits for CPU and memory in the map 0 and requests for memory and disk in the map 1, and
"sidecar", with a limit for CPU in the map 2 and nil requests. -/
def exampleSpecStore : SpecStore :=
  { specs :=
      { cells := fun p =>
          if p = 0 then
            [{ name := "agent", limits := some 0, requests := some 1 },
             { name := "sidecar", limits := some 2, requests := none }]
          else []
        next := 1 }
    maps :=
      { cells := fun a =>
          if a = 0 then [("cpu", 100), ("memory", 200)]
          else if a = 1 then [("memory", 50), ("disk", 7)]
          else if a = 2 then [("cpu", 10)]
          else []
        next := 3 } }

end Autoscaler

namespace Autoscaler

/-! ## Lemmas on the store of objects -/

theorem Store.alloc_fst {α : Type} (s : Store α) (v : α) : (s.alloc v).1 = s.next := rfl

theorem Store.alloc_next {α : Type} (s : Store α) (v : α) : (s.alloc v).2.next = s.next + 1 :=
  rfl

theorem Store.alloc_cells_new {α : Type} (s : Store α) (v : α) :
    (s.alloc v).2.cells s.next = v := by
  simp [Store.alloc]

theorem Store.alloc_cells_old {α : Type} (s : Store α) (v : α) (p : Nat) (h : p < s.next) :
    (s.alloc v).2.cells p = s.cells p := by
  have hne : p ≠ s.next := Nat.ne_of_lt h
  simp [Store.alloc, hne]

theorem Store.write_next {α : Type} (s : Store α) (p : Nat) (v : α) :
    (s.write p v).next = s.next := rfl

theorem Store.write_cells_self {α : Type} (s : Store α) (p : Nat) (v : α) :
    (s.write p v).cells p = v := by
  simp [Store.write]

theorem Store.write_cells_other {α : Type} (s : Store α) (p q : Nat) (v : α) (h : q ≠ p) :
    (s.write p v).cells q = s.cells q := by
  simp [Store.write, h]

/-- `GetUnreadyNodeCopy` on the store: the pointer returned is a new address, the object
there is the copy that `GetUnreadyNodeCopy` describes, and every object allocated before
the call is what it was. -/
theorem GetUnreadyNodeCopyInStore_eq (s : Store Node) (node : Nat) (h : node < s.next) :
    (GetUnreadyNodeCopyInStore s node).1 = s.next ∧
    (GetUnreadyNodeCopyInStore s node).2.cells s.next = GetUnreadyNodeCopy (s.cells node) ∧
    (∀ q, q < s.next → (GetUnreadyNodeCopyInStore s node).2.cells q = s.cells q) ∧
    (GetUnreadyNodeCopyInStore s node).2.next = s.next + 1 := by
  have hne : node ≠ s.next := Nat.ne_of_lt h
  refine ⟨rfl, ?_, ?_, rfl⟩
  · simp [GetUnreadyNodeCopyInStore, Store.deepCopy, Store.alloc, Store.write,
      GetUnreadyNodeCopy, hne]
  · intro q hq
    have hq' : q ≠ s.next := Nat.ne_of_lt hq
    simp [GetUnreadyNodeCopyInStore, Store.deepCopy, Store.alloc, Store.write, hq']

/-- The loop over `node.Labels` of `sanitizeTemplateNode` on the store: it writes through
`newNode` only, and adds the rewritten labels to those of the object there. -/
theorem sanitizeLabelsLoop_eq (newNode : Nat) (nodeName : String) :
    ∀ (labels : StringMap) (s : Store Node),
      (labels.foldl
        (fun s kv =>
          if kv.1 ≠ LabelHostname then
            s.write newNode
              { s.cells newNode with labels := (s.cells newNode).labels ++ [(kv.1, kv.2)] }
          else
            s.write newNode
              { s.cells newNode with
                labels := (s.cells newNode).labels ++ [(kv.1, nodeName)] })
        s).cells newNode =
        { s.cells newNode with
          labels := (s.cells newNode).labels ++ labels.map (fun kv =>
            if kv.1 ≠ LabelHostname then (kv.1, kv.2) else (kv.1, nodeName)) } ∧
      (∀ q, q ≠ newNode →
        (labels.foldl
          (fun s kv =>
            if kv.1 ≠ LabelHostname then
              s.write newNode
                { s.cells newNode with labels := (s.cells newNode).labels ++ [(kv.1, kv.2)] }
            else
              s.write newNode
                { s.cells newNode with
                  labels := (s.cells newNode).labels ++ [(kv.1, nodeName)] })
          s).cells q = s.cells q) ∧
      (labels.foldl
        (fun s kv =>
          if kv.1 ≠ LabelHostname then
            s.write newNode
              { s.cells newNode with labels := (s.cells newNode).labels ++ [(kv.1, kv.2)] }
          else
            s.write newNode
              { s.cells newNode with
                labels := (s.cells newNode).labels ++ [(kv.1, nodeName)] })
        s).next = s.next
  | [], s => by simp
  | kv :: rest, s => by
    rw [List.foldl_cons]
    obtain ⟨h1, h2, h3⟩ := sanitizeLabelsLoop_eq newNode nodeName rest
      (if kv.1 ≠ LabelHostname then
        s.write newNode
          { s.cells newNode with labels := (s.cells newNode).labels ++ [(kv.1, kv.2)] }
      else
        s.write newNode
          { s.cells newNode with labels := (s.cells newNode).labels ++ [(kv.1, nodeName)] })
    refine ⟨?_, ?_, ?_⟩
    · rw [h1]
      by_cases hk : kv.1 = LabelHostname <;> simp [hk, Store.write]
    · intro q hq
      rw [h2 q hq]
      by_cases hk : kv.1 = LabelHostname <;> simp [hk, Store.write, hq]
    · rw [h3]
      by_cases hk : kv.1 = LabelHostname <;> simp [hk, Store.write]

/-- `sanitizeTemplateNode` on the store: it returns no error and a pointer that is a new
address, the object there is the node that `sanitizeTemplateNode` describes, and every
object allocated before the call is what it was. -/
theorem sanitizeTemplateNodeInStore_eq (s : Store Node) (node : Nat) (g : String)
    (ignoredTaints : List String) (n : Nat) (h : node < s.next) :
    (sanitizeTemplateNodeInStore s node g ignoredTaints n).1 = .ok s.next ∧
    sanitizeTemplateNode (s.cells node) g ignoredTaints n =
      .ok ((sanitizeTemplateNodeInStore s node g ignoredTaints n).2.cells s.next) ∧
    (∀ q, q < s.next →
      (sanitizeTemplateNodeInStore s node g ignoredTaints n).2.cells q = s.cells q) ∧
    (sanitizeTemplateNodeInStore s node g ignoredTaints n).2.next = s.next + 1 := by
  have hne : node ≠ s.next := Nat.ne_of_lt h
  obtain ⟨h1, h2, h3⟩ := sanitizeLabelsLoop_eq s.next
    ("template-node-for-" ++ g ++ "-" ++ toString n) (s.cells node).labels
    ((s.alloc (s.cells node)).2.write s.next
      { (s.alloc (s.cells node)).2.cells s.next with labels := [] })
  have hread : ((s.alloc (s.cells node)).2.write s.next
      { (s.alloc (s.cells node)).2.cells s.next with labels := [] }).cells node =
      s.cells node := by
    simp [Store.alloc, Store.write, hne]
  refine ⟨rfl, ?_, ?_, ?_⟩
  · simp only [sanitizeTemplateNodeInStore, Store.deepCopy, Store.alloc_fst, hread,
      Store.write_cells_self, h1, sanitizeTemplateNode]
    simp [Store.alloc]
  · intro q hq
    have hq' : q ≠ s.next := Nat.ne_of_lt hq
    simp only [sanitizeTemplateNodeInStore, Store.deepCopy, Store.alloc_fst, hread,
      Store.write_cells_other _ _ _ _ hq', h2 q hq']
    simp [Store.alloc, hq']
  · simp only [sanitizeTemplateNodeInStore, Store.deepCopy, Store.alloc_fst, hread,
      Store.write_next, h3]
    rfl

/-! ## Lemmas on the store of pod specs and resource maps -/

theorem resourceListAt_congr (maps maps' : Store ResourceList) (m : Option Nat)
    (h : ∀ a, m = some a → maps'.cells a = maps.cells a) :
    resourceListAt maps' m = resourceListAt maps m := by
  cases m with
  | none => rfl
  | some a => exact h a rfl

theorem containerAt_congr (maps maps' : Store ResourceList) (c : ContainerObject)
    (h : ∀ a ∈ c.refs, maps'.cells a = maps.cells a) :
    containerAt maps' c = containerAt maps c := by
  have hl : resourceListAt maps' c.limits = resourceListAt maps c.limits :=
    resourceListAt_congr maps maps' c.limits
      (fun a ha => h a (by simp [ContainerObject.refs, ha]))
  have hr : resourceListAt maps' c.requests = resourceListAt maps c.requests :=
    resourceListAt_congr maps maps' c.requests
      (fun a ha => h a (by simp [ContainerObject.refs, ha]))
  simp only [containerAt, hl, hr]

theorem containersAt_congr (maps maps' : Store ResourceList) :
    ∀ (cs : List ContainerObject), (∀ a ∈ refsOf cs, maps'.cells a = maps.cells a) →
      cs.map (containerAt maps') = cs.map (containerAt maps)
  | [], _ => rfl
  | c :: cs, h => by
    have hc := containerAt_congr maps maps' c
      (fun a ha => h a (by simp [refsOf, ha]))
    have hcs := containersAt_congr maps maps' cs
      (fun a ha => h a (by simp [refsOf, ha]))
    simp only [List.map_cons, hc, hcs]

theorem refsOf_append : ∀ (l1 l2 : List ContainerObject),
    refsOf (l1 ++ l2) = refsOf l1 ++ refsOf l2
  | [], _ => rfl
  | c :: l1, l2 => by
    have ih := refsOf_append l1 l2
    show c.refs ++ refsOf (l1 ++ l2) = (c.refs ++ refsOf l1) ++ refsOf l2
    rw [ih, List.append_assoc]

/-- The deep copy of a resource map: the map it returns is new and has the entries of the
map copied, and the maps allocated before are what they were. -/
theorem copyResourceList_eq (maps : Store ResourceList) (m : Option Nat) :
    maps.next ≤ (copyResourceList maps m).2.next ∧
    (∀ a, a < maps.next → (copyResourceList maps m).2.cells a = maps.cells a) ∧
    resourceListAt (copyResourceList maps m).2 (copyResourceList maps m).1 =
      resourceListAt maps m ∧
    (∀ a, (copyResourceList maps m).1 = some a →
      maps.next ≤ a ∧ a < (copyResourceList maps m).2.next) := by
  cases m with
  | none =>
    refine ⟨Nat.le_refl _, fun a _ => rfl, rfl, ?_⟩
    intro a ha
    cases ha
  | some a0 =>
    refine ⟨Nat.le_succ _, fun a ha => Store.alloc_cells_old _ _ a ha, ?_, ?_⟩
    · simp [copyResourceList, resourceListAt, Store.alloc]
    · intro a ha
      simp only [copyResourceList, Store.alloc, Option.some.injEq] at ha
      subst ha
      exact ⟨Nat.le_refl _, Nat.lt_succ_self _⟩

/-- The deep copy of the containers of a pod spec whose resource maps are allocated: the
copies stand for the same containers, their resource maps are new and distinct from one
another, and the maps allocated before are what they were. -/
theorem deepCopyContainers_eq :
    ∀ (cs : List ContainerObject) (maps : Store ResourceList),
      (∀ a ∈ refsOf cs, a < maps.next) →
      maps.next ≤ (deepCopyContainers maps cs).2.next ∧
      (∀ a, a < maps.next → (deepCopyContainers maps cs).2.cells a = maps.cells a) ∧
      (deepCopyContainers maps cs).1.map (containerAt (deepCopyContainers maps cs).2) =
        cs.map (containerAt maps) ∧
      (∀ a ∈ refsOf (deepCopyContainers maps cs).1,
        maps.next ≤ a ∧ a < (deepCopyContainers maps cs).2.next) ∧
      (refsOf (deepCopyContainers maps cs).1).Nodup
  | [], maps, _ =>
    ⟨Nat.le_refl _, fun _ _ => rfl, rfl, fun a ha => (List.not_mem_nil a ha).elim,
      List.nodup_nil⟩
  | c :: rest, maps, h => by
    obtain ⟨hl1, hl2, hl3, hl4⟩ := copyResourceList_eq maps c.limits
    generalize hcl : copyResourceList maps c.limits = cl at hl1 hl2 hl3 hl4
    obtain ⟨l', maps1⟩ := cl
    simp only at hl1 hl2 hl3 hl4
    obtain ⟨hr1, hr2, hr3, hr4⟩ := copyResourceList_eq maps1 c.requests
    generalize hcr : copyResourceList maps1 c.requests = cr at hr1 hr2 hr3 hr4
    obtain ⟨r', maps2⟩ := cr
    simp only at hr1 hr2 hr3 hr4
    have hc : ∀ a ∈ c.refs, a < maps.next := fun a ha => h a (by simp [refsOf, ha])
    have hrest0 : ∀ a ∈ refsOf rest, a < maps.next := fun a ha => h a (by simp [refsOf, ha])
    have hrest : ∀ a ∈ refsOf rest, a < maps2.next := fun a ha => by
      have := hrest0 a ha
      omega
    obtain ⟨ih1, ih2, ih3, ih4, ih5⟩ := deepCopyContainers_eq rest maps2 hrest
    generalize hdr : deepCopyContainers maps2 rest = dr at ih1 ih2 ih3 ih4 ih5
    obtain ⟨rest', maps3⟩ := dr
    simp only at ih1 ih2 ih3 ih4 ih5
    have hdef : deepCopyContainers maps (c :: rest) =
        ({ c with limits := l', requests := r' } :: rest', maps3) := by
      simp only [deepCopyContainers, hcl, hcr, hdr]
    rw [hdef]
    simp only
    have hold : ∀ a, a < maps.next → maps3.cells a = maps.cells a := by
      intro a ha
      rw [ih2 a (by omega), hr2 a (by omega), hl2 a ha]
    have hold2 : ∀ a, a < maps.next → maps2.cells a = maps.cells a := by
      intro a ha
      rw [hr2 a (by omega), hl2 a ha]
    refine ⟨by omega, hold, ?_, ?_, ?_⟩
    · have hlim : resourceListAt maps3 l' = resourceListAt maps c.limits := by
        rw [← hl3]
        apply resourceListAt_congr
        intro a ha
        have := hl4 a ha
        rw [ih2 a (by omega), hr2 a (by omega)]
      have hreq : resourceListAt maps3 r' = resourceListAt maps c.requests := by
        have h1 : resourceListAt maps3 r' = resourceListAt maps2 r' := by
          apply resourceListAt_congr
          intro a ha
          have := hr4 a ha
          rw [ih2 a (by omega)]
        have h2 : resourceListAt maps1 c.requests = resourceListAt maps c.requests := by
          apply resourceListAt_congr
          intro a ha
          exact hl2 a (hc a (by simp [ContainerObject.refs, ha]))
        rw [h1, hr3, h2]
      have htail : rest'.map (containerAt maps3) = rest.map (containerAt maps) := by
        rw [ih3]
        exact containersAt_congr maps maps2 rest (fun a ha => hold2 a (hrest0 a ha))
      simp only [List.map_cons, htail, containerAt, hlim, hreq]
    · intro a ha
      simp only [refsOf, ContainerObject.refs, List.mem_append, Option.mem_toList,
        Option.mem_def] at ha
      rcases ha with (ha | ha) | ha
      · have := hl4 a ha
        omega
      · have := hr4 a ha
        omega
      · have := ih4 a ha
        omega
    · simp only [refsOf, ContainerObject.refs]
      rw [List.nodup_append]
      refine ⟨?_, ih5, ?_⟩
      · rw [List.nodup_append]
        refine ⟨?_, ?_, ?_⟩
        · cases l' <;> simp
        · cases r' <;> simp
        · intro a ha hb
          simp only [Option.mem_toList, Option.mem_def] at ha hb
          have := hl4 a ha
          have := hr4 a hb
          omega
      · intro a ha hb
        have hb' := ih4 a hb
        simp only [List.mem_append, Option.mem_toList, Option.mem_def] at ha
        rcases ha with ha | ha
        · have := hl4 a ha
          omega
        · have := hr4 a ha
          omega

/-- The loop over the limits on the store: the local `requests` ends as it was or, when it
was nil, as a new map; only the map it refers to is written; and the entries of that map
after the loop are those that `fixupRequests` gives. -/
theorem fixupRequestsInStore_eq :
    ∀ (limits : List (String × Int)) (maps : Store ResourceList) (requests : Option Nat),
      (∀ a, requests = some a → a < maps.next) →
      maps.next ≤ (fixupRequestsInStore maps requests limits).2.next ∧
      ((fixupRequestsInStore maps requests limits).1 = requests ∨
        (requests = none ∧ ∃ a, (fixupRequestsInStore maps requests limits).1 = some a ∧
          maps.next ≤ a)) ∧
      (∀ a, a < maps.next → requests ≠ some a →
        (fixupRequestsInStore maps requests limits).2.cells a = maps.cells a) ∧
      resourceListAt (fixupRequestsInStore maps requests limits).2
          (fixupRequestsInStore maps requests limits).1 =
        fixupRequests limits (resourceListAt maps requests) ∧
      (∀ a, (fixupRequestsInStore maps requests limits).1 = some a →
        a < (fixupRequestsInStore maps requests limits).2.next)
  | [], maps, requests, h =>
    ⟨Nat.le_refl _, Or.inl rfl, fun _ _ _ => rfl, rfl, h⟩
  | (k, v) :: rest, maps, none, _ => by
    have hvalid : ∀ a, some maps.next = some a →
        a < ((maps.alloc []).2.write maps.next
          ((maps.alloc []).2.cells maps.next ++ [(k, v)])).next := by
      intro a ha
      cases ha
      exact Nat.lt_succ_self _
    obtain ⟨ih1, ih2, ih3, ih4, ih5⟩ := fixupRequestsInStore_eq rest
      ((maps.alloc []).2.write maps.next ((maps.alloc []).2.cells maps.next ++ [(k, v)]))
      (some maps.next) hvalid
    have hdef : fixupRequestsInStore maps none ((k, v) :: rest) =
        fixupRequestsInStore
          ((maps.alloc []).2.write maps.next ((maps.alloc []).2.cells maps.next ++ [(k, v)]))
          (some maps.next) rest := rfl
    rw [hdef]
    have hnext : ((maps.alloc []).2.write maps.next
        ((maps.alloc []).2.cells maps.next ++ [(k, v)])).next = maps.next + 1 := rfl
    rw [hnext] at ih1
    have hfst : (fixupRequestsInStore
        ((maps.alloc []).2.write maps.next ((maps.alloc []).2.cells maps.next ++ [(k, v)]))
        (some maps.next) rest).1 = some maps.next := by
      rcases ih2 with h2 | ⟨h2, _⟩
      · exact h2
      · cases h2
    refine ⟨by omega, Or.inr ⟨rfl, maps.next, hfst, Nat.le_refl _⟩, ?_, ?_, ih5⟩
    · intro a ha _
      have hne : a ≠ maps.next := Nat.ne_of_lt ha
      rw [ih3 a (by rw [hnext]; omega) (by simpa using hne.symm)]
      simp [Store.write, Store.alloc, hne]
    · rw [ih4]
      simp [resourceListAt, fixupRequests, Store.write, Store.alloc]
  | (k, v) :: rest, maps, some a0, h => by
    have ha0 : a0 < maps.next := h a0 rfl
    by_cases hlook : ((maps.cells a0).lookup k).isNone = true
    · have hvalid : ∀ a, some a0 = some a →
          a < (maps.write a0 (maps.cells a0 ++ [(k, v)])).next := by
        intro a ha
        cases ha
        exact ha0
      obtain ⟨ih1, ih2, ih3, ih4, ih5⟩ := fixupRequestsInStore_eq rest
        (maps.write a0 (maps.cells a0 ++ [(k, v)])) (some a0) hvalid
      have hdef : fixupRequestsInStore maps (some a0) ((k, v) :: rest) =
          fixupRequestsInStore (maps.write a0 (maps.cells a0 ++ [(k, v)])) (some a0) rest := by
        simp only [fixupRequestsInStore, hlook, if_true]
      rw [hdef]
      have hfst : (fixupRequestsInStore (maps.write a0 (maps.cells a0 ++ [(k, v)])) (some a0)
          rest).1 = some a0 := by
        rcases ih2 with h2 | ⟨h2, _⟩
        · exact h2
        · cases h2
      refine ⟨ih1, Or.inl hfst, ?_, ?_, ih5⟩
      · intro a ha hne
        have hne' : a ≠ a0 := fun heq => hne (by rw [heq])
        rw [ih3 a ha hne]
        exact Store.write_cells_other _ _ _ _ hne'
      · rw [ih4]
        simp [resourceListAt, fixupRequests, Store.write, hlook]
    · obtain ⟨ih1, ih2, ih3, ih4, ih5⟩ := fixupRequestsInStore_eq rest maps (some a0) h
      have hdef : fixupRequestsInStore maps (some a0) ((k, v) :: rest) =
          fixupRequestsInStore maps (some a0) rest := by
        simp only [fixupRequestsInStore, hlook]
        rfl
      rw [hdef]
      refine ⟨ih1, ih2, ih3, ?_, ih5⟩
      rw [ih4]
      simp only [resourceListAt, fixupRequests, List.foldl_cons, hlook]
      rfl

theorem getElem?_length_append {α : Type} (c : α) (post : List α) :
    ∀ pre : List α, (pre ++ c :: post)[pre.length]? = some c
  | [] => by simp
  | _ :: pre => by
    simpa using getElem?_length_append c post pre

theorem set_length_append {α : Type} (c c' : α) (post : List α) :
    ∀ pre : List α, (pre ++ c :: post).set pre.length c' = pre ++ c' :: post
  | [] => rfl
  | x :: pre => by
    simp only [List.cons_append, List.length_cons, List.set_cons_succ,
      set_length_append c c' post pre]

/-- The body of the loop over the containers, at the index of the container `c`. -/
theorem fixupContainerInStore_at (s : SpecStore) (newSpec : Nat)
    (pre : List ContainerObject) (c : ContainerObject) (post : List ContainerObject)
    (h : s.specs.cells newSpec = pre ++ c :: post) :
    fixupContainerInStore s newSpec pre.length =
      { specs := s.specs.write newSpec
          (pre ++ { c with
            requests := (fixupRequestsInStore s.maps c.requests
              (resourceListAt s.maps c.limits)).1 } :: post)
        maps := (fixupRequestsInStore s.maps c.requests (resourceListAt s.maps c.limits)).2 } := by
  simp only [fixupContainerInStore, h, getElem?_length_append, set_length_append]
  rfl

theorem refsOf_split (pre : List ContainerObject) (c : ContainerObject)
    (post : List ContainerObject) :
    refsOf (pre ++ c :: post) = refsOf pre ++ (c.refs ++ refsOf post) := by
  rw [refsOf_append]
  rfl

/-- The references of distinct container structs are apart. -/
theorem refsOf_nodup_split (pre : List ContainerObject) (c : ContainerObject)
    (post : List ContainerObject) (h : (refsOf (pre ++ c :: post)).Nodup) :
    (∀ a ∈ refsOf pre, a ∉ c.refs) ∧ (∀ a ∈ refsOf post, a ∉ c.refs) ∧ c.refs.Nodup := by
  rw [refsOf_split, List.nodup_append, List.nodup_append] at h
  obtain ⟨_, ⟨hc, _, hcpost⟩, hpre⟩ := h
  refine ⟨fun a ha hca => hpre ha (List.mem_append_left _ hca),
    fun a ha hca => hcpost hca ha, hc⟩

/-- A new reference put in the place of the nil requests of a container struct keeps the
references distinct. -/
theorem refsOf_nodup_fresh (pre : List ContainerObject) (c : ContainerObject)
    (post : List ContainerObject) (a : Nat) (h : (refsOf (pre ++ c :: post)).Nodup)
    (hreq : c.requests = none) (hfresh : a ∉ refsOf (pre ++ c :: post)) :
    (refsOf (pre ++ { c with requests := some a } :: post)).Nodup := by
  rw [refsOf_split] at h hfresh ⊢
  simp only [ContainerObject.refs, hreq, Option.toList_none, List.append_nil,
    Option.toList_some] at h hfresh ⊢
  rw [List.nodup_append, List.nodup_append] at h
  obtain ⟨hpre, ⟨hlim, hpost, hlp⟩, hdisj⟩ := h
  simp only [List.mem_append, not_or] at hfresh
  obtain ⟨hapre, halim, hapost⟩ := hfresh
  rw [List.nodup_append, List.nodup_append, List.nodup_append]
  refine ⟨hpre, ⟨⟨hlim, List.nodup_singleton a, ?_⟩, hpost, ?_⟩, ?_⟩
  · intro b hb hba
    rw [List.mem_singleton] at hba
    exact halim (hba ▸ hb)
  · intro b hb hbpost
    rcases List.mem_append.mp hb with hb | hb
    · exact hlp hb hbpost
    · rw [List.mem_singleton] at hb
      exact hapost (hb ▸ hbpost)
  · intro b hb hb2
    rcases List.mem_append.mp hb2 with hb2 | hb2
    · rcases List.mem_append.mp hb2 with hb2 | hb2
      · exact hdisj hb (List.mem_append_left _ hb2)
      · rw [List.mem_singleton] at hb2
        exact hapre (hb2 ▸ hb)
    · exact hdisj hb (List.mem_append_right _ hb2)

/-- The loop over the containers, from the index of the first container of `post`: the
containers before are left as they stand, those of `post` end with the requests that
`fixupContainers` gives, and the loop writes the pod spec at `newSpec` and resource maps
from the address `M0` on only. -/
theorem fixupContainersLoop_eq (newSpec M0 : Nat) :
    ∀ (post pre : List ContainerObject) (s : SpecStore),
      s.specs.cells newSpec = pre ++ post →
      (refsOf (pre ++ post)).Nodup →
      (∀ a ∈ refsOf (pre ++ post), M0 ≤ a ∧ a < s.maps.next) →
      M0 ≤ s.maps.next →
      ((fixupContainersLoop newSpec (List.range' pre.length post.length)
          s).specs.cells newSpec).map
          (containerAt (fixupContainersLoop newSpec (List.range' pre.length post.length)
            s).maps) =
        pre.map (containerAt s.maps) ++ fixupContainers (post.map (containerAt s.maps)) ∧
      (∀ p, p ≠ newSpec →
        (fixupContainersLoop newSpec (List.range' pre.length post.length) s).specs.cells p =
          s.specs.cells p) ∧
      (fixupContainersLoop newSpec (List.range' pre.length post.length) s).specs.next =
        s.specs.next ∧
      (∀ a, a < M0 →
        (fixupContainersLoop newSpec (List.range' pre.length post.length) s).maps.cells a =
          s.maps.cells a)
  | [], pre, s, hcells, _, _, _ => by
    simp [fixupContainersLoop, fixupContainers, hcells]
  | c :: post, pre, s, hcells, hnodup, hbound, hM => by
    obtain ⟨hpre_c, hpost_c, hc_nodup⟩ := refsOf_nodup_split pre c post hnodup
    have hbound_pre : ∀ a ∈ refsOf pre, M0 ≤ a ∧ a < s.maps.next :=
      fun a ha => hbound a (by rw [refsOf_split]; exact List.mem_append_left _ ha)
    have hbound_c : ∀ a ∈ c.refs, M0 ≤ a ∧ a < s.maps.next :=
      fun a ha => hbound a (by
        rw [refsOf_split]
        exact List.mem_append_right _ (List.mem_append_left _ ha))
    have hbound_post : ∀ a ∈ refsOf post, M0 ≤ a ∧ a < s.maps.next :=
      fun a ha => hbound a (by
        rw [refsOf_split]
        exact List.mem_append_right _ (List.mem_append_right _ ha))
    have hreq_mem : ∀ a, c.requests = some a → a ∈ c.refs := fun a ha => by
      simp [ContainerObject.refs, ha]
    have hlim_mem : ∀ a, c.limits = some a → a ∈ c.refs := fun a ha => by
      simp [ContainerObject.refs, ha]
    have hcvalid : ∀ a, c.requests = some a → a < s.maps.next :=
      fun a ha => (hbound_c a (hreq_mem a ha)).2
    obtain ⟨hr1, hr2, hr3, hr4, hr5⟩ := fixupRequestsInStore_eq (resourceListAt s.maps c.limits)
      s.maps c.requests hcvalid
    have hstep := fixupContainerInStore_at s newSpec pre c post hcells
    generalize hr : fixupRequestsInStore s.maps c.requests (resourceListAt s.maps c.limits) = r
      at hr1 hr2 hr3 hr4 hr5 hstep
    obtain ⟨req', maps'⟩ := r
    simp only at hr1 hr2 hr3 hr4 hr5 hstep
    -- the maps of the other containers, and the limits of this one, are not written
    have hkeep : ∀ a, a < s.maps.next → c.requests ≠ some a → maps'.cells a = s.maps.cells a :=
      hr3
    have hkeep_pre : ∀ a ∈ refsOf pre, maps'.cells a = s.maps.cells a := fun a ha =>
      hkeep a (hbound_pre a ha).2 (fun h => hpre_c a ha (hreq_mem a h))
    have hkeep_post : ∀ a ∈ refsOf post, maps'.cells a = s.maps.cells a := fun a ha =>
      hkeep a (hbound_post a ha).2 (fun h => hpost_c a ha (hreq_mem a h))
    have hkeep_lim : ∀ a, c.limits = some a → maps'.cells a = s.maps.cells a := by
      intro a ha
      apply hkeep a (hbound_c a (hlim_mem a ha)).2
      intro hreq
      simp only [ContainerObject.refs, ha, hreq, Option.toList_some, List.singleton_append,
        List.nodup_cons, List.mem_singleton, not_true_eq_false, false_and] at hc_nodup
    -- the references after the step
    have hnodup' : (refsOf ((pre ++ [{ c with requests := req' }]) ++ post)).Nodup := by
      rw [List.append_assoc, List.singleton_append]
      rcases hr2 with hsame | ⟨hnone, a, hsome, hfresh⟩
      · rw [hsame]
        exact hnodup
      · rw [hsome]
        apply refsOf_nodup_fresh pre c post a hnodup hnone
        intro hmem
        have := (hbound a hmem).2
        omega
    have hbound' : ∀ a ∈ refsOf ((pre ++ [{ c with requests := req' }]) ++ post),
        M0 ≤ a ∧ a < maps'.next := by
      intro a ha
      rw [List.append_assoc, List.singleton_append, refsOf_split] at ha
      rcases List.mem_append.mp ha with ha | ha
      · have := hbound_pre a ha
        omega
      · rcases List.mem_append.mp ha with ha | ha
        · simp only [ContainerObject.refs, List.mem_append, Option.mem_toList,
            Option.mem_def] at ha
          rcases ha with ha | ha
          · have := hbound_c a (hlim_mem a ha)
            omega
          · have hlt := hr5 a ha
            rcases hr2 with hsame | ⟨_, a', hsome, hfresh⟩
            · rw [hsame] at ha
              have := hbound_c a (hreq_mem a ha)
              omega
            · rw [hsome] at ha
              cases ha
              omega
        · have := hbound_post a ha
          omega
    obtain ⟨s1, hs1⟩ : ∃ s1 : SpecStore, s1 =
        { specs := s.specs.write newSpec (pre ++ { c with requests := req' } :: post),
          maps := maps' } := ⟨_, rfl⟩
    rw [← hs1] at hstep
    have hs1_maps : s1.maps = maps' := by rw [hs1]
    have hs1_specs : s1.specs =
        s.specs.write newSpec (pre ++ { c with requests := req' } :: post) := by rw [hs1]
    have hcells' : s1.specs.cells newSpec = (pre ++ [{ c with requests := req' }]) ++ post := by
      rw [hs1_specs, Store.write_cells_self, List.append_assoc, List.singleton_append]
    obtain ⟨ih1, ih2, ih3, ih4⟩ := fixupContainersLoop_eq newSpec M0 post
      (pre ++ [{ c with requests := req' }]) s1 hcells' hnodup'
      (by rw [hs1_maps]; exact hbound') (by rw [hs1_maps]; omega)
    have hloop : fixupContainersLoop newSpec (List.range' pre.length (c :: post).length) s =
        fixupContainersLoop newSpec
          (List.range' (pre ++ [{ c with requests := req' }]).length post.length) s1 := by
      simp only [fixupContainersLoop, List.length_cons, List.range'_succ, List.foldl_cons,
        hstep, List.length_append, List.length_singleton, List.length_nil, Nat.zero_add]
    rw [hs1_maps] at ih1 ih4
    rw [hs1_specs] at ih2 ih3
    rw [hloop]
    refine ⟨?_, ?_, ih3, ?_⟩
    · rw [ih1]
      have hpre_eq : pre.map (containerAt maps') = pre.map (containerAt s.maps) :=
        containersAt_congr s.maps maps' pre hkeep_pre
      have hpost_eq : post.map (containerAt maps') = post.map (containerAt s.maps) :=
        containersAt_congr s.maps maps' post hkeep_post
      have hlim : resourceListAt maps' c.limits = resourceListAt s.maps c.limits :=
        resourceListAt_congr s.maps maps' c.limits hkeep_lim
      simp only [List.map_append, List.map_cons, List.map_nil, hpre_eq, hpost_eq,
        fixupContainers, List.append_assoc, List.singleton_append, containerAt, hlim, hr4]
    · intro p hp
      rw [ih2 p hp]
      exact Store.write_cells_other _ _ _ _ hp
    · intro a ha
      rw [ih4 a ha]
      apply hkeep a (by omega)
      intro hreq
      have := (hbound_c a (hreq_mem a hreq)).1
      omega

/-- `fixupContainers` on the store, for an allocated pod spec: the pointer returned is a
new address, the containers of the pod spec there are those that `fixupContainers`
describes, and every pod spec and every resource map allocated before the call is what it
was. -/
theorem fixupContainersInStore_eq (s : SpecStore) (spec : Nat) (h : s.Allocated spec) :
    (fixupContainersInStore s spec).1 = s.specs.next ∧
    (fixupContainersInStore s spec).2.containers s.specs.next =
      fixupContainers (s.containers spec) ∧
    (∀ p, p < s.specs.next → (fixupContainersInStore s spec).2.specs.cells p = s.specs.cells p) ∧
    (∀ a, a < s.maps.next → (fixupContainersInStore s spec).2.maps.cells a = s.maps.cells a) := by
  obtain ⟨_, hrefs⟩ := h
  obtain ⟨hd1, hd2, hd3, hd4, hd5⟩ := deepCopyContainers_eq (s.specs.cells spec) s.maps hrefs
  generalize hdc : deepCopyContainers s.maps (s.specs.cells spec) = dc at hd1 hd2 hd3 hd4 hd5
  obtain ⟨containers, maps1⟩ := dc
  simp only at hd1 hd2 hd3 hd4 hd5
  obtain ⟨s1, hs1⟩ : ∃ s1 : SpecStore, s1 =
      { specs := (s.specs.alloc containers).2, maps := maps1 } := ⟨_, rfl⟩
  have hs1_maps : s1.maps = maps1 := by rw [hs1]
  have hs1_specs : s1.specs = (s.specs.alloc containers).2 := by rw [hs1]
  have hcells : s1.specs.cells s.specs.next = [] ++ containers := by
    rw [hs1_specs, Store.alloc_cells_new]
    rfl
  have hdef : fixupContainersInStore s spec =
      (s.specs.next, fixupContainersLoop s.specs.next (List.range' 0 containers.length) s1) := by
    simp only [fixupContainersInStore, SpecStore.deepCopy, hdc, Store.alloc_fst,
      List.range_eq_range', hs1]
    simp [Store.alloc]
  obtain ⟨hl1, hl2, hl3, hl4⟩ := fixupContainersLoop_eq s.specs.next s.maps.next containers []
    s1 hcells (by simpa using hd5) (by rw [hs1_maps]; simpa using hd4)
    (by rw [hs1_maps]; exact hd1)
  rw [hdef]
  simp only [List.length_nil] at hl1 hl2 hl3 hl4
  refine ⟨rfl, ?_, ?_, ?_⟩
  · simp only [SpecStore.containers]
    rw [hl1, hs1_maps, hd3]
    rfl
  · intro p hp
    rw [hl2 p (Nat.ne_of_lt hp), hs1_specs]
    exact Store.alloc_cells_old _ _ p hp
  · intro a ha
    rw [hl4 a ha, hs1_maps]
    exact hd2 a ha

/-! ## Lemmas on the readiness loop -/

theorem readinessLoop_nil (s : ReadinessLoop) : readinessLoop s [] = s := rfl

theorem readinessLoop_cons (s : ReadinessLoop) (c : NodeCondition) (cs : List NodeCondition) :
    readinessLoop s (c :: cs) = readinessLoop (readinessStep s c) cs := rfl

theorem readinessStep_readyFound (s : ReadinessLoop) (c : NodeCondition) :
    (readinessStep s c).readyFound = (s.readyFound || c.type == NodeReady) := by
  unfold readinessStep
  by_cases h : c.type = NodeReady
  · simp [h]
  · have hb : (c.type == NodeReady) = false := by simpa using h
    rw [if_neg h, hb, Bool.or_false]
    split_ifs <;> rfl

/-- The loop sets `readyFound` exactly when it meets a Ready condition. -/
theorem readinessLoop_readyFound (cs : List NodeCondition) (s : ReadinessLoop) :
    (readinessLoop s cs).readyFound = (s.readyFound || cs.any (fun c => c.type == NodeReady)) := by
  induction cs generalizing s with
  | nil => simp [readinessLoop_nil]
  | cons c cs ih =>
    rw [readinessLoop_cons, ih, readinessStep_readyFound, List.any_cons, Bool.or_assoc]

theorem readinessStep_canNodeBeReady (s : ReadinessLoop) (c : NodeCondition) :
    (readinessStep s c).canNodeBeReady = (s.canNodeBeReady && !clearsReady c) := by
  unfold readinessStep clearsReady
  by_cases h1 : c.type = NodeReady
  · have h2 : NodeReady ≠ NodeDiskPressure := by decide
    have h3 : NodeReady ≠ NodeNetworkUnavailable := by decide
    by_cases h4 : c.status = ConditionFalse ∨ c.status = ConditionUnknown
    · rcases h4 with h4 | h4 <;> simp [h1, h2, h3, h4]
    · have h5 : c.status ≠ ConditionFalse := fun h => h4 (Or.inl h)
      have h6 : c.status ≠ ConditionUnknown := fun h => h4 (Or.inr h)
      simp [h1, h2, h3, h5, h6]
  · by_cases h2 : c.type = NodeDiskPressure
    · have h3 : NodeDiskPressure ≠ NodeNetworkUnavailable := by decide
      have h4 : NodeDiskPressure ≠ NodeReady := by decide
      by_cases h5 : c.status = ConditionTrue <;> simp [h2, h3, h4, h5]
    · by_cases h3 : c.type = NodeNetworkUnavailable
      · have h4 : NodeNetworkUnavailable ≠ NodeReady := by decide
        have h5 : NodeNetworkUnavailable ≠ NodeDiskPressure := by decide
        by_cases h6 : c.status = ConditionTrue <;> simp [h3, h4, h5, h6]
      · simp [h1, h2, h3]

/-- The loop keeps `canNodeBeReady` exactly when no condition clears it. -/
theorem readinessLoop_canNodeBeReady (cs : List NodeCondition) (s : ReadinessLoop) :
    (readinessLoop s cs).canNodeBeReady = (s.canNodeBeReady && cs.all (fun c => !clearsReady c)) := by
  induction cs generalizing s with
  | nil => simp [readinessLoop_nil]
  | cons c cs ih =>
    rw [readinessLoop_cons, ih, readinessStep_canNodeBeReady, List.all_cons, Bool.and_assoc]

theorem readinessStep_lastTransitionTime (s : ReadinessLoop) (c : NodeCondition) :
    (readinessStep s c).lastTransitionTime =
      if isExamined c then max s.lastTransitionTime c.lastTransitionTime
      else s.lastTransitionTime := by
  have hadv : ∀ a b : Time, advance a b = max a b := by
    intro a b
    unfold advance
    split_ifs with h
    · exact (max_eq_right (le_of_lt h)).symm
    · exact (max_eq_left (not_lt.mp h)).symm
  unfold readinessStep isExamined
  by_cases h1 : c.type = NodeReady
  · rw [if_pos h1]; simp [h1, hadv]
  · rw [if_neg h1]
    by_cases h2 : c.type = NodeDiskPressure
    · rw [if_pos h2]; simp [h2, hadv]
    · rw [if_neg h2]
      by_cases h3 : c.type = NodeNetworkUnavailable
      · rw [if_pos h3]; simp [h3, hadv]
      · rw [if_neg h3]; simp [h1, h2, h3]

/-- The loop leaves in `lastTransitionTime` the latest of its initial value and the
transition times of the examined conditions. -/
theorem readinessLoop_lastTransitionTime (cs : List NodeCondition) (s : ReadinessLoop) :
    IsLatestOf (s.lastTransitionTime ::
        (cs.filter isExamined).map (fun c => c.lastTransitionTime))
      (readinessLoop s cs).lastTransitionTime := by
  induction cs generalizing s with
  | nil => simp [readinessLoop_nil, IsLatestOf]
  | cons c cs ih =>
    rw [readinessLoop_cons]
    have h := ih (readinessStep s c)
    rw [readinessStep_lastTransitionTime] at h
    obtain ⟨hmem, hle⟩ := h
    by_cases hc : isExamined c = true
    · simp only [hc, if_true, List.filter_cons_of_pos, List.map_cons] at hmem hle ⊢
      refine ⟨?_, ?_⟩
      · rcases List.mem_cons.mp hmem with h | h
        · rcases max_choice s.lastTransitionTime c.lastTransitionTime with h' | h'
          · rw [h, h']; exact List.mem_cons_self _ _
          · rw [h, h']; exact List.mem_cons_of_mem _ (List.mem_cons_self _ _)
        · exact List.mem_cons_of_mem _ (List.mem_cons_of_mem _ h)
      · intro u hu
        have hmax := hle _ (List.mem_cons_self _ _)
        rcases List.mem_cons.mp hu with h | h
        · rw [h]; exact le_trans (le_max_left _ _) hmax
        · rcases List.mem_cons.mp h with h | h
          · rw [h]; exact le_trans (le_max_right _ _) hmax
          · exact hle _ (List.mem_cons_of_mem _ h)
    · have hc' : isExamined c = false := by simpa using hc
      simp only [hc', Bool.false_eq_true, if_false] at hmem hle
      rw [List.filter_cons_of_neg (by simp [hc'])]
      exact ⟨hmem, hle⟩

/-! ## Readiness: the claims -/

/-- C1: for every node whose condition list contains no condition of type Ready,
`GetReadinessState` returns not ready, the zero timestamp and the error "readiness
information not found", whatever its other conditions and its taints are. -/
theorem GetReadinessState_without_ready (node : Node)
    (h : ∀ c ∈ node.conditions, c.type ≠ NodeReady) :
    GetReadinessState node = (false, Time.zero, some "readiness information not found") := by
  have hany : (node.conditions.any (fun c => c.type == NodeReady)) = false := by
    rw [List.any_eq_false]
    intro c hc
    simpa using h c hc
  unfold GetReadinessState
  simp [readinessLoop_readyFound, hany]

/-- C1, at a node without Ready condition that has other conditions and a taint. -/
theorem GetReadinessState_without_ready_witness :
    (∀ c ∈ nodeWithoutReady.conditions, c.type ≠ NodeReady) ∧
    GetReadinessState nodeWithoutReady =
      (false, Time.zero, some "readiness information not found") :=
  ⟨by decide, GetReadinessState_without_ready nodeWithoutReady (by decide)⟩

/-- C2: for every node that has a Ready condition, all of whose Ready conditions have
status True, that has no DiskPressure and no NetworkUnavailable condition with status True
and no taint with the reserved not-ready key, `GetReadinessState` returns ready and no
error. -/
theorem GetReadinessState_ready (node : Node)
    (hex : ∃ c ∈ node.conditions, c.type = NodeReady)
    (hready : ∀ c ∈ node.conditions, c.type = NodeReady → c.status = ConditionTrue)
    (hdisk : ∀ c ∈ node.conditions, c.type = NodeDiskPressure → c.status ≠ ConditionTrue)
    (hnet : ∀ c ∈ node.conditions, c.type = NodeNetworkUnavailable → c.status ≠ ConditionTrue)
    (htaint : ∀ t ∈ node.taints, t.key ≠ nodeNotReadyZalandoTaint) :
    (GetReadinessState node).1 = true ∧ (GetReadinessState node).2.2 = none := by
  have hany : (node.conditions.any (fun c => c.type == NodeReady)) = true := by
    rw [List.any_eq_true]
    obtain ⟨c, hc, hty⟩ := hex
    exact ⟨c, hc, by simpa using hty⟩
  have hall : (node.conditions.all (fun c => !clearsReady c)) = true := by
    rw [List.all_eq_true]
    intro c hc
    have hT1 : ConditionTrue ≠ ConditionFalse := by decide
    have hT2 : ConditionTrue ≠ ConditionUnknown := by decide
    have h1 : c.type = NodeReady → c.status ≠ ConditionFalse ∧ c.status ≠ ConditionUnknown := by
      intro hty
      rw [hready c hc hty]
      exact ⟨hT1, hT2⟩
    have h2 := hdisk c hc
    have h3 := hnet c hc
    simp only [clearsReady, Bool.not_eq_true', Bool.or_eq_false_iff, Bool.and_eq_false_imp,
      beq_iff_eq, beq_eq_false_iff_ne, ne_eq]
    exact ⟨⟨fun hty => ⟨(h1 hty).1, (h1 hty).2⟩, h2⟩, h3⟩
  have hext : IsNodeExtendedReady node = true := by
    unfold IsNodeExtendedReady
    rw [Bool.not_eq_true', List.any_eq_false]
    intro t ht
    simpa using htaint t ht
  unfold GetReadinessState
  simp [readinessLoop_readyFound, readinessLoop_canNodeBeReady, hany, hall, hext]

/-- C2, at a healthy node with a False pressure condition and an unrelated taint. -/
theorem GetReadinessState_ready_witness :
    (GetReadinessState healthyNode).1 = true ∧ (GetReadinessState healthyNode).2.2 = none :=
  GetReadinessState_ready healthyNode (by decide) (by decide) (by decide) (by decide)
    (by decide)

/-- C3: for every node that carries a taint with the reserved not-ready key,
`GetReadinessState` returns not ready, whatever its conditions are. -/
theorem GetReadinessState_not_ready_taint (node : Node)
    (h : ∃ t ∈ node.taints, t.key = nodeNotReadyZalandoTaint) :
    (GetReadinessState node).1 = false := by
  have hext : IsNodeExtendedReady node = false := by
    unfold IsNodeExtendedReady
    rw [Bool.not_eq_false', List.any_eq_true]
    obtain ⟨t, ht, hk⟩ := h
    exact ⟨t, ht, by simpa using hk⟩
  unfold GetReadinessState
  by_cases hf : (readinessLoop
      { canNodeBeReady := true, readyFound := false, lastTransitionTime := Time.zero }
      node.conditions).readyFound = true
  · simp [hf, hext]
  · simp [hf]

/-- C3, at a node whose Ready condition is True, without pressure, with the taint. -/
theorem GetReadinessState_not_ready_taint_witness :
    (∃ t ∈ taintedNode.taints, t.key = nodeNotReadyZalandoTaint) ∧
    (GetReadinessState taintedNode).1 = false ∧
    (GetReadinessState { taintedNode with taints := [] }).1 = true :=
  ⟨by decide, GetReadinessState_not_ready_taint taintedNode (by decide), by decide⟩

/-- C4 as stated fails: the node `earlyNode` has a Ready condition, its only examined
transition time is `-1`, and `GetReadinessState` returns the zero time, which is not the
latest of the examined transition times. -/
theorem GetReadinessState_latest_counterexample :
    (∃ c ∈ earlyNode.conditions, c.type = NodeReady) ∧
    examinedTimes earlyNode = [-1] ∧
    (GetReadinessState earlyNode).2.1 = Time.zero ∧
    ¬ IsLatestOf (examinedTimes earlyNode) (GetReadinessState earlyNode).2.1 := by
  refine ⟨by decide, by decide, by decide, ?_⟩
  intro h
  exact absurd h.1 (by decide)

/-- C4, amended: for every node that has a Ready condition, the returned
lastTransitionTime is the latest of the zero time and the transition times of the node's
Ready, DiskPressure and NetworkUnavailable conditions; so it is the latest of those
transition times as soon as one of them is not before the zero time. Conditions of other
types do not enter. -/
theorem GetReadinessState_latest (node : Node)
    (hex : ∃ c ∈ node.conditions, c.type = NodeReady) :
    IsLatestOf (Time.zero :: examinedTimes node) (GetReadinessState node).2.1 ∧
    ((∃ t ∈ examinedTimes node, Time.zero ≤ t) →
      IsLatestOf (examinedTimes node) (GetReadinessState node).2.1) := by
  have hany : (node.conditions.any (fun c => c.type == NodeReady)) = true := by
    rw [List.any_eq_true]
    obtain ⟨c, hc, hty⟩ := hex
    exact ⟨c, hc, by simpa using hty⟩
  have hval : (GetReadinessState node).2.1 = (readinessLoop
      { canNodeBeReady := true, readyFound := false, lastTransitionTime := Time.zero }
      node.conditions).lastTransitionTime := by
    unfold GetReadinessState
    simp [readinessLoop_readyFound, hany]
  have hloop := readinessLoop_lastTransitionTime node.conditions
    { canNodeBeReady := true, readyFound := false, lastTransitionTime := Time.zero }
  rw [← hval] at hloop
  have hmain : IsLatestOf (Time.zero :: examinedTimes node) (GetReadinessState node).2.1 :=
    hloop
  refine ⟨hmain, ?_⟩
  rintro ⟨t, ht, h0⟩
  obtain ⟨hmem, hle⟩ := hmain
  refine ⟨?_, fun u hu => hle u (List.mem_cons_of_mem _ hu)⟩
  rcases List.mem_cons.mp hmem with h | h
  · have h1 : t ≤ (GetReadinessState node).2.1 := hle t (List.mem_cons_of_mem _ ht)
    have h2 : (GetReadinessState node).2.1 = t := by
      rw [h] at h1 ⊢
      exact le_antisymm h0 h1
    rw [h2]; exact ht
  · exact h

/-- C4 amended, at the healthy node (latest examined time 8, an unexamined condition at
11) and at the node whose Ready condition precedes the zero time. -/
theorem GetReadinessState_latest_witness :
    (GetReadinessState healthyNode).2.1 = 8 ∧
    IsLatestOf (examinedTimes healthyNode) (GetReadinessState healthyNode).2.1 ∧
    IsLatestOf (Time.zero :: examinedTimes earlyNode) (GetReadinessState earlyNode).2.1 :=
  ⟨by decide,
    (GetReadinessState_latest healthyNode (by decide)).2 ⟨5, by decide, by decide⟩,
    (GetReadinessState_latest earlyNode (by decide)).1⟩

/-- C5: `IsNodeReadyAndSchedulable` is a total predicate that holds exactly when
`GetReadinessState` reports ready and the node is not marked unschedulable; whenever
`GetReadinessState` returns an error it is false. -/
theorem IsNodeReadyAndSchedulable_iff (node : Node) :
    (IsNodeReadyAndSchedulable node = true ↔
      (GetReadinessState node).1 = true ∧ node.unschedulable = false) ∧
    ((GetReadinessState node).2.2 ≠ none → IsNodeReadyAndSchedulable node = false) := by
  have hiff : IsNodeReadyAndSchedulable node = true ↔
      (GetReadinessState node).1 = true ∧ node.unschedulable = false := by
    unfold IsNodeReadyAndSchedulable
    cases hr : (GetReadinessState node).1 <;> cases hu : node.unschedulable <;> simp [hr]
  refine ⟨hiff, ?_⟩
  intro herr
  have hnot : (GetReadinessState node).1 = false := by
    unfold GetReadinessState at herr ⊢
    by_cases hf : (readinessLoop
        { canNodeBeReady := true, readyFound := false, lastTransitionTime := Time.zero }
        node.conditions).readyFound = true
    · simp [hf] at herr
    · simp [hf]
  cases hb : IsNodeReadyAndSchedulable node
  · rfl
  · rw [hiff.mp hb |>.1] at hnot
    exact absurd hnot (by decide)

/-- C5, at a cordoned node without Ready condition and at the healthy node. -/
theorem IsNodeReadyAndSchedulable_iff_witness :
    IsNodeReadyAndSchedulable nodeWithoutReady = false ∧
    IsNodeReadyAndSchedulable healthyNode = true ∧
    IsNodeReadyAndSchedulable { healthyNode with unschedulable := true } = false :=
  ⟨(IsNodeReadyAndSchedulable_iff nodeWithoutReady).2 (by decide), by decide, by decide⟩

/-! ## Lemmas on the drain checks -/

/-- A list with an element satisfying `P` splits at the first such element. -/
theorem exists_first_split {α : Type} (P : α → Bool) :
    ∀ l : List α, (∃ q ∈ l, P q = true) →
      ∃ pre p post, l = pre ++ p :: post ∧ (∀ q ∈ pre, P q = false) ∧ P p = true
  | [], h => by
    obtain ⟨q, hq, _⟩ := h
    exact absurd hq (List.not_mem_nil q)
  | a :: l, h => by
    by_cases ha : P a = true
    · exact ⟨[], a, l, rfl, fun q hq => absurd hq (List.not_mem_nil q), ha⟩
    · have hl : ∃ q ∈ l, P q = true := by
        obtain ⟨q, hq, hP⟩ := h
        rcases List.mem_cons.mp hq with rfl | hq
        · exact absurd hP ha
        · exact ⟨q, hq, hP⟩
      obtain ⟨pre, p, post, hsplit, hpre, hp⟩ := exists_first_split P l hl
      refine ⟨a :: pre, p, post, by rw [hsplit]; rfl, ?_, hp⟩
      intro q hq
      rcases List.mem_cons.mp hq with rfl | hq
      · simpa using ha
      · exact hpre q hq

theorem isJobPod_iff (pod : Pod) :
    isJobPod pod = true ↔
      ∃ r ∈ pod.ownerReferences, hasPrefix r.apiVersion "batch/" = true ∧ r.kind = "Job" := by
  simp [isJobPod, isJobReference]

theorem checkJobPods_of_no_job :
    ∀ pods : List Pod, (∀ p ∈ pods, isJobPod p = false) → checkJobPods pods = (none, none)
  | [], _ => rfl
  | pod :: rest, h => by
    have hpod : isJobPod pod = false := h pod (List.mem_cons_self _ _)
    have hrest := checkJobPods_of_no_job rest (fun p hp => h p (List.mem_cons_of_mem _ hp))
    simp [checkJobPods, hpod, hrest]

theorem checkJobPods_first (p : Pod) (post : List Pod) (hp : isJobPod p = true) :
    ∀ pre : List Pod, (∀ q ∈ pre, isJobPod q = false) →
      checkJobPods (pre ++ p :: post) =
        (some { pod := p, reason := BlockingPodReason.NotReplicated },
          some ("job pod " ++ p.ns ++ "/" ++ p.name ++ " is unmovable"))
  | [], _ => by simp [checkJobPods, hp]
  | q :: pre, h => by
    have hq : isJobPod q = false := h q (List.mem_cons_self _ _)
    have hrec := checkJobPods_first p post hp pre (fun r hr => h r (List.mem_cons_of_mem _ hr))
    simp [checkJobPods, hq, hrec]

theorem pdbTest_iff (pdb : PodDisruptionBudget) (selector : Selector) (pod : Pod) :
    ((pod.ns == pdb.ns && selector pod.labels) && decide (pdb.disruptionsAllowed < 1)) = true ↔
      PdbBlocks pdb selector pod := by
  simp [PdbBlocks, and_assoc]

theorem findPdbViolation_eq_none (pdb : PodDisruptionBudget) (selector : Selector)
    (pods : List Pod) (h : ∀ p ∈ pods, ¬ PdbBlocks pdb selector p) :
    findPdbViolation pdb selector pods = none := by
  unfold findPdbViolation
  rw [List.find?_eq_none]
  intro p hp hblock
  exact h p hp ((pdbTest_iff pdb selector p).mp hblock)

theorem findPdbViolation_first (pdb : PodDisruptionBudget) (selector : Selector)
    (before : List Pod) (pod : Pod) (after : List Pod)
    (hbefore : ∀ p ∈ before, ¬ PdbBlocks pdb selector p) (hpod : PdbBlocks pdb selector pod) :
    findPdbViolation pdb selector (before ++ pod :: after) = some pod := by
  have hnone : findPdbViolation pdb selector before = none :=
    findPdbViolation_eq_none pdb selector before hbefore
  have hhere := (pdbTest_iff pdb selector pod).mpr hpod
  unfold findPdbViolation at hnone ⊢
  rw [List.find?_append, hnone, Option.none_or, List.find?_cons]
  simp only [hhere]

theorem findPdbViolation_some (pdb : PodDisruptionBudget) (selector : Selector)
    (pods : List Pod) (pod : Pod) (h : findPdbViolation pdb selector pods = some pod) :
    pod ∈ pods ∧ PdbBlocks pdb selector pod := by
  unfold findPdbViolation at h
  have htest := List.find?_some h
  exact ⟨List.mem_of_find?_eq_some h, (pdbTest_iff pdb selector pod).mp htest⟩

/-- Budgets that convert and block no pod are passed over. -/
theorem checkPdbs_append_of_passes (asSelector : Option LabelSelector → Except String Selector)
    (pods : List Pod) (rest : List PodDisruptionBudget) :
    ∀ pre : List PodDisruptionBudget, (∀ b ∈ pre, PdbPasses asSelector pods b) →
      checkPdbs asSelector pods (pre ++ rest) = checkPdbs asSelector pods rest
  | [], _ => rfl
  | b :: pre, h => by
    obtain ⟨selector, hsel, hno⟩ := h b (List.mem_cons_self _ _)
    have hrec := checkPdbs_append_of_passes asSelector pods rest pre
      (fun c hc => h c (List.mem_cons_of_mem _ hc))
    simp [checkPdbs, hsel, findPdbViolation_eq_none b selector pods hno, hrec]

theorem checkPdbs_of_passes (asSelector : Option LabelSelector → Except String Selector)
    (pods : List Pod) (pdbs : List PodDisruptionBudget)
    (h : ∀ b ∈ pdbs, PdbPasses asSelector pods b) :
    checkPdbs asSelector pods pdbs = (none, none) := by
  have := checkPdbs_append_of_passes asSelector pods [] pdbs h
  simpa [checkPdbs] using this

/-- The three outcomes of `checkPdbs`. -/
theorem checkPdbs_cases (asSelector : Option LabelSelector → Except String Selector)
    (pods : List Pod) :
    ∀ pdbs : List PodDisruptionBudget,
      checkPdbs asSelector pods pdbs = (none, none) ∨
      (∃ pdb ∈ pdbs, ∃ e, asSelector pdb.selector = .error e ∧
        checkPdbs asSelector pods pdbs = (none, some e)) ∨
      (∃ pdb ∈ pdbs, ∃ selector pod, asSelector pdb.selector = .ok selector ∧ pod ∈ pods ∧
        PdbBlocks pdb selector pod ∧
        checkPdbs asSelector pods pdbs =
          (some { pod := pod, reason := BlockingPodReason.NotEnoughPdb },
            some ("not enough pod disruption budget to move " ++ pod.ns ++ "/" ++ pod.name)))
  | [] => Or.inl rfl
  | pdb :: rest => by
    cases hsel : asSelector pdb.selector with
    | error e =>
      exact Or.inr (Or.inl ⟨pdb, List.mem_cons_self _ _, e, hsel, by simp [checkPdbs, hsel]⟩)
    | ok selector =>
      cases hfind : findPdbViolation pdb selector pods with
      | some pod =>
        obtain ⟨hmem, hblock⟩ := findPdbViolation_some pdb selector pods pod hfind
        exact Or.inr (Or.inr ⟨pdb, List.mem_cons_self _ _, selector, pod, hsel, hmem, hblock,
          by simp [checkPdbs, hsel, hfind]⟩)
      | none =>
        have hstep : checkPdbs asSelector pods (pdb :: rest) = checkPdbs asSelector pods rest := by
          simp [checkPdbs, hsel, hfind]
        rw [hstep]
        rcases checkPdbs_cases asSelector pods rest with h | ⟨b, hb, e, he, h⟩ |
            ⟨b, hb, sel, pod, hs, hmem, hblock, h⟩
        · exact Or.inl h
        · exact Or.inr (Or.inl ⟨b, List.mem_cons_of_mem _ hb, e, he, h⟩)
        · exact Or.inr (Or.inr ⟨b, List.mem_cons_of_mem _ hb, sel, pod, hs, hmem, hblock, h⟩)

/-- A budget list with a selector that does not convert makes `checkPdbs` fail. -/
theorem checkPdbs_error_of_malformed (asSelector : Option LabelSelector → Except String Selector)
    (pods : List Pod) :
    ∀ pdbs : List PodDisruptionBudget,
      (∃ pdb ∈ pdbs, ∃ e, asSelector pdb.selector = .error e) →
        (checkPdbs asSelector pods pdbs).2 ≠ none
  | [], h => by
    obtain ⟨pdb, hpdb, _⟩ := h
    exact absurd hpdb (List.not_mem_nil pdb)
  | pdb :: rest, h => by
    cases hsel : asSelector pdb.selector with
    | error e => simp [checkPdbs, hsel]
    | ok selector =>
      cases hfind : findPdbViolation pdb selector pods with
      | some pod => simp [checkPdbs, hsel, hfind]
      | none =>
        have hstep : checkPdbs asSelector pods (pdb :: rest) = checkPdbs asSelector pods rest := by
          simp [checkPdbs, hsel, hfind]
        rw [hstep]
        apply checkPdbs_error_of_malformed asSelector pods rest
        obtain ⟨b, hb, e, he⟩ := h
        rcases List.mem_cons.mp hb with rfl | hb
        · rw [hsel] at he; cases he
        · exact ⟨b, hb, e, he⟩

/-! ## Lemmas on the two drain functions -/

section DrainFunctions

variable {L : Type} (deps : DrainDeps L) (nodeInfo : NodeInfo)
  (skipNodesWithSystemPods skipNodesWithLocalStorage : Bool) (listers : L)
  (minReplicaCount : Int) (pdbs : List PodDisruptionBudget) (now : Time)

theorem FastGetPodsToMove_of_job (b : Option BlockingPod) (e : String)
    (hjob : checkJobPods nodeInfo.pods = (b, some e)) :
    FastGetPodsToMove deps nodeInfo skipNodesWithSystemPods skipNodesWithLocalStorage pdbs now =
      ([], b, some e) := by
  simp [FastGetPodsToMove, hjob]

theorem DetailedGetPodsForMove_of_job (b : Option BlockingPod) (e : String)
    (hjob : checkJobPods nodeInfo.pods = (b, some e)) :
    DetailedGetPodsForMove deps nodeInfo skipNodesWithSystemPods skipNodesWithLocalStorage
      listers minReplicaCount pdbs now = ([], b, some e) := by
  simp [DetailedGetPodsForMove, hjob]

theorem FastGetPodsToMove_of_delegate_error (b0 : Option BlockingPod)
    (hjob : checkJobPods nodeInfo.pods = (b0, none))
    (hdel : (deps.GetPodsForDeletionOnNodeDrain nodeInfo.pods pdbs skipNodesWithSystemPods
      skipNodesWithLocalStorage false none 0 now).2.2 ≠ none) :
    FastGetPodsToMove deps nodeInfo skipNodesWithSystemPods skipNodesWithLocalStorage pdbs now =
      deps.GetPodsForDeletionOnNodeDrain nodeInfo.pods pdbs skipNodesWithSystemPods
        skipNodesWithLocalStorage false none 0 now := by
  rcases hd : deps.GetPodsForDeletionOnNodeDrain nodeInfo.pods pdbs skipNodesWithSystemPods
      skipNodesWithLocalStorage false none 0 now with ⟨pods, b, _ | e⟩
  · rw [hd] at hdel; exact absurd rfl hdel
  · simp [FastGetPodsToMove, hjob, hd]

theorem DetailedGetPodsForMove_of_delegate_error (b0 : Option BlockingPod)
    (hjob : checkJobPods nodeInfo.pods = (b0, none))
    (hdel : (deps.GetPodsForDeletionOnNodeDrain nodeInfo.pods pdbs skipNodesWithSystemPods
      skipNodesWithLocalStorage true (some listers) minReplicaCount now).2.2 ≠ none) :
    DetailedGetPodsForMove deps nodeInfo skipNodesWithSystemPods skipNodesWithLocalStorage
        listers minReplicaCount pdbs now =
      deps.GetPodsForDeletionOnNodeDrain nodeInfo.pods pdbs skipNodesWithSystemPods
        skipNodesWithLocalStorage true (some listers) minReplicaCount now := by
  rcases hd : deps.GetPodsForDeletionOnNodeDrain nodeInfo.pods pdbs skipNodesWithSystemPods
      skipNodesWithLocalStorage true (some listers) minReplicaCount now with ⟨pods, b, _ | e⟩
  · rw [hd] at hdel; exact absurd rfl hdel
  · simp [DetailedGetPodsForMove, hjob, hd]

theorem FastGetPodsToMove_of_pdb_error (b0 b1 b : Option BlockingPod) (movable : List Pod)
    (e : String) (hjob : checkJobPods nodeInfo.pods = (b0, none))
    (hdel : deps.GetPodsForDeletionOnNodeDrain nodeInfo.pods pdbs skipNodesWithSystemPods
      skipNodesWithLocalStorage false none 0 now = (movable, b1, none))
    (hpdb : checkPdbs deps.LabelSelectorAsSelector movable pdbs = (b, some e)) :
    FastGetPodsToMove deps nodeInfo skipNodesWithSystemPods skipNodesWithLocalStorage pdbs now =
      ([], b, some e) := by
  simp [FastGetPodsToMove, hjob, hdel, hpdb]

theorem DetailedGetPodsForMove_of_pdb_error (b0 b1 b : Option BlockingPod)
    (movable : List Pod) (e : String) (hjob : checkJobPods nodeInfo.pods = (b0, none))
    (hdel : deps.GetPodsForDeletionOnNodeDrain nodeInfo.pods pdbs skipNodesWithSystemPods
      skipNodesWithLocalStorage true (some listers) minReplicaCount now = (movable, b1, none))
    (hpdb : checkPdbs deps.LabelSelectorAsSelector movable pdbs = (b, some e)) :
    DetailedGetPodsForMove deps nodeInfo skipNodesWithSystemPods skipNodesWithLocalStorage
      listers minReplicaCount pdbs now = ([], b, some e) := by
  simp [DetailedGetPodsForMove, hjob, hdel, hpdb]

theorem FastGetPodsToMove_of_pdb_ok (b0 b1 b : Option BlockingPod) (movable : List Pod)
    (hjob : checkJobPods nodeInfo.pods = (b0, none))
    (hdel : deps.GetPodsForDeletionOnNodeDrain nodeInfo.pods pdbs skipNodesWithSystemPods
      skipNodesWithLocalStorage false none 0 now = (movable, b1, none))
    (hpdb : checkPdbs deps.LabelSelectorAsSelector movable pdbs = (b, none)) :
    FastGetPodsToMove deps nodeInfo skipNodesWithSystemPods skipNodesWithLocalStorage pdbs now =
      (movable, none, none) := by
  simp [FastGetPodsToMove, hjob, hdel, hpdb]

theorem DetailedGetPodsForMove_of_pdb_ok (b0 b1 b : Option BlockingPod)
    (movable : List Pod) (hjob : checkJobPods nodeInfo.pods = (b0, none))
    (hdel : deps.GetPodsForDeletionOnNodeDrain nodeInfo.pods pdbs skipNodesWithSystemPods
      skipNodesWithLocalStorage true (some listers) minReplicaCount now = (movable, b1, none))
    (hpdb : checkPdbs deps.LabelSelectorAsSelector movable pdbs = (b, none)) :
    DetailedGetPodsForMove deps nodeInfo skipNodesWithSystemPods skipNodesWithLocalStorage
      listers minReplicaCount pdbs now = (movable, none, none) := by
  simp [DetailedGetPodsForMove, hjob, hdel, hpdb]

end DrainFunctions

theorem checkJobPods_cases :
    ∀ pods : List Pod,
      checkJobPods pods = (none, none) ∨
      ∃ pod e, checkJobPods pods =
        (some { pod := pod, reason := BlockingPodReason.NotReplicated }, some e)
  | [] => Or.inl rfl
  | pod :: rest => by
    cases hpod : isJobPod pod
    · have hstep : checkJobPods (pod :: rest) = checkJobPods rest := by
        simp [checkJobPods, hpod]
      rw [hstep]
      exact checkJobPods_cases rest
    · exact Or.inr ⟨pod, _, by simp [checkJobPods, hpod]; rfl⟩

/-! ## Drain: the claims -/

/-- C6: for every pod list that contains a pod with an owner reference whose APIVersion
starts with "batch/" and whose Kind is "Job", `FastGetPodsToMove` and
`DetailedGetPodsForMove` return no pods, a BlockingPod made of the first such pod in list
order with reason NotReplicated, and an error, for all budgets, skip flags, listers,
replica counts and delegates. -/
theorem drain_job_pod_blocks (nodeInfo : NodeInfo)
    (h : ∃ p ∈ nodeInfo.pods, ∃ r ∈ p.ownerReferences,
      hasPrefix r.apiVersion "batch/" = true ∧ r.kind = "Job") :
    ∃ pre pod post,
      nodeInfo.pods = pre ++ pod :: post ∧ (∀ q ∈ pre, isJobPod q = false) ∧
      isJobPod pod = true ∧
      ∀ (L : Type) (deps : DrainDeps L) (skipNodesWithSystemPods skipNodesWithLocalStorage : Bool)
        (listers : L) (minReplicaCount : Int) (pdbs : List PodDisruptionBudget) (now : Time),
        FastGetPodsToMove deps nodeInfo skipNodesWithSystemPods skipNodesWithLocalStorage
            pdbs now =
          ([], some { pod := pod, reason := BlockingPodReason.NotReplicated },
            some ("job pod " ++ pod.ns ++ "/" ++ pod.name ++ " is unmovable")) ∧
        DetailedGetPodsForMove deps nodeInfo skipNodesWithSystemPods skipNodesWithLocalStorage
            listers minReplicaCount pdbs now =
          ([], some { pod := pod, reason := BlockingPodReason.NotReplicated },
            some ("job pod " ++ pod.ns ++ "/" ++ pod.name ++ " is unmovable")) := by
  have h' : ∃ p ∈ nodeInfo.pods, isJobPod p = true := by
    obtain ⟨p, hp, hr⟩ := h
    exact ⟨p, hp, (isJobPod_iff p).mpr hr⟩
  obtain ⟨pre, pod, post, hsplit, hpre, hpod⟩ := exists_first_split isJobPod nodeInfo.pods h'
  refine ⟨pre, pod, post, hsplit, hpre, hpod, ?_⟩
  intro L deps s1 s2 listers m pdbs now
  have hjob := checkJobPods_first pod post hpod pre hpre
  rw [← hsplit] at hjob
  exact ⟨FastGetPodsToMove_of_job deps nodeInfo s1 s2 pdbs now _ _ hjob,
    DetailedGetPodsForMove_of_job deps nodeInfo s1 s2 listers m pdbs now _ _ hjob⟩

/-- C6, at a node with a plain pod followed by two Job pods, under a violated budget. -/
theorem drain_job_pod_blocks_witness :
    (∃ pre pod post,
      [podA, jobPod, jobPod2] = pre ++ pod :: post ∧ (∀ q ∈ pre, isJobPod q = false) ∧
      isJobPod pod = true ∧
      ∀ (L : Type) (deps : DrainDeps L) (skipNodesWithSystemPods skipNodesWithLocalStorage : Bool)
        (listers : L) (minReplicaCount : Int) (pdbs : List PodDisruptionBudget) (now : Time),
        FastGetPodsToMove deps { pods := [podA, jobPod, jobPod2] } skipNodesWithSystemPods
            skipNodesWithLocalStorage pdbs now =
          ([], some { pod := pod, reason := BlockingPodReason.NotReplicated },
            some ("job pod " ++ pod.ns ++ "/" ++ pod.name ++ " is unmovable")) ∧
        DetailedGetPodsForMove deps { pods := [podA, jobPod, jobPod2] } skipNodesWithSystemPods
            skipNodesWithLocalStorage listers minReplicaCount pdbs now =
          ([], some { pod := pod, reason := BlockingPodReason.NotReplicated },
            some ("job pod " ++ pod.ns ++ "/" ++ pod.name ++ " is unmovable"))) ∧
    FastGetPodsToMove exampleDeps { pods := [podA, jobPod, jobPod2] } true false [pdbTight] 0 =
      ([], some { pod := jobPod, reason := BlockingPodReason.NotReplicated },
        some "job pod ns/j is unmovable") :=
  ⟨drain_job_pod_blocks { pods := [podA, jobPod, jobPod2] } (by decide), by decide⟩

/-- C7 as stated fails: no pod is a Job pod, the delegate succeeds with `podA`, the budget
`pdbTight` lies in the namespace of `podA`, selects it and allows no disruption, and yet
no BlockingPod is returned, because a budget earlier in the list does not convert. -/
theorem drain_pdb_violation_counterexample :
    (∀ p ∈ [podA], isJobPod p = false) ∧
    exampleDeps.GetPodsForDeletionOnNodeDrain [podA] [pdbMalformed, pdbTight] false false false
      none 0 0 = ([podA], none, none) ∧
    (∃ selector, exampleDeps.LabelSelectorAsSelector pdbTight.selector = .ok selector ∧
      PdbBlocks pdbTight selector podA) ∧
    (FastGetPodsToMove exampleDeps { pods := [podA] } false false
      [pdbMalformed, pdbTight] 0).2.1 = none ∧
    (DetailedGetPodsForMove exampleDeps { pods := [podA] } false false () 0
      [pdbMalformed, pdbTight] 0).2.1 = none :=
  ⟨by decide, rfl, ⟨_, rfl, by decide⟩, by decide, by decide⟩

/-- C7, amended: when no pod is a Job pod and the delegate succeeds, and `pod` is the first
pod (in delegate output order) blocked by the first budget (in budget order) that blocks a
returned pod, and every budget before that one has a selector that converts, both
functions return no pods, an error and the BlockingPod of `pod` with reason NotEnoughPdb.
Moreover every BlockingPod returned after the delegate succeeded has reason NotEnoughPdb
and names a returned pod blocked by a budget of its namespace whose selector matches it
and that allows less than one disruption. -/
theorem drain_pdb_violation_blocks {L : Type} (deps : DrainDeps L) (nodeInfo : NodeInfo)
    (skipNodesWithSystemPods skipNodesWithLocalStorage : Bool) (listers : L)
    (minReplicaCount : Int) (pdbs : List PodDisruptionBudget) (now : Time)
    (hjob : ∀ p ∈ nodeInfo.pods, isJobPod p = false) :
    (∀ movable b1 pod,
      deps.GetPodsForDeletionOnNodeDrain nodeInfo.pods pdbs skipNodesWithSystemPods
        skipNodesWithLocalStorage false none 0 now = (movable, b1, none) →
      FirstPdbViolation deps.LabelSelectorAsSelector movable pdbs pod →
      FastGetPodsToMove deps nodeInfo skipNodesWithSystemPods skipNodesWithLocalStorage
          pdbs now =
        ([], some { pod := pod, reason := BlockingPodReason.NotEnoughPdb },
          some ("not enough pod disruption budget to move " ++ pod.ns ++ "/" ++ pod.name))) ∧
    (∀ movable b1 pod,
      deps.GetPodsForDeletionOnNodeDrain nodeInfo.pods pdbs skipNodesWithSystemPods
        skipNodesWithLocalStorage true (some listers) minReplicaCount now =
          (movable, b1, none) →
      FirstPdbViolation deps.LabelSelectorAsSelector movable pdbs pod →
      DetailedGetPodsForMove deps nodeInfo skipNodesWithSystemPods skipNodesWithLocalStorage
          listers minReplicaCount pdbs now =
        ([], some { pod := pod, reason := BlockingPodReason.NotEnoughPdb },
          some ("not enough pod disruption budget to move " ++ pod.ns ++ "/" ++ pod.name))) ∧
    (∀ movable b1 blocking,
      deps.GetPodsForDeletionOnNodeDrain nodeInfo.pods pdbs skipNodesWithSystemPods
        skipNodesWithLocalStorage false none 0 now = (movable, b1, none) →
      (FastGetPodsToMove deps nodeInfo skipNodesWithSystemPods skipNodesWithLocalStorage
        pdbs now).2.1 = some blocking →
      blocking.reason = BlockingPodReason.NotEnoughPdb ∧ blocking.pod ∈ movable ∧
      ∃ pdb ∈ pdbs, ∃ selector, deps.LabelSelectorAsSelector pdb.selector = .ok selector ∧
        PdbBlocks pdb selector blocking.pod) ∧
    (∀ movable b1 blocking,
      deps.GetPodsForDeletionOnNodeDrain nodeInfo.pods pdbs skipNodesWithSystemPods
        skipNodesWithLocalStorage true (some listers) minReplicaCount now =
          (movable, b1, none) →
      (DetailedGetPodsForMove deps nodeInfo skipNodesWithSystemPods skipNodesWithLocalStorage
        listers minReplicaCount pdbs now).2.1 = some blocking →
      blocking.reason = BlockingPodReason.NotEnoughPdb ∧ blocking.pod ∈ movable ∧
      ∃ pdb ∈ pdbs, ∃ selector, deps.LabelSelectorAsSelector pdb.selector = .ok selector ∧
        PdbBlocks pdb selector blocking.pod) := by
  have hj := checkJobPods_of_no_job nodeInfo.pods hjob
  have hfirst : ∀ movable pod,
      FirstPdbViolation deps.LabelSelectorAsSelector movable pdbs pod →
      checkPdbs deps.LabelSelectorAsSelector movable pdbs =
        (some { pod := pod, reason := BlockingPodReason.NotEnoughPdb },
          some ("not enough pod disruption budget to move " ++ pod.ns ++ "/" ++ pod.name)) := by
    rintro movable pod ⟨pre, pdb, post, selector, before, after, hpdbs, hpre, hsel, hmov,
      hbefore, hpod⟩
    have hfind : findPdbViolation pdb selector movable = some pod := by
      rw [hmov]
      exact findPdbViolation_first pdb selector before pod after hbefore hpod
    rw [hpdbs, checkPdbs_append_of_passes deps.LabelSelectorAsSelector movable _ pre hpre]
    simp [checkPdbs, hsel, hfind]
  have hsound : ∀ movable (r : DrainResult) (blocking : BlockingPod),
      (∀ b e, checkPdbs deps.LabelSelectorAsSelector movable pdbs = (b, some e) →
        r = ([], b, some e)) →
      (∀ b, checkPdbs deps.LabelSelectorAsSelector movable pdbs = (b, none) →
        r = (movable, none, none)) →
      r.2.1 = some blocking →
      blocking.reason = BlockingPodReason.NotEnoughPdb ∧ blocking.pod ∈ movable ∧
      ∃ pdb ∈ pdbs, ∃ selector, deps.LabelSelectorAsSelector pdb.selector = .ok selector ∧
        PdbBlocks pdb selector blocking.pod := by
    intro movable r blocking herr hok hr
    rcases checkPdbs_cases deps.LabelSelectorAsSelector movable pdbs with h | ⟨b, _, e, _, h⟩ |
        ⟨b, hb, sel, pod, hs, hmem, hblock, h⟩
    · rw [hok _ h] at hr; cases hr
    · rw [herr _ _ h] at hr; cases hr
    · rw [herr _ _ h] at hr
      cases hr
      exact ⟨rfl, hmem, b, hb, sel, hs, hblock⟩
  refine ⟨?_, ?_, ?_, ?_⟩
  · intro movable b1 pod hdel hv
    exact FastGetPodsToMove_of_pdb_error deps nodeInfo _ _ pdbs now _ _ _ movable _ hj hdel
      (hfirst movable pod hv)
  · intro movable b1 pod hdel hv
    exact DetailedGetPodsForMove_of_pdb_error deps nodeInfo _ _ listers minReplicaCount pdbs now
      _ _ _ movable _ hj hdel (hfirst movable pod hv)
  · intro movable b1 blocking hdel hr
    exact hsound movable _ blocking
      (fun b e h => FastGetPodsToMove_of_pdb_error deps nodeInfo _ _ pdbs now _ _ _ movable _
        hj hdel h)
      (fun b h => FastGetPodsToMove_of_pdb_ok deps nodeInfo _ _ pdbs now _ _ _ movable hj hdel h)
      hr
  · intro movable b1 blocking hdel hr
    exact hsound movable _ blocking
      (fun b e h => DetailedGetPodsForMove_of_pdb_error deps nodeInfo _ _ listers
        minReplicaCount pdbs now _ _ _ movable _ hj hdel h)
      (fun b h => DetailedGetPodsForMove_of_pdb_ok deps nodeInfo _ _ listers minReplicaCount
        pdbs now _ _ _ movable hj hdel h)
      hr

/-- C7 amended, at three pods and four budgets: a budget with one disruption left, a
budget of another namespace and a budget whose selector matches no pod are passed over,
and the last budget blocks `podA`, the first pod it selects. -/
theorem drain_pdb_violation_blocks_witness :
    FastGetPodsToMove exampleDeps { pods := [podC, podA, podB] } false false
        [pdbLoose, pdbElsewhere, pdbUnmatched, pdbTight] 0 =
      ([], some { pod := podA, reason := BlockingPodReason.NotEnoughPdb },
        some ("not enough pod disruption budget to move " ++ podA.ns ++ "/" ++ podA.name)) :=
  (drain_pdb_violation_blocks exampleDeps { pods := [podC, podA, podB] } false false () 0
      [pdbLoose, pdbElsewhere, pdbUnmatched, pdbTight] 0 (by decide)).1
    [podC, podA, podB] none podA rfl
    ⟨[pdbLoose, pdbElsewhere, pdbUnmatched], pdbTight, [], _, [podC], [podB], rfl,
      (by
        intro b hb
        simp only [List.mem_cons, List.mem_singleton, List.not_mem_nil, or_false] at hb
        rcases hb with rfl | rfl | rfl
        · exact ⟨_, rfl, by decide⟩
        · exact ⟨_, rfl, by decide⟩
        · exact ⟨_, rfl, by decide⟩),
      rfl, rfl, by decide, by decide⟩

/-- C8 as stated fails: no pod is a Job pod, the delegate succeeds, the only budget has a
selector that does not convert, and both functions return an error without a
BlockingPod. -/
theorem drain_names_blocking_pod_counterexample :
    FastGetPodsToMove exampleDeps { pods := [podA] } false false [pdbMalformed] 0 =
      ([], none, some "\"Bogus\" is not a valid pod selector operator") ∧
    (FastGetPodsToMove exampleDeps { pods := [podA] } false false [pdbMalformed] 0).2.2 ≠ none ∧
    (FastGetPodsToMove exampleDeps { pods := [podA] } false false [pdbMalformed] 0).2.1 = none ∧
    (DetailedGetPodsForMove exampleDeps { pods := [podA] } false false () 0
      [pdbMalformed] 0).2.2 ≠ none ∧
    (DetailedGetPodsForMove exampleDeps { pods := [podA] } false false () 0
      [pdbMalformed] 0).2.1 = none := by
  decide

/-- The result shape of C8 from the three ways a drain function ends. -/
theorem namesBlockingPod_of_steps
    (asSelector : Option LabelSelector → Except String Selector)
    (pods : List Pod) (pdbs : List PodDisruptionBudget) (delegated r : DrainResult)
    (hjobErr : ∀ b e, checkJobPods pods = (b, some e) → r = ([], b, some e))
    (hdelErr : checkJobPods pods = (none, none) → delegated.2.2 ≠ none → r = delegated)
    (hpdbErr : ∀ b e, checkJobPods pods = (none, none) → delegated.2.2 = none →
      checkPdbs asSelector delegated.1 pdbs = (b, some e) → r = ([], b, some e))
    (hpdbOk : ∀ b, checkJobPods pods = (none, none) → delegated.2.2 = none →
      checkPdbs asSelector delegated.1 pdbs = (b, none) → r = (delegated.1, none, none)) :
    NamesBlockingPod asSelector pdbs delegated r := by
  rcases checkJobPods_cases pods with hj | ⟨pod, e, hj⟩
  · by_cases hd : delegated.2.2 = none
    · rcases checkPdbs_cases asSelector delegated.1 pdbs with h | ⟨b, hb, e, he, h⟩ |
          ⟨b, hb, sel, pod, hs, hmem, hblock, h⟩
      · rw [hpdbOk _ hj hd h]
        exact ⟨fun _ => rfl, fun hne => absurd rfl hne⟩
      · rw [hpdbErr _ _ hj hd h]
        exact ⟨fun hnone => rfl, fun _ => Or.inr (Or.inr ⟨b, hb, e, he, rfl⟩)⟩
      · rw [hpdbErr _ _ hj hd h]
        refine ⟨fun hnone => ?_, fun _ => Or.inl ?_⟩
        · cases hnone
        · intro hnone; cases hnone
    · rw [hdelErr hj hd]
      exact ⟨fun hnone => absurd hnone hd, fun _ => Or.inr (Or.inl ⟨hd, rfl⟩)⟩
  · rw [hjobErr _ _ hj]
    refine ⟨fun hnone => ?_, fun _ => Or.inl ?_⟩
    · cases hnone
    · intro hnone; cases hnone

/-- C8, amended: a drain evaluation that returns no error returns no BlockingPod; one that
returns an error names a BlockingPod, unless the error is the eligibility delegate's own
(then the delegate's result is returned as it is, with the delegate's blocking pod or
none) or the conversion error of a budget's selector (then no pods and no BlockingPod are
returned). -/
theorem drain_names_blocking_pod {L : Type} (deps : DrainDeps L) (nodeInfo : NodeInfo)
    (skipNodesWithSystemPods skipNodesWithLocalStorage : Bool) (listers : L)
    (minReplicaCount : Int) (pdbs : List PodDisruptionBudget) (now : Time) :
    NamesBlockingPod deps.LabelSelectorAsSelector pdbs
      (deps.GetPodsForDeletionOnNodeDrain nodeInfo.pods pdbs skipNodesWithSystemPods
        skipNodesWithLocalStorage false none 0 now)
      (FastGetPodsToMove deps nodeInfo skipNodesWithSystemPods skipNodesWithLocalStorage
        pdbs now) ∧
    NamesBlockingPod deps.LabelSelectorAsSelector pdbs
      (deps.GetPodsForDeletionOnNodeDrain nodeInfo.pods pdbs skipNodesWithSystemPods
        skipNodesWithLocalStorage true (some listers) minReplicaCount now)
      (DetailedGetPodsForMove deps nodeInfo skipNodesWithSystemPods skipNodesWithLocalStorage
        listers minReplicaCount pdbs now) := by
  have hsplit : ∀ d : DrainResult, d.2.2 = none → d = (d.1, d.2.1, none) := by
    rintro ⟨a, b, c⟩ h
    cases h
    rfl
  constructor
  · apply namesBlockingPod_of_steps deps.LabelSelectorAsSelector nodeInfo.pods
    · intro b e hj
      exact FastGetPodsToMove_of_job deps nodeInfo _ _ pdbs now b e hj
    · intro hj hd
      exact FastGetPodsToMove_of_delegate_error deps nodeInfo _ _ pdbs now _ hj hd
    · intro b e hj hd h
      exact FastGetPodsToMove_of_pdb_error deps nodeInfo _ _ pdbs now _ _ _ _ _ hj
        (hsplit _ hd) h
    · intro b hj hd h
      exact FastGetPodsToMove_of_pdb_ok deps nodeInfo _ _ pdbs now _ _ _ _ hj (hsplit _ hd) h
  · apply namesBlockingPod_of_steps deps.LabelSelectorAsSelector nodeInfo.pods
    · intro b e hj
      exact DetailedGetPodsForMove_of_job deps nodeInfo _ _ listers minReplicaCount pdbs now
        b e hj
    · intro hj hd
      exact DetailedGetPodsForMove_of_delegate_error deps nodeInfo _ _ listers
        minReplicaCount pdbs now _ hj hd
    · intro b e hj hd h
      exact DetailedGetPodsForMove_of_pdb_error deps nodeInfo _ _ listers minReplicaCount
        pdbs now _ _ _ _ _ hj (hsplit _ hd) h
    · intro b hj hd h
      exact DetailedGetPodsForMove_of_pdb_ok deps nodeInfo _ _ listers minReplicaCount pdbs
        now _ _ _ _ hj (hsplit _ hd) h

/-- C9: when no pod is a Job pod, the delegate returns a pod list without error, and every
budget has a selector that converts and blocks none of the returned pods, both functions
return the delegate's pod list unchanged, no BlockingPod and no error. -/
theorem drain_success {L : Type} (deps : DrainDeps L) (nodeInfo : NodeInfo)
    (skipNodesWithSystemPods skipNodesWithLocalStorage : Bool) (listers : L)
    (minReplicaCount : Int) (pdbs : List PodDisruptionBudget) (now : Time)
    (hjob : ∀ p ∈ nodeInfo.pods, isJobPod p = false) :
    (∀ movable b1,
      deps.GetPodsForDeletionOnNodeDrain nodeInfo.pods pdbs skipNodesWithSystemPods
        skipNodesWithLocalStorage false none 0 now = (movable, b1, none) →
      (∀ b ∈ pdbs, PdbPasses deps.LabelSelectorAsSelector movable b) →
      FastGetPodsToMove deps nodeInfo skipNodesWithSystemPods skipNodesWithLocalStorage
        pdbs now = (movable, none, none)) ∧
    (∀ movable b1,
      deps.GetPodsForDeletionOnNodeDrain nodeInfo.pods pdbs skipNodesWithSystemPods
        skipNodesWithLocalStorage true (some listers) minReplicaCount now =
          (movable, b1, none) →
      (∀ b ∈ pdbs, PdbPasses deps.LabelSelectorAsSelector movable b) →
      DetailedGetPodsForMove deps nodeInfo skipNodesWithSystemPods skipNodesWithLocalStorage
        listers minReplicaCount pdbs now = (movable, none, none)) := by
  have hj := checkJobPods_of_no_job nodeInfo.pods hjob
  constructor
  · intro movable b1 hdel hpass
    exact FastGetPodsToMove_of_pdb_ok deps nodeInfo _ _ pdbs now _ _ _ movable hj hdel
      (checkPdbs_of_passes deps.LabelSelectorAsSelector movable pdbs hpass)
  · intro movable b1 hdel hpass
    exact DetailedGetPodsForMove_of_pdb_ok deps nodeInfo _ _ listers minReplicaCount pdbs now
      _ _ _ movable hj hdel
      (checkPdbs_of_passes deps.LabelSelectorAsSelector movable pdbs hpass)

/-- C9, at three pods and three budgets none of which blocks. -/
theorem drain_success_witness :
    FastGetPodsToMove exampleDeps { pods := [podC, podA, podB] } false false
        [pdbLoose, pdbElsewhere, pdbUnmatched] 0 = ([podC, podA, podB], none, none) ∧
    DetailedGetPodsForMove exampleDeps { pods := [podC, podA, podB] } false false () 2
        [pdbLoose, pdbElsewhere, pdbUnmatched] 0 = ([podC, podA, podB], none, none) :=
  have hpass : ∀ b ∈ [pdbLoose, pdbElsewhere, pdbUnmatched],
      PdbPasses exampleDeps.LabelSelectorAsSelector [podC, podA, podB] b := by
    intro b hb
    simp only [List.mem_cons, List.mem_singleton, List.not_mem_nil, or_false] at hb
    rcases hb with rfl | rfl | rfl
    · exact ⟨_, rfl, by decide⟩
    · exact ⟨_, rfl, by decide⟩
    · exact ⟨_, rfl, by decide⟩
  ⟨(drain_success exampleDeps { pods := [podC, podA, podB] } false false () 2
      [pdbLoose, pdbElsewhere, pdbUnmatched] 0 (by decide)).1 [podC, podA, podB] none rfl hpass,
    (drain_success exampleDeps { pods := [podC, podA, podB] } false false () 2
      [pdbLoose, pdbElsewhere, pdbUnmatched] 0 (by decide)).2 [podC, podA, podB] none rfl hpass⟩

/-- C10: when no pod is a Job pod and the delegate succeeds, a budget list that contains a
budget whose selector does not convert makes both functions fail; a failure without
BlockingPod (no earlier budget blocked) is the conversion error of a budget of the list,
with no pods; and when every budget before the given budget converts and blocks no
returned pod, the result is the conversion error of that budget, with no pods and no
BlockingPod. -/
theorem drain_malformed_selector {L : Type} (deps : DrainDeps L) (nodeInfo : NodeInfo)
    (skipNodesWithSystemPods skipNodesWithLocalStorage : Bool) (listers : L)
    (minReplicaCount : Int) (pdbs : List PodDisruptionBudget) (now : Time)
    (hjob : ∀ p ∈ nodeInfo.pods, isJobPod p = false) :
    (∀ movable b1 pre pdb post e,
      deps.GetPodsForDeletionOnNodeDrain nodeInfo.pods pdbs skipNodesWithSystemPods
        skipNodesWithLocalStorage false none 0 now = (movable, b1, none) →
      pdbs = pre ++ pdb :: post → deps.LabelSelectorAsSelector pdb.selector = .error e →
      (FastGetPodsToMove deps nodeInfo skipNodesWithSystemPods skipNodesWithLocalStorage
        pdbs now).2.2 ≠ none ∧
      ((FastGetPodsToMove deps nodeInfo skipNodesWithSystemPods skipNodesWithLocalStorage
        pdbs now).2.1 = none →
        ∃ b ∈ pdbs, ∃ e', deps.LabelSelectorAsSelector b.selector = .error e' ∧
          FastGetPodsToMove deps nodeInfo skipNodesWithSystemPods skipNodesWithLocalStorage
            pdbs now = ([], none, some e')) ∧
      ((∀ b ∈ pre, PdbPasses deps.LabelSelectorAsSelector movable b) →
        FastGetPodsToMove deps nodeInfo skipNodesWithSystemPods skipNodesWithLocalStorage
          pdbs now = ([], none, some e))) ∧
    (∀ movable b1 pre pdb post e,
      deps.GetPodsForDeletionOnNodeDrain nodeInfo.pods pdbs skipNodesWithSystemPods
        skipNodesWithLocalStorage true (some listers) minReplicaCount now =
          (movable, b1, none) →
      pdbs = pre ++ pdb :: post → deps.LabelSelectorAsSelector pdb.selector = .error e →
      (DetailedGetPodsForMove deps nodeInfo skipNodesWithSystemPods skipNodesWithLocalStorage
        listers minReplicaCount pdbs now).2.2 ≠ none ∧
      ((DetailedGetPodsForMove deps nodeInfo skipNodesWithSystemPods skipNodesWithLocalStorage
        listers minReplicaCount pdbs now).2.1 = none →
        ∃ b ∈ pdbs, ∃ e', deps.LabelSelectorAsSelector b.selector = .error e' ∧
          DetailedGetPodsForMove deps nodeInfo skipNodesWithSystemPods
            skipNodesWithLocalStorage listers minReplicaCount pdbs now =
              ([], none, some e')) ∧
      ((∀ b ∈ pre, PdbPasses deps.LabelSelectorAsSelector movable b) →
        DetailedGetPodsForMove deps nodeInfo skipNodesWithSystemPods
          skipNodesWithLocalStorage listers minReplicaCount pdbs now = ([], none, some e))) := by
  have hj := checkJobPods_of_no_job nodeInfo.pods hjob
  have hcore : ∀ (movable : List Pod) (r : DrainResult) pre pdb post e,
      (∀ b e', checkPdbs deps.LabelSelectorAsSelector movable pdbs = (b, some e') →
        r = ([], b, some e')) →
      pdbs = pre ++ pdb :: post → deps.LabelSelectorAsSelector pdb.selector = .error e →
      r.2.2 ≠ none ∧
      (r.2.1 = none → ∃ b ∈ pdbs, ∃ e', deps.LabelSelectorAsSelector b.selector = .error e' ∧
        r = ([], none, some e')) ∧
      ((∀ b ∈ pre, PdbPasses deps.LabelSelectorAsSelector movable b) →
        r = ([], none, some e)) := by
    intro movable r pre pdb post e hr hpdbs hsel
    have hne := checkPdbs_error_of_malformed deps.LabelSelectorAsSelector movable pdbs
      ⟨pdb, by rw [hpdbs]; simp, e, hsel⟩
    refine ⟨?_, ?_, ?_⟩
    · rcases hc : checkPdbs deps.LabelSelectorAsSelector movable pdbs with ⟨b, _ | e'⟩
      · rw [hc] at hne; exact absurd rfl hne
      · rw [hr b e' hc]
        intro hnone; cases hnone
    · intro hnone
      rcases checkPdbs_cases deps.LabelSelectorAsSelector movable pdbs with h | ⟨b, hb, e', he, h⟩ |
          ⟨b, hb, sel, pod, hs, hmem, hblock, h⟩
      · rw [h] at hne; exact absurd rfl hne
      · exact ⟨b, hb, e', he, hr _ _ h⟩
      · rw [hr _ _ h] at hnone; cases hnone
    · intro hpre
      apply hr
      rw [hpdbs, checkPdbs_append_of_passes deps.LabelSelectorAsSelector movable _ pre hpre]
      simp [checkPdbs, hsel]
  constructor
  · intro movable b1 pre pdb post e hdel hpdbs hsel
    exact hcore movable _ pre pdb post e
      (fun b e' hc => FastGetPodsToMove_of_pdb_error deps nodeInfo _ _ pdbs now _ _ _ movable
        _ hj hdel hc) hpdbs hsel
  · intro movable b1 pre pdb post e hdel hpdbs hsel
    exact hcore movable _ pre pdb post e
      (fun b e' hc => DetailedGetPodsForMove_of_pdb_error deps nodeInfo _ _ listers
        minReplicaCount pdbs now _ _ _ movable _ hj hdel hc) hpdbs hsel

/-- C10, at a budget list whose second budget does not convert, after a budget that
blocks nothing and before one that would block; and at a list whose first budget blocks,
where the evaluation still fails. -/
theorem drain_malformed_selector_witness :
    FastGetPodsToMove exampleDeps { pods := [podC, podA] } false false
        [pdbLoose, pdbMalformed, pdbTight] 0 =
      ([], none, some "\"Bogus\" is not a valid pod selector operator") ∧
    (DetailedGetPodsForMove exampleDeps { pods := [podC, podA] } false false () 1
        [pdbTight, pdbMalformed] 0).2.2 ≠ none :=
  ⟨((drain_malformed_selector exampleDeps { pods := [podC, podA] } false false () 1
      [pdbLoose, pdbMalformed, pdbTight] 0 (by decide)).1 [podC, podA] none
      [pdbLoose] pdbMalformed [pdbTight] _ rfl rfl rfl).2.2
      (by
        intro b hb
        simp only [List.mem_singleton] at hb
        subst hb
        exact ⟨_, rfl, by decide⟩),
    ((drain_malformed_selector exampleDeps { pods := [podC, podA] } false false () 1
      [pdbTight, pdbMalformed] 0 (by decide)).2 [podC, podA] none
      [pdbTight] pdbMalformed [] _ rfl rfl rfl).1⟩

/-! ## Lemmas on decimal rendering -/

theorem digitChar_value : ∀ k < 10, (Nat.digitChar k).toNat - 48 = k := by decide

theorem digitsValue_append_singleton (l : List Char) (c : Char) :
    digitsValue (l ++ [c]) = 10 * digitsValue l + (c.toNat - 48) := by
  simp [digitsValue, List.foldl_append]

/-- The digits `Nat.toDigitsCore` puts in front of its accumulator have the value of the
number, when the fuel exceeds the number. -/
theorem toDigitsCore_value :
    ∀ (fuel n : Nat) (ds : List Char), n < fuel →
      ∃ pre, Nat.toDigitsCore 10 fuel n ds = pre ++ ds ∧ digitsValue pre = n
  | 0, n, _, h => absurd h (Nat.not_lt_zero n)
  | fuel + 1, n, ds, h => by
    by_cases hq : n / 10 = 0
    · refine ⟨[Nat.digitChar (n % 10)], by simp [Nat.toDigitsCore, hq], ?_⟩
      have hlt : n < 10 := by omega
      have hmod : n % 10 = n := Nat.mod_eq_of_lt hlt
      rw [hmod]
      simpa [digitsValue] using digitChar_value n hlt
    · have hfuel : n / 10 < fuel := by omega
      obtain ⟨pre, hpre, hval⟩ :=
        toDigitsCore_value fuel (n / 10) (Nat.digitChar (n % 10) :: ds) hfuel
      refine ⟨pre ++ [Nat.digitChar (n % 10)], by simp [Nat.toDigitsCore, hq, hpre], ?_⟩
      rw [digitsValue_append_singleton, hval, digitChar_value (n % 10) (Nat.mod_lt n (by decide))]
      omega

theorem digitsValue_repr (n : Nat) : digitsValue (Nat.repr n).data = n := by
  obtain ⟨pre, hpre, hval⟩ := toDigitsCore_value (n + 1) n [] (Nat.lt_succ_self n)
  have hdata : (Nat.repr n).data = pre := by
    simp [Nat.repr, Nat.toDigits, hpre, List.asString]
  rw [hdata, hval]

/-- The decimal rendering of a number determines the number. -/
theorem toString_nat_injective (a b : Nat) (h : toString a = toString b) : a = b := by
  have h' : Nat.repr a = Nat.repr b := h
  have := congrArg (fun s : String => digitsValue s.data) h'
  simpa [digitsValue_repr] using this

theorem string_append_left_cancel (s a b : String) (h : s ++ a = s ++ b) : a = b := by
  have hdata := congrArg String.data h
  simp only [String.data_append, List.append_cancel_left_eq] at hdata
  exact String.ext hdata

/-- The synthesized node names of one group differ exactly when the draws differ. -/
theorem templateName_injective (g : String) (a b : Nat)
    (h : "template-node-for-" ++ g ++ "-" ++ toString a =
      "template-node-for-" ++ g ++ "-" ++ toString b) : a = b :=
  toString_nat_injective a b (string_append_left_cancel _ _ _ h)

/-! ## Lemmas on sanitization -/

theorem sanitizeTemplateNode_eq (node : Node) (g : String) (ignoredTaints : List String)
    (n : Nat) :
    sanitizeTemplateNode node g ignoredTaints n =
      .ok { node with
        labels := node.labels.map (fun kv =>
          if kv.1 ≠ LabelHostname then (kv.1, kv.2)
          else (kv.1, "template-node-for-" ++ g ++ "-" ++ toString n))
        name := "template-node-for-" ++ g ++ "-" ++ toString n
        taints := SanitizeTaints node.taints ignoredTaints } := rfl

theorem sanitizeNodeInfo_eq (nodeInfo : NodeInfo) (g : String) (ignoredTaints : List String)
    (n : Nat) :
    sanitizeNodeInfo nodeInfo g ignoredTaints n =
      .ok { node := { nodeInfo.node with
              labels := nodeInfo.node.labels.map (fun kv =>
                if kv.1 ≠ LabelHostname then (kv.1, kv.2)
                else (kv.1, "template-node-for-" ++ g ++ "-" ++ toString n))
              name := "template-node-for-" ++ g ++ "-" ++ toString n
              taints := SanitizeTaints nodeInfo.node.taints ignoredTaints }
            pods := nodeInfo.pods.map (fun pod =>
              { pod with nodeName := "template-node-for-" ++ g ++ "-" ++ toString n }) } := rfl

/-- The label rewrite of `sanitizeTemplateNode`, read through map lookups. -/
theorem sanitizedLabels_get? (newName : String) (k : String) :
    ∀ labels : StringMap,
      StringMap.get? (labels.map (fun kv =>
          if kv.1 ≠ LabelHostname then (kv.1, kv.2) else (kv.1, newName))) k =
        if k = LabelHostname then (StringMap.get? labels k).map (fun _ => newName)
        else StringMap.get? labels k
  | [] => by simp [StringMap.get?]
  | kv :: rest => by
    have ih := sanitizedLabels_get? newName k rest
    unfold StringMap.get? at ih ⊢
    by_cases hk : kv.1 = k
    · by_cases hh : kv.1 = LabelHostname
      · have hkh : k = LabelHostname := hk ▸ hh
        simp [List.find?_cons, hk, hh, hkh]
      · have hkh : ¬ k = LabelHostname := fun h => hh (hk.trans h)
        simp [List.find?_cons, hk, hh, hkh]
    · have hfst : (if kv.1 ≠ LabelHostname then (kv.1, kv.2) else (kv.1, newName)).1 = kv.1 := by
        split_ifs <;> rfl
      have hne : ((if kv.1 ≠ LabelHostname then (kv.1, kv.2) else (kv.1, newName)).1 == k)
          = false := by
        rw [hfst]; simpa using hk
      have hne' : (kv.1 == k) = false := by simpa using hk
      rw [List.map_cons, List.find?_cons, hne, List.find?_cons, hne']
      exact ih

theorem sanitizedLabels_keys (newName : String) (labels : StringMap) :
    (labels.map (fun kv =>
        if kv.1 ≠ LabelHostname then (kv.1, kv.2) else (kv.1, newName))).map Prod.fst =
      labels.map Prod.fst := by
  rw [List.map_map]
  apply List.map_congr_left
  intro kv _
  simp only [Function.comp]
  split_ifs <;> rfl

/-! ## Sanitization: the claims -/

/-- C13: for every source node, group name `g`, random draw `n` and ignored-taint set,
`sanitizeTemplateNode` returns a node named `template-node-for-<g>-<n>` whose label keys
are the source's, in which the hostname label, if present, has the new name as value and
every other label keeps its value, whose taints are the source taints without those whose
key is in the ignored set, and whose other fields are the source's. On every store of
nodes and for every allocated node, the function returns no error and a pointer that is
not the pointer handed in, the object it points to is the node described, and every node
allocated before the call, the source among them, is after the call what it was before. -/
theorem sanitizeTemplateNode_spec (node : Node) (g : String) (ignoredTaints : List String)
    (n : Nat) :
    (∃ newNode, sanitizeTemplateNode node g ignoredTaints n = .ok newNode ∧
      newNode.name = "template-node-for-" ++ g ++ "-" ++ toString n ∧
      newNode.labels.map Prod.fst = node.labels.map Prod.fst ∧
      (∀ k, newNode.labels.get? k =
        if k = LabelHostname then (node.labels.get? k).map (fun _ => newNode.name)
        else node.labels.get? k) ∧
      newNode.taints = node.taints.filter (fun taint => decide (taint.key ∉ ignoredTaints)) ∧
      { newNode with name := node.name, labels := node.labels, taints := node.taints } =
        node) ∧
    ∀ (s : Store Node) (p : Nat), p < s.next →
      ∃ q, (sanitizeTemplateNodeInStore s p g ignoredTaints n).1 = .ok q ∧ q ≠ p ∧
        sanitizeTemplateNode (s.cells p) g ignoredTaints n =
          .ok ((sanitizeTemplateNodeInStore s p g ignoredTaints n).2.cells q) ∧
        ∀ q', q' < s.next →
          (sanitizeTemplateNodeInStore s p g ignoredTaints n).2.cells q' = s.cells q' := by
  refine ⟨⟨_, sanitizeTemplateNode_eq node g ignoredTaints n, rfl, ?_, ?_, ?_, rfl⟩, ?_⟩
  · exact sanitizedLabels_keys _ node.labels
  · intro k
    exact sanitizedLabels_get? _ k node.labels
  · simp only [SanitizeTaints]
    apply List.filter_congr
    intro taint _
    simp
  · intro s p hp
    obtain ⟨h1, h2, h3, _⟩ := sanitizeTemplateNodeInStore_eq s p g ignoredTaints n hp
    exact ⟨s.next, h1, fun heq => absurd hp (by rw [heq]; exact Nat.lt_irrefl _), h2, h3⟩

/-- C13, at the store that holds `healthyNode`, `nodeWithoutReady` and `readyNode1` at the
addresses 0, 1 and 2, for the pointer 2, the group "ng-1", the draw 7 and the ignored
taint key "dedicated": the pointer returned is the new address 3, the node there has the
new name, the hostname label rewritten and no taint, and the nodes at the addresses 0, 1
and 2 are what they were. -/
theorem sanitizeTemplateNode_spec_witness :
    (∃ q, (sanitizeTemplateNodeInStore exampleNodeStore 2 "ng-1" ["dedicated"] 7).1 = .ok q ∧
        q ≠ 2 ∧
        sanitizeTemplateNode (exampleNodeStore.cells 2) "ng-1" ["dedicated"] 7 =
          .ok ((sanitizeTemplateNodeInStore exampleNodeStore 2 "ng-1" ["dedicated"]
            7).2.cells q) ∧
        ∀ q', q' < exampleNodeStore.next →
          (sanitizeTemplateNodeInStore exampleNodeStore 2 "ng-1" ["dedicated"] 7).2.cells q' =
            exampleNodeStore.cells q') ∧
    (sanitizeTemplateNodeInStore exampleNodeStore 2 "ng-1" ["dedicated"] 7).1 = .ok 3 ∧
    (sanitizeTemplateNodeInStore exampleNodeStore 2 "ng-1" ["dedicated"] 7).2.cells 3 =
      { readyNode1 with
        name := "template-node-for-ng-1-7"
        labels := [("group", "ng-1"), (LabelHostname, "template-node-for-ng-1-7")]
        taints := [] } ∧
    (sanitizeTemplateNodeInStore exampleNodeStore 2 "ng-1" ["dedicated"] 7).2.cells 2 =
      readyNode1 ∧
    (sanitizeTemplateNodeInStore exampleNodeStore 2 "ng-1" ["dedicated"] 7).2.cells 1 =
      nodeWithoutReady ∧
    (sanitizeTemplateNodeInStore exampleNodeStore 2 "ng-1" ["dedicated"] 7).2.cells 0 =
      healthyNode :=
  ⟨(sanitizeTemplateNode_spec readyNode1 "ng-1" ["dedicated"] 7).2 exampleNodeStore 2
      (by decide),
    by decide, by decide, by decide, by decide, by decide⟩

/-- C14 as stated fails: sanitizing the same node info twice with two draws that are both
7 yields two templates with the same node name. -/
theorem sanitizeNodeInfo_twice_counterexample :
    ∃ t1 t2,
      sanitizeNodeInfo { node := healthyNode, pods := [podA] } "ng-1" [] 7 = .ok t1 ∧
      sanitizeNodeInfo { node := healthyNode, pods := [podA] } "ng-1" [] 7 = .ok t2 ∧
      t1.node.name = "template-node-for-ng-1-7" ∧ t2.node.name = "template-node-for-ng-1-7" ∧
      ¬ (t1.node.name ≠ t2.node.name) :=
  ⟨_, _, rfl, rfl, by decide, by decide, by decide⟩

/-- C14, amended: sanitizing the same source twice, for the same group and ignored-taint
set, with the draws `n1` and `n2`, yields two templates whose node names differ exactly
when the draws differ, and whose labels other than the hostname label, taints, capacity,
allocatable resources and pods, up to the node binding, are identical. -/
theorem sanitizeNodeInfo_twice (nodeInfo : NodeInfo) (g : String)
    (ignoredTaints : List String) (n1 n2 : Nat) :
    ∃ t1 t2,
      sanitizeNodeInfo nodeInfo g ignoredTaints n1 = .ok t1 ∧
      sanitizeNodeInfo nodeInfo g ignoredTaints n2 = .ok t2 ∧
      (t1.node.name ≠ t2.node.name ↔ n1 ≠ n2) ∧
      (∀ k, k ≠ LabelHostname → t1.node.labels.get? k = t2.node.labels.get? k) ∧
      t1.node.taints = t2.node.taints ∧
      t1.node.capacity = t2.node.capacity ∧
      t1.node.allocatable = t2.node.allocatable ∧
      t1.pods.map (fun pod => { pod with nodeName := "" }) =
        t2.pods.map (fun pod => { pod with nodeName := "" }) := by
  refine ⟨_, _, sanitizeNodeInfo_eq nodeInfo g ignoredTaints n1,
    sanitizeNodeInfo_eq nodeInfo g ignoredTaints n2, ?_, ?_, rfl, rfl, rfl, ?_⟩
  · constructor
    · intro hne heq
      exact hne (by rw [heq])
    · intro hne heq
      exact hne (templateName_injective g n1 n2 heq)
  · intro k hk
    show StringMap.get? _ k = StringMap.get? _ k
    rw [sanitizedLabels_get?, sanitizedLabels_get?, if_neg hk, if_neg hk]
  · simp [List.map_map, Function.comp]

/-! ## Daemon set projection -/

theorem daemonCandidates_forall₂ (nodeName : String) :
    ∀ (daemonsets : List DaemonSet) (rng : Rng),
      List.Forall₂ (fun ds pod => pod.ns = ds.ns ∧ pod.nodeName = nodeName ∧
          ∃ n, pod = newPod ds nodeName n)
        daemonsets (daemonCandidates nodeName daemonsets rng)
  | [], _ => List.Forall₂.nil
  | _ :: rest, rng =>
    List.Forall₂.cons ⟨rfl, rfl, _, rfl⟩ (daemonCandidates_forall₂ nodeName rest rng.Int63.2)

/-- The loop succeeds with the admitted candidates, in order, when the checker fails on
no candidate. -/
theorem daemonSetLoop_ok {S : Type} (predicateChecker : PredicateChecker S) (snapshot : S)
    (nodeName : String) :
    ∀ (daemonsets : List DaemonSet) (result : List Pod) (rng : Rng),
      (∀ pod ∈ daemonCandidates nodeName daemonsets rng, ∀ e,
        predicateChecker.CheckPredicates snapshot pod nodeName = some e →
          e.errorType = PredicateErrorType.NotSchedulablePredicateError) →
      (daemonSetLoop predicateChecker snapshot nodeName daemonsets result rng).1 =
        .ok (result ++ (daemonCandidates nodeName daemonsets rng).filter (fun pod =>
          (predicateChecker.CheckPredicates snapshot pod nodeName).isNone))
  | [], result, rng, _ => by simp [daemonSetLoop, daemonCandidates]
  | ds :: rest, result, rng, h => by
    have hrest : ∀ pod ∈ daemonCandidates nodeName rest rng.Int63.2, ∀ e,
        predicateChecker.CheckPredicates snapshot pod nodeName = some e →
          e.errorType = PredicateErrorType.NotSchedulablePredicateError :=
      fun pod hpod => h pod (List.mem_cons_of_mem _ hpod)
    cases hc : predicateChecker.CheckPredicates snapshot (newPod ds nodeName rng.Int63.1)
        nodeName with
    | none =>
      have ih := daemonSetLoop_ok predicateChecker snapshot nodeName rest
        (result ++ [newPod ds nodeName rng.Int63.1]) rng.Int63.2 hrest
      simp only [daemonSetLoop, hc, daemonCandidates, ih]
      simp [List.filter_cons, hc]
    | some e =>
      have he := h _ (List.mem_cons_self _ _) e hc
      have ih := daemonSetLoop_ok predicateChecker snapshot nodeName rest result rng.Int63.2
        hrest
      simp only [daemonSetLoop, hc, daemonCandidates, he, if_true, ih]
      simp [List.filter_cons, hc]

/-- The loop fails when the checker fails on some candidate. -/
theorem daemonSetLoop_error {S : Type} (predicateChecker : PredicateChecker S) (snapshot : S)
    (nodeName : String) :
    ∀ (daemonsets : List DaemonSet) (result : List Pod) (rng : Rng),
      (∃ pod ∈ daemonCandidates nodeName daemonsets rng, ∃ e,
        predicateChecker.CheckPredicates snapshot pod nodeName = some e ∧
          e.errorType ≠ PredicateErrorType.NotSchedulablePredicateError) →
      ∃ msg, (daemonSetLoop predicateChecker snapshot nodeName daemonsets result rng).1 =
        .error msg
  | [], _, _, h => by
    obtain ⟨pod, hpod, _⟩ := h
    simp [daemonCandidates] at hpod
  | ds :: rest, result, rng, h => by
    cases hc : predicateChecker.CheckPredicates snapshot (newPod ds nodeName rng.Int63.1)
        nodeName with
    | none =>
      have hrest : ∃ pod ∈ daemonCandidates nodeName rest rng.Int63.2, ∃ e,
          predicateChecker.CheckPredicates snapshot pod nodeName = some e ∧
            e.errorType ≠ PredicateErrorType.NotSchedulablePredicateError := by
        obtain ⟨pod, hpod, e, he, hne⟩ := h
        rcases List.mem_cons.mp hpod with rfl | hpod
        · rw [hc] at he; cases he
        · exact ⟨pod, hpod, e, he, hne⟩
      obtain ⟨msg, hmsg⟩ := daemonSetLoop_error predicateChecker snapshot nodeName rest
        (result ++ [newPod ds nodeName rng.Int63.1]) rng.Int63.2 hrest
      exact ⟨msg, by simp only [daemonSetLoop, hc, hmsg]⟩
    | some e0 =>
      by_cases he0 : e0.errorType = PredicateErrorType.NotSchedulablePredicateError
      · have hrest : ∃ pod ∈ daemonCandidates nodeName rest rng.Int63.2, ∃ e,
            predicateChecker.CheckPredicates snapshot pod nodeName = some e ∧
              e.errorType ≠ PredicateErrorType.NotSchedulablePredicateError := by
          obtain ⟨pod, hpod, e, he, hne⟩ := h
          rcases List.mem_cons.mp hpod with rfl | hpod
          · rw [hc] at he
            cases he
            exact absurd he0 hne
          · exact ⟨pod, hpod, e, he, hne⟩
        obtain ⟨msg, hmsg⟩ := daemonSetLoop_error predicateChecker snapshot nodeName rest
          result rng.Int63.2 hrest
        exact ⟨msg, by simp only [daemonSetLoop, hc, he0, if_true, hmsg]⟩
      · exact ⟨"unexpected error while calling PredicateChecker; " ++ e0.message,
          by simp only [daemonSetLoop, hc, he0, if_false]⟩

/-- C20: `GetDaemonSetPodsForNode` fails with the staging error when staging the node in
the snapshot fails. When staging succeeds it synthesizes one candidate pod per daemon set,
in the order of the list, each in the namespace of its daemon set and bound to the name of
the node; it fails when the checker returns for some candidate an error that is not
NotSchedulable, and otherwise it returns, in that order, the candidates the checker
admits, leaving out those rejected as NotSchedulable. -/
theorem GetDaemonSetPodsForNode_spec {S : Type} (nodeInfo : NodeInfo)
    (daemonsets : List DaemonSet) (predicateChecker : PredicateChecker S) (rng : Rng) :
    (∀ err, predicateChecker.AddNodeWithPods nodeInfo.node nodeInfo.pods = .error err →
      (GetDaemonSetPodsForNode nodeInfo daemonsets predicateChecker rng).1 = .error err) ∧
    (∀ snapshot, predicateChecker.AddNodeWithPods nodeInfo.node nodeInfo.pods = .ok snapshot →
      List.Forall₂ (fun ds pod => pod.ns = ds.ns ∧ pod.nodeName = nodeInfo.node.name ∧
          ∃ n, pod = newPod ds nodeInfo.node.name n)
        daemonsets (daemonCandidates nodeInfo.node.name daemonsets rng) ∧
      ((∃ pod ∈ daemonCandidates nodeInfo.node.name daemonsets rng, ∃ e,
          predicateChecker.CheckPredicates snapshot pod nodeInfo.node.name = some e ∧
            e.errorType ≠ PredicateErrorType.NotSchedulablePredicateError) →
        ∃ msg, (GetDaemonSetPodsForNode nodeInfo daemonsets predicateChecker rng).1 =
          .error msg) ∧
      ((∀ pod ∈ daemonCandidates nodeInfo.node.name daemonsets rng, ∀ e,
          predicateChecker.CheckPredicates snapshot pod nodeInfo.node.name = some e →
            e.errorType = PredicateErrorType.NotSchedulablePredicateError) →
        (GetDaemonSetPodsForNode nodeInfo daemonsets predicateChecker rng).1 =
          .ok ((daemonCandidates nodeInfo.node.name daemonsets rng).filter (fun pod =>
            (predicateChecker.CheckPredicates snapshot pod nodeInfo.node.name).isNone)))) := by
  constructor
  · intro err herr
    simp [GetDaemonSetPodsForNode, herr]
  · intro snapshot hsnap
    refine ⟨daemonCandidates_forall₂ _ _ _, ?_, ?_⟩
    · intro hbad
      obtain ⟨msg, hmsg⟩ := daemonSetLoop_error predicateChecker snapshot nodeInfo.node.name
        daemonsets [] rng hbad
      exact ⟨msg, by simp only [GetDaemonSetPodsForNode, hsnap, hmsg]⟩
    · intro hgood
      have h := daemonSetLoop_ok predicateChecker snapshot nodeInfo.node.name daemonsets [] rng
        hgood
      simp only [GetDaemonSetPodsForNode, hsnap, h, List.nil_append]

/-- C20, at three daemon sets of which the second is rejected as not schedulable, and at a
list whose second daemon set makes the checker fail. -/
theorem GetDaemonSetPodsForNode_spec_witness :
    (GetDaemonSetPodsForNode baseTemplate [dsLogging, dsTooBig, dsProxy]
        examplePredicateChecker exampleRng).1 =
      .ok [newPod dsLogging "base" 1, newPod dsProxy "base" 3] ∧
    (newPod dsLogging "base" 1).ns = "kube-system" ∧
    (newPod dsLogging "base" 1).name = "logging-pod-1" ∧
    (newPod dsLogging "base" 1).nodeName = "base" ∧
    ∃ msg, (GetDaemonSetPodsForNode baseTemplate [dsLogging, dsBroken, dsProxy]
        examplePredicateChecker exampleRng).1 = .error msg :=
  ⟨((GetDaemonSetPodsForNode_spec baseTemplate [dsLogging, dsTooBig, dsProxy]
      examplePredicateChecker exampleRng).2 _ rfl).2.2 (by decide),
    by decide, by decide, by decide,
    ((GetDaemonSetPodsForNode_spec baseTemplate [dsLogging, dsBroken, dsProxy]
      examplePredicateChecker exampleRng).2 _ rfl).2.1 (by decide)⟩

/-! ## The template of a node group -/

/-- The node info `GetNodeInfoFromTemplate` returns when the provider has a template and
the projection of the daemon sets succeeds: the sanitization of the base node with the
projected daemon pods, the base pods that `effectiveNodePods` keeps, and the base pods once
more. -/
theorem GetNodeInfoFromTemplate_ok {S : Type} (deps : UtilsDeps) (nodeGroup : NodeGroup)
    (daemonsets : List DaemonSet) (predicateChecker : PredicateChecker S)
    (ignoredTaints : List String) (rng rng1 : Rng) (baseNodeInfo : NodeInfo)
    (daemonsetPods : List Pod) (hbase : nodeGroup.templateNodeInfo = .ok baseNodeInfo)
    (hds : GetDaemonSetPodsForNode baseNodeInfo daemonsets predicateChecker rng =
      (.ok daemonsetPods, rng1)) :
    GetNodeInfoFromTemplate deps nodeGroup daemonsets predicateChecker ignoredTaints rng =
      (sanitizeNodeInfo
        { node := baseNodeInfo.node
          pods := effectiveNodePods deps.IsFakeKubeProxyPod daemonsetPods baseNodeInfo.pods ++
            baseNodeInfo.pods }
        nodeGroup.id ignoredTaints rng1.Int63.1, rng1.Int63.2) := by
  simp only [GetNodeInfoFromTemplate, hbase, hds, NodeInfo.SetNode, sanitizeNodeInfo_eq]

/-- C15, the code at a failing input: for a node group whose base template declares one
pod, with no daemon sets, `GetNodeInfoFromTemplate` returns a template that holds the
declared pod twice. -/
theorem GetNodeInfoFromTemplate_duplicates_base_pods :
    (GetNodeInfoFromTemplate exampleUtilsDeps
        { id := "ng-1", templateNodeInfo := .ok baseTemplate } [] examplePredicateChecker []
        exampleRng).1 =
      .ok { node := { baseTemplate.node with
              name := "template-node-for-ng-1-1"
              labels := [(LabelHostname, "template-node-for-ng-1-1"), ("zone", "a")] }
            pods :=
              [{ ns := "kube-system", name := "static", nodeName := "template-node-for-ng-1-1" },
               { ns := "kube-system", name := "static",
                 nodeName := "template-node-for-ng-1-1" }] } := by
  decide

/-! ## Lemmas on the steps of `GetNodeInfosForGroups` -/

section Synthesis

variable (deps : UtilsDeps) (cloudProvider : CloudProvider) (podsForNodes : String → List Pod)
  (ignoredTaints : List String)

/-- The five ways `processNode` ends. -/
theorem processNode_cases (node : Node) (st : SynthState) :
    (∃ e, cloudProvider.NodeGroupForNode node = .error e ∧
      processNode deps cloudProvider podsForNodes ignoredTaints node st =
        ((false, "", some (ToAutoscalerError AutoscalerErrorType.CloudProviderError e)), st)) ∨
    (cloudProvider.NodeGroupForNode node = .ok none ∧
      processNode deps cloudProvider podsForNodes ignoredTaints node st =
        ((false, "", none), st)) ∨
    (∃ g, cloudProvider.NodeGroupForNode node = .ok (some g) ∧ st.result g.id ≠ none ∧
      processNode deps cloudProvider podsForNodes ignoredTaints node st =
        ((false, "", none), st)) ∨
    (∃ g e, cloudProvider.NodeGroupForNode node = .ok (some g) ∧ st.result g.id = none ∧
      deps.BuildNodeInfoForNode node podsForNodes = .error e ∧
      processNode deps cloudProvider podsForNodes ignoredTaints node st =
        ((false, "", some e), st)) ∨
    (∃ g nodeInfo t, cloudProvider.NodeGroupForNode node = .ok (some g) ∧
      st.result g.id = none ∧ deps.BuildNodeInfoForNode node podsForNodes = .ok nodeInfo ∧
      sanitizeNodeInfo nodeInfo g.id ignoredTaints st.rng.Int63.1 = .ok t ∧
      processNode deps cloudProvider podsForNodes ignoredTaints node st =
        ((true, g.id, none),
          { st with result := st.result.set g.id t, rng := st.rng.Int63.2 })) := by
  cases hg : cloudProvider.NodeGroupForNode node with
  | error e => exact Or.inl ⟨e, rfl, by simp [processNode, hg]⟩
  | ok og =>
    cases og with
    | none => exact Or.inr (Or.inl ⟨rfl, by simp [processNode, hg]⟩)
    | some g =>
      cases hr : st.result g.id with
      | some t0 =>
        exact Or.inr (Or.inr (Or.inl ⟨g, rfl, by rw [hr]; simp, by simp [processNode, hg, hr]⟩))
      | none =>
        cases hb : deps.BuildNodeInfoForNode node podsForNodes with
        | error e =>
          exact Or.inr (Or.inr (Or.inr (Or.inl ⟨g, e, rfl, hr, rfl,
            by simp [processNode, hg, hr, hb]⟩)))
        | ok nodeInfo =>
          exact Or.inr (Or.inr (Or.inr (Or.inr ⟨g, nodeInfo, _, rfl, hr, rfl,
            sanitizeNodeInfo_eq nodeInfo g.id ignoredTaints st.rng.Int63.1,
            by simp [processNode, hg, hr, hb, sanitizeNodeInfo_eq]⟩)))

theorem readyNodesLoop_append (process : Node → SynthState → ProcessResult × SynthState) :
    ∀ (pre rest : List Node) (st : SynthState),
      readyNodesLoop process (pre ++ rest) st =
        match readyNodesLoop process pre st with
        | (st1, some e) => (st1, some e)
        | (st1, none) => readyNodesLoop process rest st1
  | [], rest, st => by simp [readyNodesLoop]
  | node :: pre, rest, st => by
    simp only [List.cons_append, readyNodesLoop]
    by_cases hready : IsNodeReadyAndSchedulable node = true
    · simp only [hready, Bool.not_true, Bool.false_eq_true, if_false]
      rcases hp : process node st with ⟨⟨added, id, _ | e⟩, st1⟩
      · exact readyNodesLoop_append process pre rest _
      · rfl
    · simp only [Bool.not_eq_true] at hready
      simp only [hready, Bool.not_false, if_true]
      exact readyNodesLoop_append process pre rest st

theorem unreadyNodesLoop_append (process : Node → SynthState → ProcessResult × SynthState) :
    ∀ (pre rest : List Node) (st : SynthState),
      unreadyNodesLoop process cloudProvider (pre ++ rest) st =
        match unreadyNodesLoop process cloudProvider pre st with
        | (st1, some e) => (st1, some e)
        | (st1, none) => unreadyNodesLoop process cloudProvider rest st1
  | [], rest, st => by simp [unreadyNodesLoop]
  | node :: pre, rest, st => by
    simp only [List.cons_append, unreadyNodesLoop]
    by_cases hready : IsNodeReadyAndSchedulable node = true
    · simp only [hready, Bool.not_true, Bool.false_eq_true, if_false]
      exact unreadyNodesLoop_append process pre rest st
    · simp only [Bool.not_eq_true] at hready
      simp only [hready, Bool.not_false, if_true]
      rcases hp : process node st with ⟨⟨added, id, _ | e⟩, st1⟩
      · cases hg : cloudProvider.NodeGroupForNode node with
        | error err => rfl
        | ok og => exact unreadyNodesLoop_append process pre rest _
      · rfl

theorem processNodeFor_cache (force : Bool) (node : Node) (st : SynthState) :
    (processNodeFor deps cloudProvider podsForNodes ignoredTaints force node st).2.seenGroups =
        st.seenGroups ∧
    (processNodeFor deps cloudProvider podsForNodes ignoredTaints force node st).2.nodeInfoCache =
        st.nodeInfoCache := by
  cases force
  · simp only [processNodeFor, Bool.false_eq_true, if_false]
    rcases processNode_cases deps cloudProvider podsForNodes ignoredTaints node st with
      ⟨e, _, h⟩ | ⟨_, h⟩ | ⟨g, _, _, h⟩ | ⟨g, e, _, _, _, h⟩ | ⟨g, ni, t, _, _, _, _, h⟩ <;>
      rw [h] <;> exact ⟨rfl, rfl⟩
  · exact ⟨rfl, rfl⟩

/-- An entry of the result is never overwritten by `processNode`. -/
theorem processNodeFor_frame (force : Bool) (node : Node) (st : SynthState) (id : String)
    (t : NodeInfo) (h : st.result id = some t) :
    (processNodeFor deps cloudProvider podsForNodes ignoredTaints force node st).2.result id =
      some t := by
  cases force
  · simp only [processNodeFor, Bool.false_eq_true, if_false]
    rcases processNode_cases deps cloudProvider podsForNodes ignoredTaints node st with
      ⟨e, _, hp⟩ | ⟨_, hp⟩ | ⟨g, _, _, hp⟩ | ⟨g, e, _, _, _, hp⟩ |
      ⟨g, ni, t', _, hnone, _, _, hp⟩
    · rw [hp]; exact h
    · rw [hp]; exact h
    · rw [hp]; exact h
    · rw [hp]; exact h
    · rw [hp]
      have hne : id ≠ g.id := by
        intro heq
        rw [heq, hnone] at h
        cases h
      simp [NodeInfoMap.set, hne, h]
  · exact h

theorem cacheAdded_fields (added : Bool) (id : String) (st : SynthState) :
    (cacheAdded added id st).result = st.result ∧
    (cacheAdded added id st).seenGroups = st.seenGroups ∧
    (cacheAdded added id st).rng = st.rng := by
  unfold cacheAdded
  split
  · split <;> exact ⟨rfl, rfl, rfl⟩
  · exact ⟨rfl, rfl, rfl⟩

theorem deepCopyNodeInfo_eq (nodeInfo : NodeInfo) : deepCopyNodeInfo nodeInfo = .ok nodeInfo := rfl

theorem cachedCopy_eq (nodeInfoCache : Option NodeInfoMap) (id : String) :
    cachedCopy nodeInfoCache id = nodeInfoCache.bind (fun cache => cache id) := by
  unfold cachedCopy
  cases nodeInfoCache with
  | none => rfl
  | some cache =>
    simp only [Option.bind]
    cases cache id <;> simp [deepCopyNodeInfo_eq]

/-- The first loop keeps what each of its steps keeps. -/
theorem readyNodesLoop_invariant (process : Node → SynthState → ProcessResult × SynthState)
    (I : SynthState → Prop)
    (hprocess : ∀ node st, I st → I (process node st).2)
    (hcache : ∀ node st, I (process node st).2 →
      I (cacheAdded (process node st).1.1 (process node st).1.2.1 (process node st).2)) :
    ∀ (nodes : List Node) (st : SynthState), I st → I (readyNodesLoop process nodes st).1
  | [], _, h => h
  | node :: rest, st, h => by
    simp only [readyNodesLoop]
    by_cases hready : IsNodeReadyAndSchedulable node = true
    · simp only [hready, Bool.not_true, Bool.false_eq_true, if_false]
      have h1 := hprocess node st h
      have h2 := hcache node st h1
      rcases hp : process node st with ⟨⟨added, id, _ | e⟩, st1⟩
      · rw [hp] at h2
        exact readyNodesLoop_invariant process I hprocess hcache rest _ h2
      · rw [hp] at h1
        exact h1
    · simp only [Bool.not_eq_true] at hready
      simp only [hready, Bool.not_false, if_true]
      exact readyNodesLoop_invariant process I hprocess hcache rest st h

/-- The last loop keeps what each of its steps keeps. -/
theorem unreadyNodesLoop_invariant (process : Node → SynthState → ProcessResult × SynthState)
    (I : SynthState → Prop) (hprocess : ∀ node st, I st → I (process node st).2) :
    ∀ (nodes : List Node) (st : SynthState), I st →
      I (unreadyNodesLoop process cloudProvider nodes st).1
  | [], _, h => h
  | node :: rest, st, h => by
    simp only [unreadyNodesLoop]
    by_cases hready : IsNodeReadyAndSchedulable node = true
    · simp only [hready, Bool.not_true, Bool.false_eq_true, if_false]
      exact unreadyNodesLoop_invariant process I hprocess rest st h
    · simp only [Bool.not_eq_true] at hready
      simp only [hready, Bool.not_false, if_true]
      have h1 := hprocess node st h
      rcases hp : process node st with ⟨⟨added, id, _ | e⟩, st1⟩
      · rw [hp] at h1
        cases hg : cloudProvider.NodeGroupForNode node with
        | error err => exact h1
        | ok og => exact unreadyNodesLoop_invariant process I hprocess rest _ h1
      · rw [hp] at h1
        exact h1

/-- The second loop keeps what each of its steps keeps. -/
theorem nodeGroupsLoop_invariant {S : Type} (daemonsets : List DaemonSet)
    (predicateChecker : PredicateChecker S) (I : SynthState → Prop)
    (hstep : ∀ st g, I st →
      I (nodeGroupStep deps daemonsets predicateChecker ignoredTaints st g)) :
    ∀ (nodeGroups : List NodeGroup) (st : SynthState), I st →
      I (nodeGroupsLoop deps daemonsets predicateChecker ignoredTaints nodeGroups st)
  | [], _, h => h
  | g :: rest, st, h => by
    simp only [nodeGroupsLoop, List.foldl_cons]
    exact nodeGroupsLoop_invariant daemonsets predicateChecker I hstep rest _ (hstep st g h)

/-- The four ways one iteration of the second loop ends. -/
theorem nodeGroupStep_cases {S : Type} (daemonsets : List DaemonSet)
    (predicateChecker : PredicateChecker S) (st : SynthState) (g : NodeGroup) :
    (st.result g.id ≠ none ∧
      nodeGroupStep deps daemonsets predicateChecker ignoredTaints st g =
        { st with seenGroups := g.id :: st.seenGroups }) ∨
    (∃ t, st.result g.id = none ∧ st.nodeInfoCache.bind (fun cache => cache g.id) = some t ∧
      nodeGroupStep deps daemonsets predicateChecker ignoredTaints st g =
        { st with seenGroups := g.id :: st.seenGroups, result := st.result.set g.id t }) ∨
    (∃ e rng, st.result g.id = none ∧ st.nodeInfoCache.bind (fun cache => cache g.id) = none ∧
      GetNodeInfoFromTemplate deps g daemonsets predicateChecker ignoredTaints st.rng =
        (.error e, rng) ∧
      nodeGroupStep deps daemonsets predicateChecker ignoredTaints st g =
        { st with seenGroups := g.id :: st.seenGroups, rng := rng }) ∨
    (∃ t rng, st.result g.id = none ∧ st.nodeInfoCache.bind (fun cache => cache g.id) = none ∧
      GetNodeInfoFromTemplate deps g daemonsets predicateChecker ignoredTaints st.rng =
        (.ok t, rng) ∧
      nodeGroupStep deps daemonsets predicateChecker ignoredTaints st g =
        { st with seenGroups := g.id :: st.seenGroups, result := st.result.set g.id t,
                  rng := rng }) := by
  cases hr : st.result g.id with
  | some t0 =>
    exact Or.inl ⟨by simp, by simp [nodeGroupStep, hr]⟩
  | none =>
    cases hc : st.nodeInfoCache.bind (fun cache => cache g.id) with
    | some t =>
      exact Or.inr (Or.inl ⟨t, rfl, rfl, by simp [nodeGroupStep, hr, cachedCopy_eq, hc]⟩)
    | none =>
      rcases hb : GetNodeInfoFromTemplate deps g daemonsets predicateChecker ignoredTaints
        st.rng with ⟨e | t, rng⟩
      · exact Or.inr (Or.inr (Or.inl ⟨e, rng, rfl, rfl, rfl,
          by simp [nodeGroupStep, hr, cachedCopy_eq, hc, hb]⟩))
      · exact Or.inr (Or.inr (Or.inr ⟨t, rng, rfl, rfl, rfl,
          by simp [nodeGroupStep, hr, cachedCopy_eq, hc, hb]⟩))

end Synthesis

/-! ## Lemmas on `GetNodeInfosForGroups` as a whole -/

section Whole

variable {S : Type} (deps : UtilsDeps) (nodes : List Node) (nodeInfoCache : Option NodeInfoMap)
  (cloudProvider : CloudProvider) (listers : ListerRegistry) (daemonsets : List DaemonSet)
  (predicateChecker : PredicateChecker S) (ignoredTaints : List String)
  (forceTemplateFromCloudProvider : Bool) (rng : Rng)

/-- The four ways `GetNodeInfosForGroups` ends. -/
theorem GetNodeInfosForGroups_cases :
    (∃ e, getPodsForNodes listers = .error e ∧
      GetNodeInfosForGroups deps nodes nodeInfoCache cloudProvider listers daemonsets
        predicateChecker ignoredTaints forceTemplateFromCloudProvider rng =
        { result := NodeInfoMap.empty, err := some e, nodeInfoCache := nodeInfoCache,
          rng := rng }) ∨
    (∃ podsForNodes st1 e, getPodsForNodes listers = .ok podsForNodes ∧
      readyNodesLoop (processNodeFor deps cloudProvider podsForNodes ignoredTaints
        forceTemplateFromCloudProvider) nodes (initialState nodeInfoCache rng) = (st1, some e) ∧
      GetNodeInfosForGroups deps nodes nodeInfoCache cloudProvider listers daemonsets
        predicateChecker ignoredTaints forceTemplateFromCloudProvider rng =
        { result := NodeInfoMap.empty, err := some e, nodeInfoCache := st1.nodeInfoCache,
          rng := st1.rng }) ∨
    (∃ podsForNodes st1 st4 e, getPodsForNodes listers = .ok podsForNodes ∧
      readyNodesLoop (processNodeFor deps cloudProvider podsForNodes ignoredTaints
        forceTemplateFromCloudProvider) nodes (initialState nodeInfoCache rng) = (st1, none) ∧
      unreadyNodesLoop (processNodeFor deps cloudProvider podsForNodes ignoredTaints
        forceTemplateFromCloudProvider) cloudProvider nodes
        (pruneCache (nodeGroupsLoop deps daemonsets predicateChecker ignoredTaints
          cloudProvider.NodeGroups st1)) = (st4, some e) ∧
      GetNodeInfosForGroups deps nodes nodeInfoCache cloudProvider listers daemonsets
        predicateChecker ignoredTaints forceTemplateFromCloudProvider rng =
        { result := NodeInfoMap.empty, err := some e, nodeInfoCache := st4.nodeInfoCache,
          rng := st4.rng }) ∨
    (∃ podsForNodes st1 st4, getPodsForNodes listers = .ok podsForNodes ∧
      readyNodesLoop (processNodeFor deps cloudProvider podsForNodes ignoredTaints
        forceTemplateFromCloudProvider) nodes (initialState nodeInfoCache rng) = (st1, none) ∧
      unreadyNodesLoop (processNodeFor deps cloudProvider podsForNodes ignoredTaints
        forceTemplateFromCloudProvider) cloudProvider nodes
        (pruneCache (nodeGroupsLoop deps daemonsets predicateChecker ignoredTaints
          cloudProvider.NodeGroups st1)) = (st4, none) ∧
      GetNodeInfosForGroups deps nodes nodeInfoCache cloudProvider listers daemonsets
        predicateChecker ignoredTaints forceTemplateFromCloudProvider rng =
        { result := st4.result, err := none, nodeInfoCache := st4.nodeInfoCache,
          rng := st4.rng }) := by
  cases hl : getPodsForNodes listers with
  | error e => exact Or.inl ⟨e, rfl, by simp [GetNodeInfosForGroups, hl]⟩
  | ok podsForNodes =>
    rcases h1 : readyNodesLoop (processNodeFor deps cloudProvider podsForNodes ignoredTaints
      forceTemplateFromCloudProvider) nodes (initialState nodeInfoCache rng) with ⟨st1, _ | e⟩
    · rcases h4 : unreadyNodesLoop (processNodeFor deps cloudProvider podsForNodes ignoredTaints
        forceTemplateFromCloudProvider) cloudProvider nodes
        (pruneCache (nodeGroupsLoop deps daemonsets predicateChecker ignoredTaints
          cloudProvider.NodeGroups st1)) with ⟨st4, _ | e⟩
      · refine Or.inr (Or.inr (Or.inr ⟨podsForNodes, st1, st4, rfl, h1, h4, ?_⟩))
        unfold initialState at h1
        simp only [GetNodeInfosForGroups, hl, h1, h4]
      · refine Or.inr (Or.inr (Or.inl ⟨podsForNodes, st1, st4, e, rfl, h1, h4, ?_⟩))
        unfold initialState at h1
        simp only [GetNodeInfosForGroups, hl, h1, h4]
    · refine Or.inr (Or.inl ⟨podsForNodes, st1, e, rfl, h1, ?_⟩)
      unfold initialState at h1
      simp only [GetNodeInfosForGroups, hl, h1]

/-! ### The cache keys -/

theorem nodeGroupStep_seenGroups (st : SynthState) (g : NodeGroup) :
    (nodeGroupStep deps daemonsets predicateChecker ignoredTaints st g).seenGroups =
      g.id :: st.seenGroups := by
  rcases nodeGroupStep_cases deps ignoredTaints daemonsets predicateChecker st g with
    ⟨_, h⟩ | ⟨t, _, _, h⟩ | ⟨e, r, _, _, _, h⟩ | ⟨t, r, _, _, _, h⟩ <;> rw [h]

theorem nodeGroupStep_cache (st : SynthState) (g : NodeGroup) :
    (nodeGroupStep deps daemonsets predicateChecker ignoredTaints st g).nodeInfoCache =
      st.nodeInfoCache := by
  rcases nodeGroupStep_cases deps ignoredTaints daemonsets predicateChecker st g with
    ⟨_, h⟩ | ⟨t, _, _, h⟩ | ⟨e, r, _, _, _, h⟩ | ⟨t, r, _, _, _, h⟩ <;> rw [h]

theorem nodeGroupsLoop_seenGroups :
    ∀ (nodeGroups : List NodeGroup) (st : SynthState),
      (nodeGroupsLoop deps daemonsets predicateChecker ignoredTaints nodeGroups st).seenGroups =
        (nodeGroups.map (fun g => g.id)).reverse ++ st.seenGroups
  | [], _ => rfl
  | g :: rest, st => by
    simp only [nodeGroupsLoop, List.foldl_cons]
    have ih := nodeGroupsLoop_seenGroups rest
      (nodeGroupStep deps daemonsets predicateChecker ignoredTaints st g)
    simp only [nodeGroupsLoop] at ih
    rw [ih, nodeGroupStep_seenGroups]
    simp

theorem nodeGroupsLoop_cache (nodeGroups : List NodeGroup) (st : SynthState) :
    (nodeGroupsLoop deps daemonsets predicateChecker ignoredTaints nodeGroups st).nodeInfoCache =
      st.nodeInfoCache :=
  nodeGroupsLoop_invariant deps ignoredTaints daemonsets predicateChecker
    (fun st' => st'.nodeInfoCache = st.nodeInfoCache)
    (fun st' g h => by
      show (nodeGroupStep deps daemonsets predicateChecker ignoredTaints st' g).nodeInfoCache = _
      rw [nodeGroupStep_cache]; exact h)
    nodeGroups st rfl

theorem readyNodesLoop_seenGroups (podsForNodes : String → List Pod) (st : SynthState) :
    (readyNodesLoop (processNodeFor deps cloudProvider podsForNodes ignoredTaints
      forceTemplateFromCloudProvider) nodes st).1.seenGroups = st.seenGroups :=
  readyNodesLoop_invariant _ (fun st' => st'.seenGroups = st.seenGroups)
    (fun node st' h => by
      show (processNodeFor deps cloudProvider podsForNodes ignoredTaints
        forceTemplateFromCloudProvider node st').2.seenGroups = _
      rw [(processNodeFor_cache deps cloudProvider podsForNodes ignoredTaints _ node st').1]
      exact h)
    (fun node st' h => by
      show (cacheAdded _ _ _).seenGroups = _
      rw [(cacheAdded_fields _ _ _).2.1]
      exact h)
    nodes st rfl

theorem unreadyNodesLoop_cache (podsForNodes : String → List Pod) (st : SynthState) :
    (unreadyNodesLoop (processNodeFor deps cloudProvider podsForNodes ignoredTaints
      forceTemplateFromCloudProvider) cloudProvider nodes st).1.nodeInfoCache =
        st.nodeInfoCache :=
  unreadyNodesLoop_invariant cloudProvider _ (fun st' => st'.nodeInfoCache = st.nodeInfoCache)
    (fun node st' h => by
      show (processNodeFor deps cloudProvider podsForNodes ignoredTaints
        forceTemplateFromCloudProvider node st').2.nodeInfoCache = _
      rw [(processNodeFor_cache deps cloudProvider podsForNodes ignoredTaints _ node st').2]
      exact h)
    nodes st rfl

/-- After the pruning and the last loop, every key of the cache is the id of an enumerated
node group, whatever the last loop returns. -/
theorem cache_keys_after_pruning (podsForNodes : String → List Pod) (st1 : SynthState)
    (hseen : st1.seenGroups = []) (cache : NodeInfoMap)
    (hcache : (unreadyNodesLoop (processNodeFor deps cloudProvider podsForNodes ignoredTaints
      forceTemplateFromCloudProvider) cloudProvider nodes
      (pruneCache (nodeGroupsLoop deps daemonsets predicateChecker ignoredTaints
        cloudProvider.NodeGroups st1))).1.nodeInfoCache = some cache)
    (id : String) (hid : cache id ≠ none) : ∃ g ∈ cloudProvider.NodeGroups, g.id = id := by
  rw [unreadyNodesLoop_cache] at hcache
  simp only [pruneCache, Option.map_eq_some'] at hcache
  obtain ⟨c0, _, hc⟩ := hcache
  have hval := congrFun hc id
  by_cases hmem : id ∈ (nodeGroupsLoop deps daemonsets predicateChecker ignoredTaints
      cloudProvider.NodeGroups st1).seenGroups
  · rw [nodeGroupsLoop_seenGroups, hseen] at hmem
    simpa using hmem
  · simp only [hmem, if_false] at hval
    exact absurd hval.symm hid

/-! ### The node binding of the pods -/

theorem sanitizeNodeInfo_bound (nodeInfo : NodeInfo) (g : String) (n : Nat) (t : NodeInfo)
    (h : sanitizeNodeInfo nodeInfo g ignoredTaints n = .ok t) : PodsBound t := by
  rw [sanitizeNodeInfo_eq] at h
  cases h
  intro pod hpod
  simp only [List.mem_map] at hpod
  obtain ⟨p, _, rfl⟩ := hpod
  rfl

theorem GetNodeInfoFromTemplate_bound (g : NodeGroup) (r : Rng) (t : NodeInfo)
    (h : (GetNodeInfoFromTemplate deps g daemonsets predicateChecker ignoredTaints r).1 =
      .ok t) : PodsBound t := by
  cases hbase : g.templateNodeInfo with
  | error e => simp [GetNodeInfoFromTemplate, hbase] at h
  | ok baseNodeInfo =>
    rcases hds : GetDaemonSetPodsForNode baseNodeInfo daemonsets predicateChecker r with
      ⟨e | daemonsetPods, r1⟩
    · simp [GetNodeInfoFromTemplate, hbase, hds] at h
    · rw [GetNodeInfoFromTemplate_ok deps g daemonsets predicateChecker ignoredTaints r r1
        baseNodeInfo daemonsetPods hbase hds] at h
      exact sanitizeNodeInfo_bound ignoredTaints _ _ _ t h

theorem set_bound (m : NodeInfoMap) (id : String) (t : NodeInfo)
    (hm : ∀ k u, m k = some u → PodsBound u) (ht : PodsBound t) :
    ∀ k u, m.set id t k = some u → PodsBound u := by
  intro k u hk
  unfold NodeInfoMap.set at hk
  by_cases hki : k = id
  · simp only [hki, if_true, Option.some.injEq] at hk
    rw [← hk]; exact ht
  · simp only [hki, if_false] at hk
    exact hm k u hk

theorem processNodeFor_bound (podsForNodes : String → List Pod) (node : Node)
    (st : SynthState) (h : StateBound st) :
    StateBound (processNodeFor deps cloudProvider podsForNodes ignoredTaints
      forceTemplateFromCloudProvider node st).2 := by
  cases forceTemplateFromCloudProvider
  · simp only [processNodeFor, Bool.false_eq_true, if_false]
    rcases processNode_cases deps cloudProvider podsForNodes ignoredTaints node st with
      ⟨e, _, hp⟩ | ⟨_, hp⟩ | ⟨g, _, _, hp⟩ | ⟨g, e, _, _, _, hp⟩ |
      ⟨g, ni, t, _, _, _, hsan, hp⟩
    · rw [hp]; exact h
    · rw [hp]; exact h
    · rw [hp]; exact h
    · rw [hp]; exact h
    · rw [hp]
      exact ⟨set_bound _ _ _ h.1 (sanitizeNodeInfo_bound ignoredTaints _ _ _ t hsan), h.2⟩
  · exact h

theorem cacheAdded_bound (added : Bool) (id : String) (st : SynthState) (h : StateBound st) :
    StateBound (cacheAdded added id st) := by
  unfold cacheAdded
  split
  · rename_i cache nodeInfo hcache hres
    simp only [deepCopyNodeInfo_eq]
    refine ⟨h.1, ?_⟩
    intro c hc
    simp only [Option.some.injEq] at hc
    rw [← hc]
    exact set_bound _ _ _ (h.2 cache hcache) (h.1 id nodeInfo hres)
  · exact h

theorem nodeGroupStep_bound (st : SynthState) (g : NodeGroup) (h : StateBound st) :
    StateBound (nodeGroupStep deps daemonsets predicateChecker ignoredTaints st g) := by
  rcases nodeGroupStep_cases deps ignoredTaints daemonsets predicateChecker st g with
    ⟨_, hs⟩ | ⟨t, _, hc, hs⟩ | ⟨e, r, _, _, _, hs⟩ | ⟨t, r, _, _, hb, hs⟩
  · rw [hs]; exact h
  · rw [hs]
    refine ⟨set_bound _ _ _ h.1 ?_, h.2⟩
    cases hcache : st.nodeInfoCache with
    | none => rw [hcache] at hc; cases hc
    | some cache =>
      rw [hcache] at hc
      exact h.2 cache hcache g.id t hc
  · rw [hs]; exact h
  · rw [hs]
    refine ⟨set_bound _ _ _ h.1 ?_, h.2⟩
    exact GetNodeInfoFromTemplate_bound deps daemonsets predicateChecker ignoredTaints g st.rng t
      (by rw [hb])

theorem pruneCache_bound (st : SynthState) (h : StateBound st) : StateBound (pruneCache st) := by
  refine ⟨h.1, ?_⟩
  intro c hc id t hid
  simp only [pruneCache, Option.map_eq_some'] at hc
  obtain ⟨c0, hc0, rfl⟩ := hc
  by_cases hmem : id ∈ st.seenGroups
  · simp only [hmem, if_true] at hid
    exact h.2 c0 hc0 id t hid
  · simp only [hmem, if_false] at hid
    cases hid

end Whole

/-! ## Node templates: the claims on the cache, the pod binding and fatal errors -/

/-- C11 as stated fails: a call whose first loop fails on the lookup of the node group of
a ready node returns before the pruning, and the cache still holds the key "stale", which
is not the id of an enumerated node group. -/
theorem GetNodeInfosForGroups_cache_keys_counterexample :
    (GetNodeInfosForGroups exampleUtilsDeps [readyNodeBroken] (cacheWith "stale" staleTemplate)
      exampleCloudProvider exampleListers [] examplePredicateChecker [] false exampleRng).err =
        some (ToAutoscalerError AutoscalerErrorType.CloudProviderError "lookup failed") ∧
    (GetNodeInfosForGroups exampleUtilsDeps [readyNodeBroken] (cacheWith "stale" staleTemplate)
      exampleCloudProvider exampleListers [] examplePredicateChecker [] false
      exampleRng).nodeInfoCache.bind (fun cache => cache "stale") = some staleTemplate ∧
    ¬ ∃ g ∈ exampleCloudProvider.NodeGroups, g.id = "stale" := by
  refine ⟨by decide, by decide, ?_⟩
  rintro ⟨g, hg, hid⟩
  simp only [exampleCloudProvider, List.mem_cons, List.mem_singleton, List.not_mem_nil,
    or_false] at hg
  rcases hg with rfl | rfl <;> exact absurd hid (by decide)

/-- C11, amended: after a call of `GetNodeInfosForGroups` that gets to the pruning of the
cache, which is every call but those that return from the listing of the pods or from the
loop over the ready nodes, every key of the cache is the id of a node group that
`cloudProvider.NodeGroups()` returned; the call may return its mapping or an error of the
loop over the nodes that are not ready. -/
theorem GetNodeInfosForGroups_cache_keys {S : Type} (deps : UtilsDeps) (nodes : List Node)
    (nodeInfoCache : Option NodeInfoMap) (cloudProvider : CloudProvider)
    (listers : ListerRegistry) (daemonsets : List DaemonSet)
    (predicateChecker : PredicateChecker S) (ignoredTaints : List String)
    (forceTemplateFromCloudProvider : Bool) (rng : Rng)
    (hreach : ReachesPruning deps nodes nodeInfoCache cloudProvider listers ignoredTaints
      forceTemplateFromCloudProvider rng) :
    ∀ cache, (GetNodeInfosForGroups deps nodes nodeInfoCache cloudProvider listers daemonsets
        predicateChecker ignoredTaints forceTemplateFromCloudProvider rng).nodeInfoCache =
          some cache →
      ∀ id, cache id ≠ none → ∃ g ∈ cloudProvider.NodeGroups, g.id = id := by
  intro cache hcache id hid
  obtain ⟨podsForNodes, hl, hready⟩ := hreach
  have hkeys : ∀ st1 st4 e, readyNodesLoop (processNodeFor deps cloudProvider podsForNodes
        ignoredTaints forceTemplateFromCloudProvider) nodes (initialState nodeInfoCache rng) =
        (st1, none) →
      unreadyNodesLoop (processNodeFor deps cloudProvider podsForNodes ignoredTaints
        forceTemplateFromCloudProvider) cloudProvider nodes
        (pruneCache (nodeGroupsLoop deps daemonsets predicateChecker ignoredTaints
          cloudProvider.NodeGroups st1)) = (st4, e) →
      st4.nodeInfoCache = some cache → ∃ g ∈ cloudProvider.NodeGroups, g.id = id := by
    intro st1 st4 e h1 h4 hc
    have hseen : st1.seenGroups = [] := by
      have := readyNodesLoop_seenGroups deps nodes cloudProvider ignoredTaints
        forceTemplateFromCloudProvider podsForNodes (initialState nodeInfoCache rng)
      rw [h1] at this
      exact this
    apply cache_keys_after_pruning deps nodes cloudProvider daemonsets predicateChecker
      ignoredTaints forceTemplateFromCloudProvider podsForNodes st1 hseen cache _ id hid
    rw [h4]
    exact hc
  rcases GetNodeInfosForGroups_cases deps nodes nodeInfoCache cloudProvider listers daemonsets
      predicateChecker ignoredTaints forceTemplateFromCloudProvider rng with
    ⟨e, hl', _⟩ | ⟨pfn, st1, e, hl', h1, _⟩ | ⟨pfn, st1, st4, e, hl', h1, h4, h⟩ |
    ⟨pfn, st1, st4, hl', h1, h4, h⟩
  · rw [hl] at hl'
    cases hl'
  · rw [hl] at hl'
    cases hl'
    rw [h1] at hready
    cases hready
  · rw [hl] at hl'
    cases hl'
    rw [h] at hcache
    exact hkeys st1 st4 _ h1 h4 hcache
  · rw [hl] at hl'
    cases hl'
    rw [h] at hcache
    exact hkeys st1 st4 _ h1 h4 hcache

/-- C11 amended, at a call with a ready node of "ng-1", a node that is not ready and whose
lookup fails, and a cache holding the key "stale": the call gets to the pruning and returns
the error of the lookup from its last loop; the stale key is gone and the key "ng-1" is
there. -/
theorem GetNodeInfosForGroups_cache_keys_witness :
    (∀ cache, (GetNodeInfosForGroups exampleUtilsDeps [readyNode1, unreadyNodeBroken]
        (cacheWith "stale" staleTemplate) exampleCloudProvider exampleListers []
        examplePredicateChecker [] false exampleRng).nodeInfoCache = some cache →
      ∀ id, cache id ≠ none → ∃ g ∈ exampleCloudProvider.NodeGroups, g.id = id) ∧
    (GetNodeInfosForGroups exampleUtilsDeps [readyNode1, unreadyNodeBroken]
      (cacheWith "stale" staleTemplate) exampleCloudProvider exampleListers []
      examplePredicateChecker [] false exampleRng).err =
        some (ToAutoscalerError AutoscalerErrorType.CloudProviderError "lookup failed") ∧
    (GetNodeInfosForGroups exampleUtilsDeps [readyNode1, unreadyNodeBroken]
      (cacheWith "stale" staleTemplate) exampleCloudProvider exampleListers []
      examplePredicateChecker [] false
      exampleRng).nodeInfoCache.bind (fun cache => cache "stale") = none ∧
    ((GetNodeInfosForGroups exampleUtilsDeps [readyNode1, unreadyNodeBroken]
      (cacheWith "stale" staleTemplate) exampleCloudProvider exampleListers []
      examplePredicateChecker [] false
      exampleRng).nodeInfoCache.bind (fun cache => cache "ng-1")).isSome = true :=
  ⟨GetNodeInfosForGroups_cache_keys exampleUtilsDeps [readyNode1, unreadyNodeBroken]
      (cacheWith "stale" staleTemplate) exampleCloudProvider exampleListers []
      examplePredicateChecker [] false exampleRng ⟨_, rfl, by decide⟩,
    by decide, by decide, by decide⟩

/-- A cache entry is returned as it is. An entry for "ng-1" whose pod is bound to another
node than the entry's is no node template, and no call of `GetNodeInfosForGroups` writes
such an entry; handed in for want of a node of that group, it is the template returned for
"ng-1". -/
theorem GetNodeInfosForGroups_cache_entry_as_is :
    (GetNodeInfosForGroups exampleUtilsDeps [] (cacheWith "ng-1" staleTemplate)
      exampleCloudProvider exampleListers [] examplePredicateChecker [] false
      exampleRng).result "ng-1" = some staleTemplate ∧
    ¬ PodsBound staleTemplate := by
  refine ⟨by decide, ?_⟩
  intro h
  exact absurd (h _ (List.mem_cons_self _ _)) (by decide)

/-- C12: the cache handed to `GetNodeInfosForGroups` is a cache of node templates, each with
its pods bound to its node: the nil cache, the empty cache, and every cache that calls of
the function have left, since every entry of the cache after the call is such a template
too. Every template of the returned mapping then has every pod bound to the name of the
template's node, whether it was built from a node, copied from the cache or synthesized
from the provider template. -/
theorem GetNodeInfosForGroups_pods_bound {S : Type} (deps : UtilsDeps) (nodes : List Node)
    (nodeInfoCache : Option NodeInfoMap) (cloudProvider : CloudProvider)
    (listers : ListerRegistry) (daemonsets : List DaemonSet)
    (predicateChecker : PredicateChecker S) (ignoredTaints : List String)
    (forceTemplateFromCloudProvider : Bool) (rng : Rng)
    (hcache : ∀ cache, nodeInfoCache = some cache → ∀ id t, cache id = some t → PodsBound t) :
    (∀ id t, (GetNodeInfosForGroups deps nodes nodeInfoCache cloudProvider listers daemonsets
        predicateChecker ignoredTaints forceTemplateFromCloudProvider rng).result id = some t →
      ∀ pod ∈ t.pods, pod.nodeName = t.node.name) ∧
    (∀ cache, (GetNodeInfosForGroups deps nodes nodeInfoCache cloudProvider listers daemonsets
        predicateChecker ignoredTaints forceTemplateFromCloudProvider rng).nodeInfoCache =
          some cache →
      ∀ id t, cache id = some t → ∀ pod ∈ t.pods, pod.nodeName = t.node.name) := by
  have h0 : StateBound (initialState nodeInfoCache rng) :=
    ⟨fun id t h => by simp [initialState, NodeInfoMap.empty] at h, hcache⟩
  have hready : ∀ pfn, StateBound (readyNodesLoop (processNodeFor deps cloudProvider pfn
      ignoredTaints forceTemplateFromCloudProvider) nodes (initialState nodeInfoCache rng)).1 :=
    fun pfn => readyNodesLoop_invariant _ StateBound
      (fun node st h => processNodeFor_bound deps cloudProvider ignoredTaints
        forceTemplateFromCloudProvider pfn node st h)
      (fun node st h => cacheAdded_bound _ _ _ h) nodes _ h0
  have hrest : ∀ pfn st1, StateBound st1 →
      StateBound (unreadyNodesLoop (processNodeFor deps cloudProvider pfn ignoredTaints
        forceTemplateFromCloudProvider) cloudProvider nodes
        (pruneCache (nodeGroupsLoop deps daemonsets predicateChecker ignoredTaints
          cloudProvider.NodeGroups st1))).1 :=
    fun pfn st1 h1 => unreadyNodesLoop_invariant cloudProvider _ StateBound
      (fun node st h => processNodeFor_bound deps cloudProvider ignoredTaints
        forceTemplateFromCloudProvider pfn node st h)
      nodes _
      (pruneCache_bound _ (nodeGroupsLoop_invariant deps ignoredTaints daemonsets
        predicateChecker StateBound
        (fun st g h => nodeGroupStep_bound deps daemonsets predicateChecker ignoredTaints st g h)
        cloudProvider.NodeGroups st1 h1))
  rcases GetNodeInfosForGroups_cases deps nodes nodeInfoCache cloudProvider listers daemonsets
      predicateChecker ignoredTaints forceTemplateFromCloudProvider rng with
    ⟨e, _, h⟩ | ⟨pfn, st1, e, _, h1, h⟩ | ⟨pfn, st1, st4, e, _, h1, h4, h⟩ |
    ⟨pfn, st1, st4, _, h1, h4, h⟩
  · rw [h]
    exact ⟨fun id t ht => by simp [NodeInfoMap.empty] at ht, hcache⟩
  · rw [h]
    have hb := hready pfn
    rw [h1] at hb
    exact ⟨fun id t ht => by simp [NodeInfoMap.empty] at ht, hb.2⟩
  · rw [h]
    have hb1 := hready pfn
    rw [h1] at hb1
    have hb := hrest pfn st1 hb1
    rw [h4] at hb
    exact ⟨fun id t ht => by simp [NodeInfoMap.empty] at ht, hb.2⟩
  · rw [h]
    have hb1 := hready pfn
    rw [h1] at hb1
    have hb := hrest pfn st1 hb1
    rw [h4] at hb
    exact ⟨hb.1, hb.2⟩

/-- C12, at a call with a nil cache, a ready node of "ng-1" with one scheduled pod and the
enumerated groups "ng-1" and "ng-2", and at a second call, without a node, on the cache
that a first call on the empty cache has left: the template of "ng-1" is the cached one,
with its pod bound to the synthesized node name. -/
theorem GetNodeInfosForGroups_pods_bound_witness :
    (∀ id t, (GetNodeInfosForGroups exampleUtilsDeps [readyNode1] none exampleCloudProvider
        exampleListers [dsLogging] examplePredicateChecker [] false exampleRng).result id =
          some t →
      ∀ pod ∈ t.pods, pod.nodeName = t.node.name) ∧
    ((GetNodeInfosForGroups exampleUtilsDeps [readyNode1] none exampleCloudProvider
        exampleListers [dsLogging] examplePredicateChecker [] false exampleRng).result
          "ng-1").map (fun t => (t.node.name, t.pods.map (fun pod => pod.nodeName))) =
      some ("template-node-for-ng-1-1", ["template-node-for-ng-1-1"]) ∧
    (∀ id t, (GetNodeInfosForGroups exampleUtilsDeps [] (GetNodeInfosForGroups exampleUtilsDeps
          [readyNode1] (some NodeInfoMap.empty) exampleCloudProvider exampleListers [dsLogging]
          examplePredicateChecker [] false exampleRng).nodeInfoCache
        exampleCloudProvider exampleListers [dsLogging] examplePredicateChecker [] false
        exampleRng).result id = some t →
      ∀ pod ∈ t.pods, pod.nodeName = t.node.name) ∧
    ((GetNodeInfosForGroups exampleUtilsDeps [] (GetNodeInfosForGroups exampleUtilsDeps
          [readyNode1] (some NodeInfoMap.empty) exampleCloudProvider exampleListers [dsLogging]
          examplePredicateChecker [] false exampleRng).nodeInfoCache
        exampleCloudProvider exampleListers [dsLogging] examplePredicateChecker [] false
        exampleRng).result
          "ng-1").map (fun t => (t.node.name, t.pods.map (fun pod => pod.nodeName))) =
      some ("template-node-for-ng-1-1", ["template-node-for-ng-1-1"]) :=
  ⟨(GetNodeInfosForGroups_pods_bound exampleUtilsDeps [readyNode1] none exampleCloudProvider
      exampleListers [dsLogging] examplePredicateChecker [] false exampleRng
      (fun cache h => by cases h)).1,
    by decide,
    (GetNodeInfosForGroups_pods_bound exampleUtilsDeps [] _ exampleCloudProvider
      exampleListers [dsLogging] examplePredicateChecker [] false exampleRng
      (GetNodeInfosForGroups_pods_bound exampleUtilsDeps [readyNode1] (some NodeInfoMap.empty)
        exampleCloudProvider exampleListers [dsLogging] examplePredicateChecker [] false
        exampleRng
        (fun cache h id t ht => by
          cases h
          cases ht)).2).1,
    by decide⟩

theorem readyNodesLoop_lookup_error (deps : UtilsDeps) (cloudProvider : CloudProvider)
    (podsForNodes : String → List Pod) (ignoredTaints : List String) (pre : List Node)
    (node : Node) (post : List Node) (st : SynthState) (e : String)
    (hpre : (readyNodesLoop (processNodeFor deps cloudProvider podsForNodes ignoredTaints false)
      pre st).2 = none)
    (hready : IsNodeReadyAndSchedulable node = true)
    (hlookup : cloudProvider.NodeGroupForNode node = .error e) :
    (readyNodesLoop (processNodeFor deps cloudProvider podsForNodes ignoredTaints false)
      (pre ++ node :: post) st).2 =
        some (ToAutoscalerError AutoscalerErrorType.CloudProviderError e) := by
  rw [readyNodesLoop_append]
  rcases hp : readyNodesLoop (processNodeFor deps cloudProvider podsForNodes ignoredTaints
    false) pre st with ⟨st1, _ | e1⟩
  · simp [readyNodesLoop, hready, processNodeFor, processNode, hlookup]
  · rw [hp] at hpre; cases hpre

theorem unreadyNodesLoop_lookup_error (deps : UtilsDeps) (cloudProvider : CloudProvider)
    (podsForNodes : String → List Pod) (ignoredTaints : List String) (force : Bool)
    (pre : List Node) (node : Node) (post : List Node) (st : SynthState) (e : String)
    (hpre : (unreadyNodesLoop (processNodeFor deps cloudProvider podsForNodes ignoredTaints
      force) cloudProvider pre st).2 = none)
    (hready : IsNodeReadyAndSchedulable node = false)
    (hlookup : cloudProvider.NodeGroupForNode node = .error e) :
    (unreadyNodesLoop (processNodeFor deps cloudProvider podsForNodes ignoredTaints force)
      cloudProvider (pre ++ node :: post) st).2 =
        some (ToAutoscalerError AutoscalerErrorType.CloudProviderError e) := by
  rw [unreadyNodesLoop_append]
  rcases hp : unreadyNodesLoop (processNodeFor deps cloudProvider podsForNodes ignoredTaints
    force) cloudProvider pre st with ⟨st1, _ | e1⟩
  · cases force
    · simp [unreadyNodesLoop, hready, processNodeFor, processNode, hlookup]
    · simp [unreadyNodesLoop, hready, processNodeFor, processNodeForced, hlookup]
  · rw [hp] at hpre; cases hpre

/-- C19: a call of `GetNodeInfosForGroups` that returns an error returns the empty mapping.
When the pod listing succeeds and the first loop, with `forceTemplateFromCloudProvider`
unset, reaches a ready and schedulable node for which `NodeGroupForNode` fails, the call
returns the empty mapping and that failure as an error of kind CloudProviderError; and so
it does when the first loop succeeds and the last loop reaches a node that is not ready
and schedulable for which `NodeGroupForNode` fails. -/
theorem GetNodeInfosForGroups_fatal {S : Type} (deps : UtilsDeps) (nodes : List Node)
    (nodeInfoCache : Option NodeInfoMap) (cloudProvider : CloudProvider)
    (listers : ListerRegistry) (daemonsets : List DaemonSet)
    (predicateChecker : PredicateChecker S) (ignoredTaints : List String)
    (forceTemplateFromCloudProvider : Bool) (rng : Rng) :
    ((GetNodeInfosForGroups deps nodes nodeInfoCache cloudProvider listers daemonsets
        predicateChecker ignoredTaints forceTemplateFromCloudProvider rng).err ≠ none →
      (GetNodeInfosForGroups deps nodes nodeInfoCache cloudProvider listers daemonsets
        predicateChecker ignoredTaints forceTemplateFromCloudProvider rng).result =
          NodeInfoMap.empty) ∧
    (∀ podsForNodes pre node post e,
      getPodsForNodes listers = .ok podsForNodes →
      forceTemplateFromCloudProvider = false →
      nodes = pre ++ node :: post →
      (readyNodesLoop (processNodeFor deps cloudProvider podsForNodes ignoredTaints false) pre
        (initialState nodeInfoCache rng)).2 = none →
      IsNodeReadyAndSchedulable node = true →
      cloudProvider.NodeGroupForNode node = .error e →
      (GetNodeInfosForGroups deps nodes nodeInfoCache cloudProvider listers daemonsets
        predicateChecker ignoredTaints forceTemplateFromCloudProvider rng).result =
          NodeInfoMap.empty ∧
      (GetNodeInfosForGroups deps nodes nodeInfoCache cloudProvider listers daemonsets
        predicateChecker ignoredTaints forceTemplateFromCloudProvider rng).err =
          some { errorType := AutoscalerErrorType.CloudProviderError, message := e }) ∧
    (∀ podsForNodes st1 pre node post e,
      getPodsForNodes listers = .ok podsForNodes →
      readyNodesLoop (processNodeFor deps cloudProvider podsForNodes ignoredTaints
        forceTemplateFromCloudProvider) nodes (initialState nodeInfoCache rng) = (st1, none) →
      nodes = pre ++ node :: post →
      (unreadyNodesLoop (processNodeFor deps cloudProvider podsForNodes ignoredTaints
        forceTemplateFromCloudProvider) cloudProvider pre
        (pruneCache (nodeGroupsLoop deps daemonsets predicateChecker ignoredTaints
          cloudProvider.NodeGroups st1))).2 = none →
      IsNodeReadyAndSchedulable node = false →
      cloudProvider.NodeGroupForNode node = .error e →
      (GetNodeInfosForGroups deps nodes nodeInfoCache cloudProvider listers daemonsets
        predicateChecker ignoredTaints forceTemplateFromCloudProvider rng).result =
          NodeInfoMap.empty ∧
      (GetNodeInfosForGroups deps nodes nodeInfoCache cloudProvider listers daemonsets
        predicateChecker ignoredTaints forceTemplateFromCloudProvider rng).err =
          some { errorType := AutoscalerErrorType.CloudProviderError, message := e }) := by
  have hcases := GetNodeInfosForGroups_cases deps nodes nodeInfoCache cloudProvider listers
    daemonsets predicateChecker ignoredTaints forceTemplateFromCloudProvider rng
  refine ⟨?_, ?_, ?_⟩
  · intro herr
    rcases hcases with ⟨e, _, h⟩ | ⟨pfn, st1, e, _, _, h⟩ | ⟨pfn, st1, st4, e, _, _, _, h⟩ |
      ⟨pfn, st1, st4, _, _, _, h⟩
    · rw [h]
    · rw [h]
    · rw [h]
    · rw [h] at herr; exact absurd rfl herr
  · intro podsForNodes pre node post e hl hforce hnodes hpre hready hlookup
    have hloop := readyNodesLoop_lookup_error deps cloudProvider podsForNodes ignoredTaints pre
      node post (initialState nodeInfoCache rng) e hpre hready hlookup
    rw [← hnodes, ← hforce] at hloop
    rcases hcases with ⟨e', hl', h⟩ | ⟨pfn, st1, e', hl', h1, h⟩ |
      ⟨pfn, st1, st4, e', hl', h1, _, h⟩ | ⟨pfn, st1, st4, hl', h1, _, h⟩
    · rw [hl] at hl'; cases hl'
    · rw [hl] at hl'; cases hl'
      rw [h1] at hloop
      simp only [Option.some.injEq] at hloop
      rw [h]
      exact ⟨rfl, by rw [hloop]; rfl⟩
    · rw [hl] at hl'; cases hl'
      rw [h1] at hloop; cases hloop
    · rw [hl] at hl'; cases hl'
      rw [h1] at hloop; cases hloop
  · intro podsForNodes st1 pre node post e hl hready1 hnodes hpre hready hlookup
    have hloop := unreadyNodesLoop_lookup_error deps cloudProvider podsForNodes ignoredTaints
      forceTemplateFromCloudProvider pre node post
      (pruneCache (nodeGroupsLoop deps daemonsets predicateChecker ignoredTaints
        cloudProvider.NodeGroups st1)) e hpre hready hlookup
    rw [← hnodes] at hloop
    rcases hcases with ⟨e', hl', h⟩ | ⟨pfn, st1', e', hl', h1, h⟩ |
      ⟨pfn, st1', st4, e', hl', h1, h4, h⟩ | ⟨pfn, st1', st4, hl', h1, h4, h⟩
    · rw [hl] at hl'; cases hl'
    · rw [hl] at hl'; cases hl'
      rw [hready1] at h1; cases h1
    · rw [hl] at hl'; cases hl'
      rw [hready1] at h1
      cases h1
      rw [h4] at hloop
      simp only [Option.some.injEq] at hloop
      rw [h]
      exact ⟨rfl, by rw [hloop]; rfl⟩
    · rw [hl] at hl'; cases hl'
      rw [hready1] at h1
      cases h1
      rw [h4] at hloop; cases hloop

/-- C19, at a call whose second node is a ready node with a failing lookup, after a ready
node that got a template, and at a call with `forceTemplateFromCloudProvider` set whose
node is not ready and has a failing lookup. -/
theorem GetNodeInfosForGroups_fatal_witness :
    ((GetNodeInfosForGroups exampleUtilsDeps [readyNode1, readyNodeBroken] none
        exampleCloudProvider exampleListers [] examplePredicateChecker [] false
        exampleRng).result = NodeInfoMap.empty ∧
      (GetNodeInfosForGroups exampleUtilsDeps [readyNode1, readyNodeBroken] none
        exampleCloudProvider exampleListers [] examplePredicateChecker [] false
        exampleRng).err =
          some { errorType := AutoscalerErrorType.CloudProviderError,
                 message := "lookup failed" }) ∧
    ((GetNodeInfosForGroups exampleUtilsDeps [unreadyNodeBroken] none
        exampleCloudProvider exampleListers [] examplePredicateChecker [] true
        exampleRng).result = NodeInfoMap.empty ∧
      (GetNodeInfosForGroups exampleUtilsDeps [unreadyNodeBroken] none
        exampleCloudProvider exampleListers [] examplePredicateChecker [] true
        exampleRng).err =
          some { errorType := AutoscalerErrorType.CloudProviderError,
                 message := "lookup failed" }) :=
  ⟨(GetNodeInfosForGroups_fatal exampleUtilsDeps [readyNode1, readyNodeBroken] none
      exampleCloudProvider exampleListers [] examplePredicateChecker [] false exampleRng).2.1
      _ [readyNode1] readyNodeBroken [] "lookup failed" rfl rfl rfl (by decide) (by decide)
      rfl,
    (GetNodeInfosForGroups_fatal exampleUtilsDeps [unreadyNodeBroken] none
      exampleCloudProvider exampleListers [] examplePredicateChecker [] true exampleRng).2.2
      _ _ [] unreadyNodeBroken [] "lookup failed" rfl rfl rfl (by decide) (by decide)
      rfl⟩

/-! ## Lemmas on the priority of the template sources -/

section Priority

variable {S : Type} (deps : UtilsDeps) (cloudProvider : CloudProvider)
  (podsForNodes : String → List Pod) (ignoredTaints : List String)
  (daemonsets : List DaemonSet) (predicateChecker : PredicateChecker S)

theorem cacheAdded_false (id : String) (st : SynthState) : cacheAdded false id st = st := by
  unfold cacheAdded
  rfl

theorem cacheAdded_other (added : Bool) (id' id : String) (st : SynthState) (h : id' ≠ id) :
    (cacheAdded added id' st).nodeInfoCache.bind (fun cache => cache id) =
      st.nodeInfoCache.bind (fun cache => cache id) := by
  unfold cacheAdded
  split
  · rename_i cache nodeInfo hcache hres
    simp only [deepCopyNodeInfo_eq, hcache, Option.bind, NodeInfoMap.set]
    have : ¬ id = id' := fun heq => h heq.symm
    simp [this]
  · rfl

/-- A node that does not belong to the group `id` leaves the entries of `id` alone. -/
theorem processNodeFor_other (force : Bool) (node : Node) (st : SynthState) (id : String)
    (h : ¬ BelongsTo cloudProvider id node) :
    (processNodeFor deps cloudProvider podsForNodes ignoredTaints force node st).2.result id =
      st.result id ∧
    (cacheAdded (processNodeFor deps cloudProvider podsForNodes ignoredTaints force node st).1.1
      (processNodeFor deps cloudProvider podsForNodes ignoredTaints force node st).1.2.1
      (processNodeFor deps cloudProvider podsForNodes ignoredTaints force node
        st).2).nodeInfoCache.bind (fun cache => cache id) =
      st.nodeInfoCache.bind (fun cache => cache id) := by
  cases force
  · simp only [processNodeFor, Bool.false_eq_true, if_false]
    rcases processNode_cases deps cloudProvider podsForNodes ignoredTaints node st with
      ⟨e, _, hp⟩ | ⟨_, hp⟩ | ⟨g, _, _, hp⟩ | ⟨g, e, _, _, _, hp⟩ |
      ⟨g, ni, t, hg, _, _, _, hp⟩
    · rw [hp]; exact ⟨rfl, by rw [cacheAdded_false]⟩
    · rw [hp]; exact ⟨rfl, by rw [cacheAdded_false]⟩
    · rw [hp]; exact ⟨rfl, by rw [cacheAdded_false]⟩
    · rw [hp]; exact ⟨rfl, by rw [cacheAdded_false]⟩
    · rw [hp]
      have hne : g.id ≠ id := fun heq => h ⟨g, hg, heq⟩
      have hne' : ¬ id = g.id := fun heq => hne heq.symm
      refine ⟨by simp [NodeInfoMap.set, hne'], ?_⟩
      rw [cacheAdded_other _ _ _ _ hne]
  · exact ⟨rfl, by simp only [processNodeFor, if_true, processNodeForced, cacheAdded_false]⟩

theorem readyNodesLoop_frame (force : Bool) (id : String) (t : NodeInfo) (nodes : List Node)
    (st : SynthState) (h : st.result id = some t) :
    (readyNodesLoop (processNodeFor deps cloudProvider podsForNodes ignoredTaints force)
      nodes st).1.result id = some t :=
  readyNodesLoop_invariant _ (fun st' => st'.result id = some t)
    (fun node st' h' =>
      processNodeFor_frame deps cloudProvider podsForNodes ignoredTaints force node st' id t h')
    (fun node st' h' => by
      show (cacheAdded _ _ _).result id = some t
      rw [(cacheAdded_fields _ _ _).1]
      exact h')
    nodes st h

theorem unreadyNodesLoop_frame (force : Bool) (id : String) (t : NodeInfo) (nodes : List Node)
    (st : SynthState) (h : st.result id = some t) :
    (unreadyNodesLoop (processNodeFor deps cloudProvider podsForNodes ignoredTaints force)
      cloudProvider nodes st).1.result id = some t :=
  unreadyNodesLoop_invariant cloudProvider _ (fun st' => st'.result id = some t)
    (fun node st' h' =>
      processNodeFor_frame deps cloudProvider podsForNodes ignoredTaints force node st' id t h')
    nodes st h

/-- Ready nodes of other groups leave the entries of `id` alone. -/
theorem readyNodesLoop_other (force : Bool) (id : String) :
    ∀ (nodes : List Node) (st : SynthState),
      (∀ n ∈ nodes, ¬ (IsNodeReadyAndSchedulable n = true ∧ BelongsTo cloudProvider id n)) →
      (readyNodesLoop (processNodeFor deps cloudProvider podsForNodes ignoredTaints force)
        nodes st).1.result id = st.result id ∧
      (readyNodesLoop (processNodeFor deps cloudProvider podsForNodes ignoredTaints force)
        nodes st).1.nodeInfoCache.bind (fun cache => cache id) =
          st.nodeInfoCache.bind (fun cache => cache id)
  | [], _, _ => ⟨rfl, rfl⟩
  | node :: rest, st, h => by
    have hrest : ∀ n ∈ rest,
        ¬ (IsNodeReadyAndSchedulable n = true ∧ BelongsTo cloudProvider id n) :=
      fun n hn => h n (List.mem_cons_of_mem _ hn)
    simp only [readyNodesLoop]
    by_cases hready : IsNodeReadyAndSchedulable node = true
    · simp only [hready, Bool.not_true, Bool.false_eq_true, if_false]
      have hnot : ¬ BelongsTo cloudProvider id node :=
        fun hb => h node (List.mem_cons_self _ _) ⟨hready, hb⟩
      have hother := processNodeFor_other deps cloudProvider podsForNodes ignoredTaints force
        node st id hnot
      have hcache := (processNodeFor_cache deps cloudProvider podsForNodes ignoredTaints force
        node st).2
      rcases hp : processNodeFor deps cloudProvider podsForNodes ignoredTaints force node st
        with ⟨⟨added, id', _ | e⟩, st1⟩
      · rw [hp] at hother
        have ih := readyNodesLoop_other force id rest (cacheAdded added id' st1) hrest
        simp only at hother
        refine ⟨?_, ?_⟩
        · rw [ih.1, (cacheAdded_fields _ _ _).1]; exact hother.1
        · rw [ih.2]; exact hother.2
      · rw [hp] at hother hcache
        simp only at hother hcache
        exact ⟨hother.1, by rw [hcache]⟩
    · simp only [Bool.not_eq_true] at hready
      simp only [hready, Bool.not_false, if_true]
      exact readyNodesLoop_other force id rest st hrest

/-- Nodes of other groups that are not ready leave the entry of `id` alone. -/
theorem unreadyNodesLoop_other (force : Bool) (id : String) :
    ∀ (nodes : List Node) (st : SynthState),
      (∀ n ∈ nodes, ¬ (IsNodeReadyAndSchedulable n = false ∧ BelongsTo cloudProvider id n)) →
      (unreadyNodesLoop (processNodeFor deps cloudProvider podsForNodes ignoredTaints force)
        cloudProvider nodes st).1.result id = st.result id
  | [], _, _ => rfl
  | node :: rest, st, h => by
    have hrest : ∀ n ∈ rest,
        ¬ (IsNodeReadyAndSchedulable n = false ∧ BelongsTo cloudProvider id n) :=
      fun n hn => h n (List.mem_cons_of_mem _ hn)
    simp only [unreadyNodesLoop]
    by_cases hready : IsNodeReadyAndSchedulable node = true
    · simp only [hready, Bool.not_true, Bool.false_eq_true, if_false]
      exact unreadyNodesLoop_other force id rest st hrest
    · simp only [Bool.not_eq_true] at hready
      simp only [hready, Bool.not_false, if_true]
      have hnot : ¬ BelongsTo cloudProvider id node :=
        fun hb => h node (List.mem_cons_self _ _) ⟨hready, hb⟩
      have hother := (processNodeFor_other deps cloudProvider podsForNodes ignoredTaints force
        node st id hnot).1
      rcases hp : processNodeFor deps cloudProvider podsForNodes ignoredTaints force node st
        with ⟨⟨added, id', _ | e⟩, st1⟩
      · rw [hp] at hother
        simp only at hother
        cases hg : cloudProvider.NodeGroupForNode node with
        | error err => exact hother
        | ok og =>
          simp only []
          rw [unreadyNodesLoop_other force id rest st1 hrest]
          exact hother
      · rw [hp] at hother
        exact hother

/-- The first ready node of the group `id` gives the group its template, when the group
has none yet and the first loop does not fail. -/
theorem readyNodesLoop_first (id : String) (pre : List Node) (node : Node) (post : List Node)
    (st st' : SynthState)
    (hpre : ∀ m ∈ pre, ¬ (IsNodeReadyAndSchedulable m = true ∧ BelongsTo cloudProvider id m))
    (hready : IsNodeReadyAndSchedulable node = true) (hb : BelongsTo cloudProvider id node)
    (hnone : st.result id = none)
    (hloop : readyNodesLoop (processNodeFor deps cloudProvider podsForNodes ignoredTaints false)
      (pre ++ node :: post) st = (st', none)) :
    ∃ nodeInfo draw t, deps.BuildNodeInfoForNode node podsForNodes = .ok nodeInfo ∧
      sanitizeNodeInfo nodeInfo id ignoredTaints draw = .ok t ∧ st'.result id = some t := by
  rw [readyNodesLoop_append] at hloop
  have hother := (readyNodesLoop_other deps cloudProvider podsForNodes ignoredTaints false id
    pre st hpre).1
  rcases hp : readyNodesLoop (processNodeFor deps cloudProvider podsForNodes ignoredTaints
    false) pre st with ⟨stp, _ | e⟩
  · rw [hp] at hloop hother
    simp only at hloop hother
    rw [hnone] at hother
    obtain ⟨g, hg, hgid⟩ := hb
    simp only [readyNodesLoop, hready, Bool.not_true, Bool.false_eq_true, if_false,
      processNodeFor] at hloop
    rcases processNode_cases deps cloudProvider podsForNodes ignoredTaints node stp with
      ⟨e, hl, _⟩ | ⟨hl, _⟩ | ⟨g', hl, hsome, _⟩ | ⟨g', e, _, _, _, hproc⟩ |
      ⟨g', ni, t, hl, _, hbuild, hsan, hproc⟩
    · rw [hg] at hl; cases hl
    · rw [hg] at hl; cases hl
    · rw [hg] at hl
      cases hl
      rw [hgid] at hsome
      exact absurd hother hsome
    · rw [hproc] at hloop
      cases hloop
    · rw [hg] at hl
      cases hl
      rw [hproc] at hloop
      simp only at hloop
      have hset : (cacheAdded true g.id
          { stp with result := stp.result.set g.id t, rng := stp.rng.Int63.2 }).result id =
            some t := by
        rw [(cacheAdded_fields _ _ _).1]
        simp [NodeInfoMap.set, hgid]
      have hframe := readyNodesLoop_frame deps cloudProvider podsForNodes ignoredTaints false id
        t post _ hset
      simp only [processNodeFor, Bool.false_eq_true, if_false] at hframe
      rw [hloop] at hframe
      rw [hgid] at hsan
      exact ⟨ni, _, t, hbuild, hsan, hframe⟩
  · rw [hp] at hloop
    cases hloop

/-- The first node of the group `id` that is not ready gives the group its template, when
the group has none yet and the last loop does not fail. -/
theorem unreadyNodesLoop_first (id : String) (pre : List Node) (node : Node)
    (post : List Node) (st st' : SynthState)
    (hpre : ∀ m ∈ pre, ¬ (IsNodeReadyAndSchedulable m = false ∧ BelongsTo cloudProvider id m))
    (hready : IsNodeReadyAndSchedulable node = false) (hb : BelongsTo cloudProvider id node)
    (hnone : st.result id = none)
    (hloop : unreadyNodesLoop (processNodeFor deps cloudProvider podsForNodes ignoredTaints
      false) cloudProvider (pre ++ node :: post) st = (st', none)) :
    ∃ nodeInfo draw t, deps.BuildNodeInfoForNode node podsForNodes = .ok nodeInfo ∧
      sanitizeNodeInfo nodeInfo id ignoredTaints draw = .ok t ∧ st'.result id = some t := by
  rw [unreadyNodesLoop_append] at hloop
  have hother := unreadyNodesLoop_other deps cloudProvider podsForNodes ignoredTaints false id
    pre st hpre
  rcases hp : unreadyNodesLoop (processNodeFor deps cloudProvider podsForNodes ignoredTaints
    false) cloudProvider pre st with ⟨stp, _ | e⟩
  · rw [hp] at hloop hother
    simp only at hloop hother
    rw [hnone] at hother
    obtain ⟨g, hg, hgid⟩ := hb
    simp only [unreadyNodesLoop, hready, Bool.not_false, if_true, processNodeFor,
      Bool.false_eq_true, if_false] at hloop
    rcases processNode_cases deps cloudProvider podsForNodes ignoredTaints node stp with
      ⟨e, hl, _⟩ | ⟨hl, _⟩ | ⟨g', hl, hsome, _⟩ | ⟨g', e, _, _, _, hproc⟩ |
      ⟨g', ni, t, hl, _, hbuild, hsan, hproc⟩
    · rw [hg] at hl; cases hl
    · rw [hg] at hl; cases hl
    · rw [hg] at hl
      cases hl
      rw [hgid] at hsome
      exact absurd hother hsome
    · rw [hproc] at hloop
      cases hloop
    · rw [hg] at hl
      cases hl
      rw [hproc, hg] at hloop
      simp only at hloop
      have hset : ({ stp with result := stp.result.set g.id t, rng := stp.rng.Int63.2 } :
          SynthState).result id = some t := by
        simp [NodeInfoMap.set, hgid]
      have hframe := unreadyNodesLoop_frame deps cloudProvider podsForNodes ignoredTaints false
        id t post _ hset
      simp only [processNodeFor, Bool.false_eq_true, if_false] at hframe
      rw [hloop] at hframe
      rw [hgid] at hsan
      exact ⟨ni, _, t, hbuild, hsan, hframe⟩
  · rw [hp] at hloop
    cases hloop

/-- With `forceTemplateFromCloudProvider` set the first loop does nothing. -/
theorem readyNodesLoop_forced :
    ∀ (nodes : List Node) (st : SynthState),
      readyNodesLoop (processNodeFor deps cloudProvider podsForNodes ignoredTaints true)
        nodes st = (st, none)
  | [], _ => rfl
  | node :: rest, st => by
    simp only [readyNodesLoop]
    by_cases hready : IsNodeReadyAndSchedulable node = true
    · simp only [hready, Bool.not_true, Bool.false_eq_true, if_false, processNodeFor, if_true,
        processNodeForced, cacheAdded_false]
      exact readyNodesLoop_forced rest st
    · simp only [Bool.not_eq_true] at hready
      simp only [hready, Bool.not_false, if_true]
      exact readyNodesLoop_forced rest st

/-- With `forceTemplateFromCloudProvider` set the last loop changes nothing. -/
theorem unreadyNodesLoop_forced (nodes : List Node) (st : SynthState) :
    (unreadyNodesLoop (processNodeFor deps cloudProvider podsForNodes ignoredTaints true)
      cloudProvider nodes st).1 = st :=
  unreadyNodesLoop_invariant cloudProvider _ (fun st' => st' = st)
    (fun node st' h => by
      show (processNodeFor deps cloudProvider podsForNodes ignoredTaints true node st').2 = st
      simp only [processNodeFor, if_true, processNodeForced]
      exact h)
    nodes st rfl

/-! ### The second loop -/

theorem nodeGroupStep_frame (st : SynthState) (g : NodeGroup) (id : String) (t : NodeInfo)
    (h : st.result id = some t) :
    (nodeGroupStep deps daemonsets predicateChecker ignoredTaints st g).result id = some t := by
  have hne : st.result g.id = none → ¬ id = g.id := by
    intro hnone heq
    rw [heq, hnone] at h
    cases h
  rcases nodeGroupStep_cases deps ignoredTaints daemonsets predicateChecker st g with
    ⟨_, hs⟩ | ⟨t', hnone, _, hs⟩ | ⟨e, r, _, _, _, hs⟩ | ⟨t', r, hnone, _, _, hs⟩
  · rw [hs]; exact h
  · rw [hs]; simp [NodeInfoMap.set, hne hnone, h]
  · rw [hs]; exact h
  · rw [hs]; simp [NodeInfoMap.set, hne hnone, h]

theorem nodeGroupStep_other (st : SynthState) (g : NodeGroup) (id : String)
    (h : g.id ≠ id) :
    (nodeGroupStep deps daemonsets predicateChecker ignoredTaints st g).result id =
      st.result id := by
  have hne : ¬ id = g.id := fun heq => h heq.symm
  rcases nodeGroupStep_cases deps ignoredTaints daemonsets predicateChecker st g with
    ⟨_, hs⟩ | ⟨t', _, _, hs⟩ | ⟨e, r, _, _, _, hs⟩ | ⟨t', r, _, _, _, hs⟩
  · rw [hs]
  · rw [hs]; simp [NodeInfoMap.set, hne]
  · rw [hs]
  · rw [hs]; simp [NodeInfoMap.set, hne]

theorem nodeGroupsLoop_append (pre rest : List NodeGroup) (st : SynthState) :
    nodeGroupsLoop deps daemonsets predicateChecker ignoredTaints (pre ++ rest) st =
      nodeGroupsLoop deps daemonsets predicateChecker ignoredTaints rest
        (nodeGroupsLoop deps daemonsets predicateChecker ignoredTaints pre st) := by
  simp [nodeGroupsLoop, List.foldl_append]

theorem nodeGroupsLoop_cons (g : NodeGroup) (rest : List NodeGroup) (st : SynthState) :
    nodeGroupsLoop deps daemonsets predicateChecker ignoredTaints (g :: rest) st =
      nodeGroupsLoop deps daemonsets predicateChecker ignoredTaints rest
        (nodeGroupStep deps daemonsets predicateChecker ignoredTaints st g) := rfl

theorem nodeGroupsLoop_frame (nodeGroups : List NodeGroup) (st : SynthState) (id : String)
    (t : NodeInfo) (h : st.result id = some t) :
    (nodeGroupsLoop deps daemonsets predicateChecker ignoredTaints nodeGroups st).result id =
      some t :=
  nodeGroupsLoop_invariant deps ignoredTaints daemonsets predicateChecker
    (fun st' => st'.result id = some t)
    (fun st' g h' => nodeGroupStep_frame deps ignoredTaints daemonsets predicateChecker st' g id
      t h')
    nodeGroups st h

theorem nodeGroupsLoop_other (id : String) :
    ∀ (nodeGroups : List NodeGroup) (st : SynthState), (∀ g ∈ nodeGroups, g.id ≠ id) →
      (nodeGroupsLoop deps daemonsets predicateChecker ignoredTaints nodeGroups st).result id =
        st.result id
  | [], _, _ => rfl
  | g :: rest, st, h => by
    rw [nodeGroupsLoop_cons,
      nodeGroupsLoop_other id rest _ (fun g' hg' => h g' (List.mem_cons_of_mem _ hg')),
      nodeGroupStep_other deps ignoredTaints daemonsets predicateChecker st g id
        (h g (List.mem_cons_self _ _))]

/-- An enumerated group without template takes the entry of the cache, when there is
one. -/
theorem nodeGroupsLoop_cached (id : String) (t : NodeInfo) (nodeGroups : List NodeGroup)
    (st : SynthState) (hnone : st.result id = none)
    (hcache : st.nodeInfoCache.bind (fun cache => cache id) = some t)
    (hmem : ∃ g ∈ nodeGroups, g.id = id) :
    (nodeGroupsLoop deps daemonsets predicateChecker ignoredTaints nodeGroups st).result id =
      some t := by
  obtain ⟨pre, g, post, hsplit, hpre, hg⟩ :=
    exists_first_split (fun g : NodeGroup => decide (g.id = id)) nodeGroups
      (by obtain ⟨g, hg, hid⟩ := hmem; exact ⟨g, hg, by simpa using hid⟩)
  have hgid : g.id = id := by simpa using hg
  have hpre' : ∀ q ∈ pre, q.id ≠ id := fun q hq => by simpa using hpre q hq
  rw [hsplit, nodeGroupsLoop_append, nodeGroupsLoop_cons]
  apply nodeGroupsLoop_frame
  have hres := nodeGroupsLoop_other deps ignoredTaints daemonsets predicateChecker id pre st hpre'
  have hc := nodeGroupsLoop_cache deps daemonsets predicateChecker ignoredTaints pre st
  rw [hnone] at hres
  rcases nodeGroupStep_cases deps ignoredTaints daemonsets predicateChecker
      (nodeGroupsLoop deps daemonsets predicateChecker ignoredTaints pre st) g with
    ⟨hsome, _⟩ | ⟨t', _, hct, hs⟩ | ⟨e, r, _, hcn, _, _⟩ | ⟨t', r, _, hcn, _, _⟩
  · rw [hgid] at hsome
    exact absurd hres hsome
  · rw [hc, hgid, hcache] at hct
    cases hct
    rw [hs]
    simp [NodeInfoMap.set, hgid]
  · rw [hc, hgid, hcache] at hcn
    cases hcn
  · rw [hc, hgid, hcache] at hcn
    cases hcn

/-- An enumerated group without template and without cache entry takes the template built
from the provider, when the build succeeds. -/
theorem nodeGroupsLoop_built (id : String) (pre : List NodeGroup) (g : NodeGroup)
    (post : List NodeGroup) (st : SynthState) (hnone : st.result id = none)
    (hcache : st.nodeInfoCache.bind (fun cache => cache id) = none)
    (hpre : ∀ q ∈ pre, q.id ≠ id) (hgid : g.id = id)
    (hbuild : ∀ r, ∃ t, (GetNodeInfoFromTemplate deps g daemonsets predicateChecker ignoredTaints
      r).1 = .ok t) :
    ∃ r t, (GetNodeInfoFromTemplate deps g daemonsets predicateChecker ignoredTaints r).1 =
        .ok t ∧
      (nodeGroupsLoop deps daemonsets predicateChecker ignoredTaints (pre ++ g :: post)
        st).result id = some t := by
  have hres := nodeGroupsLoop_other deps ignoredTaints daemonsets predicateChecker id pre st hpre
  have hc := nodeGroupsLoop_cache deps daemonsets predicateChecker ignoredTaints pre st
  rw [hnone] at hres
  rcases nodeGroupStep_cases deps ignoredTaints daemonsets predicateChecker
      (nodeGroupsLoop deps daemonsets predicateChecker ignoredTaints pre st) g with
    ⟨hsome, _⟩ | ⟨t', _, hct, _⟩ | ⟨e, r, _, _, hb, _⟩ | ⟨t', r, _, _, hb, hs⟩
  · rw [hgid] at hsome
    exact absurd hres hsome
  · rw [hc, hgid, hcache] at hct
    cases hct
  · obtain ⟨t, ht⟩ := hbuild (nodeGroupsLoop deps daemonsets predicateChecker ignoredTaints pre
      st).rng
    rw [hb] at ht
    cases ht
  · refine ⟨_, t', by rw [hb], ?_⟩
    rw [nodeGroupsLoop_append, nodeGroupsLoop_cons]
    apply nodeGroupsLoop_frame
    rw [hs]
    simp [NodeInfoMap.set, hgid]

/-- A group without template and without cache entry stays without template when every
enumerated group of its id fails to build one. -/
theorem nodeGroupsLoop_failed (id : String) :
    ∀ (nodeGroups : List NodeGroup) (st : SynthState), st.result id = none →
      st.nodeInfoCache.bind (fun cache => cache id) = none →
      (∀ g ∈ nodeGroups, g.id = id → ∀ r, ∃ e,
        (GetNodeInfoFromTemplate deps g daemonsets predicateChecker ignoredTaints r).1 =
          .error e) →
      (nodeGroupsLoop deps daemonsets predicateChecker ignoredTaints nodeGroups st).result id =
        none
  | [], _, hnone, _, _ => hnone
  | g :: rest, st, hnone, hcache, hfail => by
    rw [nodeGroupsLoop_cons]
    apply nodeGroupsLoop_failed id rest
    · by_cases hgid : g.id = id
      · rcases nodeGroupStep_cases deps ignoredTaints daemonsets predicateChecker st g with
          ⟨hsome, _⟩ | ⟨t', _, hct, _⟩ | ⟨e, r, _, _, _, hs⟩ | ⟨t', r, _, _, hb, _⟩
        · rw [hgid] at hsome
          exact absurd hnone hsome
        · rw [hgid, hcache] at hct
          cases hct
        · rw [hs]
          exact hnone
        · obtain ⟨e, he⟩ := hfail g (List.mem_cons_self _ _) hgid st.rng
          rw [hb] at he
          cases he
      · rw [nodeGroupStep_other deps ignoredTaints daemonsets predicateChecker st g id hgid]
        exact hnone
    · rw [nodeGroupStep_cache]
      exact hcache
    · exact fun g' hg' => hfail g' (List.mem_cons_of_mem _ hg')

/-- Where a template of the second loop comes from: it was there before, or it is the cache
entry of an enumerated group, or it is built from the provider template of an enumerated
group that has no cache entry. -/
theorem nodeGroupsLoop_origin (id : String) (t : NodeInfo) :
    ∀ (nodeGroups : List NodeGroup) (st : SynthState),
      (nodeGroupsLoop deps daemonsets predicateChecker ignoredTaints nodeGroups st).result id =
        some t →
      st.result id = some t ∨
      ∃ g ∈ nodeGroups, g.id = id ∧
        (st.nodeInfoCache.bind (fun cache => cache id) = some t ∨
          (st.nodeInfoCache.bind (fun cache => cache id) = none ∧
            ∃ r, (GetNodeInfoFromTemplate deps g daemonsets predicateChecker ignoredTaints
              r).1 = .ok t))
  | [], _, h => Or.inl h
  | g :: rest, st, h => by
    rw [nodeGroupsLoop_cons] at h
    rcases nodeGroupsLoop_origin id t rest _ h with hstep | ⟨g', hg', hid, hsrc⟩
    · by_cases hgid : g.id = id
      · rcases nodeGroupStep_cases deps ignoredTaints daemonsets predicateChecker st g with
          ⟨_, hs⟩ | ⟨t', _, hct, hs⟩ | ⟨e, r, _, _, _, hs⟩ | ⟨t', r, _, hcn, hb, hs⟩
        · rw [hs] at hstep
          exact Or.inl hstep
        · rw [hs] at hstep
          simp only [NodeInfoMap.set, hgid, if_true, Option.some.injEq] at hstep
          rw [hgid, hstep] at hct
          exact Or.inr ⟨g, List.mem_cons_self _ _, hgid, Or.inl hct⟩
        · rw [hs] at hstep
          exact Or.inl hstep
        · rw [hs] at hstep
          simp only [NodeInfoMap.set, hgid, if_true, Option.some.injEq] at hstep
          rw [hgid] at hcn
          rw [hstep] at hb
          exact Or.inr ⟨g, List.mem_cons_self _ _, hgid, Or.inr ⟨hcn, st.rng, by rw [hb]⟩⟩
      · rw [nodeGroupStep_other deps ignoredTaints daemonsets predicateChecker st g id hgid]
          at hstep
        exact Or.inl hstep
    · rw [nodeGroupStep_cache] at hsrc
      exact Or.inr ⟨g', List.mem_cons_of_mem _ hg', hid, hsrc⟩

end Priority

/-! ## Node templates: the claims on the sources of a template -/

/-- C16, the code at a failing input. A first call without the flag, with a ready node of
"ng-1" and the empty cache, leaves in the cache the template built from that node. A
second call with `forceTemplateFromCloudProvider` set, no node and that cache returns for
the enumerated group "ng-1" the cached template, built from the node with its scheduled
pod: not a sample node constructed from the provider template of the group, whose
synthesis gives the capacity of that template for every state of the generator. -/
theorem GetNodeInfosForGroups_forced_returns_cached :
    (GetNodeInfosForGroups exampleUtilsDeps []
        (GetNodeInfosForGroups exampleUtilsDeps [readyNode1] (some NodeInfoMap.empty)
          exampleCloudProvider exampleListers [] examplePredicateChecker [] false
          exampleRng).nodeInfoCache
        exampleCloudProvider exampleListers [] examplePredicateChecker [] true
        exampleRng).err = none ∧
    (GetNodeInfosForGroups exampleUtilsDeps []
        (GetNodeInfosForGroups exampleUtilsDeps [readyNode1] (some NodeInfoMap.empty)
          exampleCloudProvider exampleListers [] examplePredicateChecker [] false
          exampleRng).nodeInfoCache
        exampleCloudProvider exampleListers [] examplePredicateChecker [] true
        exampleRng).result "ng-1" =
      (GetNodeInfosForGroups exampleUtilsDeps [readyNode1] (some NodeInfoMap.empty)
        exampleCloudProvider exampleListers [] examplePredicateChecker [] false
        exampleRng).result "ng-1" ∧
    ((GetNodeInfosForGroups exampleUtilsDeps []
        (GetNodeInfosForGroups exampleUtilsDeps [readyNode1] (some NodeInfoMap.empty)
          exampleCloudProvider exampleListers [] examplePredicateChecker [] false
          exampleRng).nodeInfoCache
        exampleCloudProvider exampleListers [] examplePredicateChecker [] true
        exampleRng).result "ng-1").map
          (fun t => (t.node.name, t.node.capacity, t.pods.map (fun pod => pod.name))) =
      some ("template-node-for-ng-1-1", [], ["a"]) ∧
    ∀ r t, (GetNodeInfoFromTemplate exampleUtilsDeps
        { id := "ng-1", templateNodeInfo := .ok baseTemplate } [] examplePredicateChecker []
        r).1 = .ok t →
      t.node.capacity = [("cpu", 4000), ("memory", 8589934592000)] := by
  refine ⟨by decide, by decide, by decide, ?_⟩
  intro r t h
  rw [GetNodeInfoFromTemplate_ok exampleUtilsDeps
    { id := "ng-1", templateNodeInfo := .ok baseTemplate } [] examplePredicateChecker [] r r
    baseTemplate [] rfl rfl, sanitizeNodeInfo_eq] at h
  simp only [Except.ok.injEq] at h
  rw [← h]
  rfl

/-- What the code does with `forceTemplateFromCloudProvider` set: every template of the
returned mapping belongs to an enumerated node group and is the entry that the cache handed
in holds for the group or, when the cache holds none, a template synthesized from the
provider template of the group; no template is built from a node of the call, and the
call adds no entry to the cache. -/
theorem GetNodeInfosForGroups_forced {S : Type} (deps : UtilsDeps) (nodes : List Node)
    (nodeInfoCache : Option NodeInfoMap) (cloudProvider : CloudProvider)
    (listers : ListerRegistry) (daemonsets : List DaemonSet)
    (predicateChecker : PredicateChecker S) (ignoredTaints : List String) (rng : Rng) :
    (∀ id t, (GetNodeInfosForGroups deps nodes nodeInfoCache cloudProvider listers daemonsets
        predicateChecker ignoredTaints true rng).result id = some t →
      ∃ g ∈ cloudProvider.NodeGroups, g.id = id ∧
        (nodeInfoCache.bind (fun cache => cache id) = some t ∨
          (nodeInfoCache.bind (fun cache => cache id) = none ∧
            ∃ r, (GetNodeInfoFromTemplate deps g daemonsets predicateChecker ignoredTaints
              r).1 = .ok t))) ∧
    (∀ id t, (GetNodeInfosForGroups deps nodes nodeInfoCache cloudProvider listers daemonsets
        predicateChecker ignoredTaints true rng).nodeInfoCache.bind (fun cache => cache id) =
          some t →
      nodeInfoCache.bind (fun cache => cache id) = some t) := by
  have hprune : ∀ (st : SynthState) id t,
      (pruneCache st).nodeInfoCache.bind (fun cache => cache id) = some t →
      st.nodeInfoCache.bind (fun cache => cache id) = some t := by
    intro st id t h
    cases hc : st.nodeInfoCache with
    | none => simp [pruneCache, hc] at h
    | some c =>
      simp only [pruneCache, hc, Option.map_some', Option.bind] at h
      by_cases hmem : id ∈ st.seenGroups
      · simpa [hmem] using h
      · simp [hmem] at h
  have hafter : ∀ pfn,
      (unreadyNodesLoop (processNodeFor deps cloudProvider pfn ignoredTaints true)
        cloudProvider nodes
        (pruneCache (nodeGroupsLoop deps daemonsets predicateChecker ignoredTaints
          cloudProvider.NodeGroups (initialState nodeInfoCache rng)))).1 =
      pruneCache (nodeGroupsLoop deps daemonsets predicateChecker ignoredTaints
          cloudProvider.NodeGroups (initialState nodeInfoCache rng)) :=
    fun pfn => unreadyNodesLoop_forced deps cloudProvider pfn ignoredTaints nodes _
  have hcacheLoop : ∀ id t,
      (pruneCache (nodeGroupsLoop deps daemonsets predicateChecker ignoredTaints
          cloudProvider.NodeGroups (initialState nodeInfoCache rng))).nodeInfoCache.bind
            (fun cache => cache id) = some t →
      nodeInfoCache.bind (fun cache => cache id) = some t := by
    intro id t h
    have := hprune _ id t h
    rw [nodeGroupsLoop_cache] at this
    exact this
  rcases GetNodeInfosForGroups_cases deps nodes nodeInfoCache cloudProvider listers daemonsets
      predicateChecker ignoredTaints true rng with
    ⟨e, _, h⟩ | ⟨pfn, st1, e, _, h1, h⟩ | ⟨pfn, st1, st4, e, _, h1, h4, h⟩ |
    ⟨pfn, st1, st4, _, h1, h4, h⟩
  · rw [h]
    exact ⟨fun id t ht => by simp [NodeInfoMap.empty] at ht, fun id t ht => ht⟩
  · rw [readyNodesLoop_forced] at h1
    cases h1
  · rw [readyNodesLoop_forced] at h1
    cases h1
    have h4' := hafter pfn
    rw [h4] at h4'
    simp only at h4'
    rw [h, h4']
    exact ⟨fun id t ht => by simp [NodeInfoMap.empty] at ht, hcacheLoop⟩
  · rw [readyNodesLoop_forced] at h1
    cases h1
    have h4' := hafter pfn
    rw [h4] at h4'
    simp only at h4'
    rw [h, h4']
    refine ⟨?_, hcacheLoop⟩
    intro id t ht
    have ht' : (nodeGroupsLoop deps daemonsets predicateChecker ignoredTaints
        cloudProvider.NodeGroups (initialState nodeInfoCache rng)).result id = some t := ht
    rcases nodeGroupsLoop_origin deps ignoredTaints daemonsets predicateChecker id t _ _ ht' with
      h0 | hsrc
    · simp [initialState, NodeInfoMap.empty] at h0
    · exact hsrc

/-- C17: with `forceTemplateFromCloudProvider` unset, a call that returns no error picks
the template of a group id by priority. The first ready and schedulable node of the group,
in input order, gives the template: the sanitization of the node info built for it. With
no such node and the group enumerated, the entry of the cache for the id is the template;
without such an entry, the first enumerated group of that id gives the template
synthesized from its provider template, when that synthesis succeeds; when the synthesis
fails for every enumerated group of that id, the first node of the group that is not
ready gives the template, and without such a node the id has no template. -/
theorem GetNodeInfosForGroups_priority {S : Type} (deps : UtilsDeps) (nodes : List Node)
    (nodeInfoCache : Option NodeInfoMap) (cloudProvider : CloudProvider)
    (listers : ListerRegistry) (daemonsets : List DaemonSet)
    (predicateChecker : PredicateChecker S) (ignoredTaints : List String) (rng : Rng)
    (herr : (GetNodeInfosForGroups deps nodes nodeInfoCache cloudProvider listers daemonsets
      predicateChecker ignoredTaints false rng).err = none) :
    ∃ podsForNodes, getPodsForNodes listers = .ok podsForNodes ∧ ∀ id,
      (∀ node, IsFirstWith
          (fun n => IsNodeReadyAndSchedulable n = true ∧ BelongsTo cloudProvider id n)
          nodes node →
        ∃ nodeInfo draw t, deps.BuildNodeInfoForNode node podsForNodes = .ok nodeInfo ∧
          sanitizeNodeInfo nodeInfo id ignoredTaints draw = .ok t ∧
          (GetNodeInfosForGroups deps nodes nodeInfoCache cloudProvider listers daemonsets
            predicateChecker ignoredTaints false rng).result id = some t) ∧
      ((∀ n ∈ nodes,
          ¬ (IsNodeReadyAndSchedulable n = true ∧ BelongsTo cloudProvider id n)) →
        (∃ g ∈ cloudProvider.NodeGroups, g.id = id) →
        (∀ t, nodeInfoCache.bind (fun cache => cache id) = some t →
          (GetNodeInfosForGroups deps nodes nodeInfoCache cloudProvider listers daemonsets
            predicateChecker ignoredTaints false rng).result id = some t) ∧
        (nodeInfoCache.bind (fun cache => cache id) = none →
          (∀ g, IsFirstWith (fun g => g.id = id) cloudProvider.NodeGroups g →
            (∀ r, ∃ t, (GetNodeInfoFromTemplate deps g daemonsets predicateChecker
              ignoredTaints r).1 = .ok t) →
            ∃ r t, (GetNodeInfoFromTemplate deps g daemonsets predicateChecker ignoredTaints
                r).1 = .ok t ∧
              (GetNodeInfosForGroups deps nodes nodeInfoCache cloudProvider listers daemonsets
                predicateChecker ignoredTaints false rng).result id = some t) ∧
          ((∀ g ∈ cloudProvider.NodeGroups, g.id = id → ∀ r, ∃ e,
              (GetNodeInfoFromTemplate deps g daemonsets predicateChecker ignoredTaints r).1 =
                .error e) →
            (∀ node, IsFirstWith
                (fun n => IsNodeReadyAndSchedulable n = false ∧ BelongsTo cloudProvider id n)
                nodes node →
              ∃ nodeInfo draw t, deps.BuildNodeInfoForNode node podsForNodes = .ok nodeInfo ∧
                sanitizeNodeInfo nodeInfo id ignoredTaints draw = .ok t ∧
                (GetNodeInfosForGroups deps nodes nodeInfoCache cloudProvider listers
                  daemonsets predicateChecker ignoredTaints false rng).result id = some t) ∧
            ((∀ n ∈ nodes,
                ¬ (IsNodeReadyAndSchedulable n = false ∧ BelongsTo cloudProvider id n)) →
              (GetNodeInfosForGroups deps nodes nodeInfoCache cloudProvider listers daemonsets
                predicateChecker ignoredTaints false rng).result id = none)))) := by
  rcases GetNodeInfosForGroups_cases deps nodes nodeInfoCache cloudProvider listers daemonsets
      predicateChecker ignoredTaints false rng with
    ⟨e, _, h⟩ | ⟨pfn, st1, e, _, _, h⟩ | ⟨pfn, st1, st4, e, _, _, _, h⟩ |
    ⟨pfn, st1, st4, hl, h1, h4, h⟩
  · rw [h] at herr; cases herr
  · rw [h] at herr; cases herr
  · rw [h] at herr; cases herr
  · refine ⟨pfn, hl, ?_⟩
    intro id
    rw [h]
    simp only
    have hinit : (initialState nodeInfoCache rng).result id = none := rfl
    -- what the later loops keep of an entry present after the second loop
    have hkeep : ∀ t, (nodeGroupsLoop deps daemonsets predicateChecker ignoredTaints
        cloudProvider.NodeGroups st1).result id = some t → st4.result id = some t := by
      intro t ht
      have := unreadyNodesLoop_frame deps cloudProvider pfn ignoredTaints false id t nodes
        (pruneCache (nodeGroupsLoop deps daemonsets predicateChecker ignoredTaints
          cloudProvider.NodeGroups st1)) ht
      rw [h4] at this
      exact this
    refine ⟨?_, ?_⟩
    · rintro node ⟨pre, post, hsplit, hpre, hready, hb⟩
      rw [hsplit] at h1
      obtain ⟨ni, draw, t, hbuild, hsan, hres⟩ := readyNodesLoop_first deps cloudProvider pfn
        ignoredTaints id pre node post _ st1 hpre hready hb hinit h1
      exact ⟨ni, draw, t, hbuild, hsan,
        hkeep t (nodeGroupsLoop_frame deps ignoredTaints daemonsets predicateChecker _ st1 id t
          hres)⟩
    · intro hnoready henum
      have hst1 := readyNodesLoop_other deps cloudProvider pfn ignoredTaints false id nodes
        (initialState nodeInfoCache rng) hnoready
      rw [h1] at hst1
      simp only at hst1
      have hst1res : st1.result id = none := hst1.1.trans hinit
      have hst1cache : st1.nodeInfoCache.bind (fun cache => cache id) =
          nodeInfoCache.bind (fun cache => cache id) := hst1.2
      refine ⟨?_, ?_⟩
      · intro t hcache
        exact hkeep t (nodeGroupsLoop_cached deps ignoredTaints daemonsets predicateChecker id t
          cloudProvider.NodeGroups st1 hst1res (hst1cache.trans hcache) henum)
      · intro hcache
        refine ⟨?_, ?_⟩
        · rintro g ⟨gpre, gpost, hgsplit, hgpre, hgid⟩ hbuild
          obtain ⟨r, t, hr, hres⟩ := nodeGroupsLoop_built deps ignoredTaints daemonsets
            predicateChecker id gpre g gpost st1 hst1res (hst1cache.trans hcache) hgpre hgid
            hbuild
          rw [← hgsplit] at hres
          exact ⟨r, t, hr, hkeep t hres⟩
        · intro hfail
          have hst2 := nodeGroupsLoop_failed deps ignoredTaints daemonsets predicateChecker id
            cloudProvider.NodeGroups st1 hst1res (hst1cache.trans hcache) hfail
          have hst3 : (pruneCache (nodeGroupsLoop deps daemonsets predicateChecker
              ignoredTaints cloudProvider.NodeGroups st1)).result id = none := hst2
          refine ⟨?_, ?_⟩
          · rintro node ⟨pre, post, hsplit, hpre, hready, hb⟩
            rw [hsplit] at h4
            exact unreadyNodesLoop_first deps cloudProvider pfn ignoredTaints id pre node post _
              st4 hpre hready hb hst3 h4
          · intro hnounready
            have := unreadyNodesLoop_other deps cloudProvider pfn ignoredTaints false id nodes
              (pruneCache (nodeGroupsLoop deps daemonsets predicateChecker ignoredTaints
                cloudProvider.NodeGroups st1)) hnounready
            rw [h4] at this
            exact this.trans hst3

/-- C17, at a call with a ready node of "ng-1", a cache entry for "ng-1" and a provider
template for "ng-1": the call returns no error and the template of "ng-1" is the
sanitization of the node info built for the ready node, not the cache entry. -/
theorem GetNodeInfosForGroups_priority_witness :
    (GetNodeInfosForGroups exampleUtilsDeps [readyNode1] (cacheWith "ng-1" staleTemplate)
      exampleCloudProvider exampleListers [] examplePredicateChecker [] false
      exampleRng).err = none ∧
    (∃ podsForNodes, getPodsForNodes exampleListers = .ok podsForNodes ∧
      ∃ nodeInfo draw t,
        exampleUtilsDeps.BuildNodeInfoForNode readyNode1 podsForNodes = .ok nodeInfo ∧
        sanitizeNodeInfo nodeInfo "ng-1" [] draw = .ok t ∧
        (GetNodeInfosForGroups exampleUtilsDeps [readyNode1] (cacheWith "ng-1" staleTemplate)
          exampleCloudProvider exampleListers [] examplePredicateChecker [] false
          exampleRng).result "ng-1" = some t) ∧
    ((GetNodeInfosForGroups exampleUtilsDeps [readyNode1] (cacheWith "ng-1" staleTemplate)
      exampleCloudProvider exampleListers [] examplePredicateChecker [] false
      exampleRng).result "ng-1").map (fun t => t.node.name) =
        some "template-node-for-ng-1-1" := by
  refine ⟨by decide, ?_, by decide⟩
  obtain ⟨podsForNodes, hl, h⟩ := GetNodeInfosForGroups_priority exampleUtilsDeps [readyNode1]
    (cacheWith "ng-1" staleTemplate) exampleCloudProvider exampleListers []
    examplePredicateChecker [] exampleRng (by decide)
  exact ⟨podsForNodes, hl, (h "ng-1").1 readyNode1
    ⟨[], [], rfl, fun b hb => (List.not_mem_nil b hb).elim, by decide, ⟨_, rfl, rfl⟩⟩⟩

/-! ## Lemmas on the use of the random generator -/

theorem Rng.drop_zero (r : Rng) : Rng.drop 0 r = r := rfl

theorem Rng.drop_drop (a b : Nat) (r : Rng) : Rng.drop a (Rng.drop b r) = Rng.drop (b + a) r := by
  funext i
  simp only [Rng.drop]
  congr 1
  omega

theorem Rng.int63_eq_drop (r : Rng) : r.Int63.2 = Rng.drop 1 r := rfl

theorem Rng.drop_int63 (k : Nat) (r : Rng) : Rng.drop k r.Int63.2 = Rng.drop (k + 1) r := rfl

theorem Rng.int63_drop (k : Nat) (r : Rng) : (Rng.drop k r).Int63.2 = Rng.drop (k + 1) r := by
  funext i
  simp only [Rng.drop, Rng.Int63]
  congr 1
  omega

theorem Rng.AgreeUpTo.head {k : Nat} {r r' : Rng} (h : Rng.AgreeUpTo (k + 1) r r') :
    r'.Int63.1 = r.Int63.1 := h 0 (Nat.succ_pos k)

theorem Rng.AgreeUpTo.tail {k : Nat} {r r' : Rng} (h : Rng.AgreeUpTo (k + 1) r r') :
    Rng.AgreeUpTo k r.Int63.2 r'.Int63.2 := fun i hi => h (i + 1) (Nat.succ_lt_succ hi)

theorem Rng.AgreeUpTo.mono {k l : Nat} {r r' : Rng} (h : Rng.AgreeUpTo l r r') (hkl : k ≤ l) :
    Rng.AgreeUpTo k r r' := fun i hi => h i (Nat.lt_of_lt_of_le hi hkl)

theorem Rng.AgreeUpTo.drop {k l : Nat} {r r' : Rng} (h : Rng.AgreeUpTo (k + l) r r') :
    Rng.AgreeUpTo l (Rng.drop k r) (Rng.drop k r') := fun i hi => h (i + k) (by omega)

/-- Two steps that read the generator through calls only make a step that does. -/
theorem StepLocal.seq {F G : SynthStep} (hF : StepLocal F) (hG : StepLocal G) :
    StepLocal (seqStep F G) := by
  intro st
  obtain ⟨kF, hF1, hF2⟩ := hF st
  rcases hres : F st with ⟨st1, _ | e⟩
  · obtain ⟨kG, hG1, hG2⟩ := hG st1
    rw [hres] at hF1 hF2
    simp only at hF1 hF2
    refine ⟨kF + kG, ?_, ?_⟩
    · simp only [seqStep, hres]
      rw [hG1, hF1, Rng.drop_drop]
    · intro r' hagree
      have h1 := hF2 r' (hagree.mono (Nat.le_add_right _ _))
      have hagree' : Rng.AgreeUpTo kG st1.rng (Rng.drop kF r') := by
        rw [hF1]
        exact hagree.drop
      have h2 := hG2 (Rng.drop kF r') hagree'
      simp only [seqStep, h1, hres, h2, Rng.drop_drop]
  · rw [hres] at hF1 hF2
    simp only at hF1 hF2
    refine ⟨kF, ?_, ?_⟩
    · simp only [seqStep, hres]
      exact hF1
    · intro r' hagree
      have h1 := hF2 r' hagree
      simp only [seqStep, h1, hres]

/-- The loop over the daemon sets reads the generator through calls only. -/
theorem daemonSetLoop_local {S : Type} (predicateChecker : PredicateChecker S) (snapshot : S)
    (nodeName : String) :
    ∀ (daemonsets : List DaemonSet) (result : List Pod) (r : Rng),
      ∃ k, (daemonSetLoop predicateChecker snapshot nodeName daemonsets result r).2 =
          Rng.drop k r ∧
        ∀ r', Rng.AgreeUpTo k r r' →
          daemonSetLoop predicateChecker snapshot nodeName daemonsets result r' =
            ((daemonSetLoop predicateChecker snapshot nodeName daemonsets result r).1,
              Rng.drop k r')
  | [], result, r => ⟨0, rfl, fun r' _ => rfl⟩
  | ds :: rest, result, r => by
    cases hc : predicateChecker.CheckPredicates snapshot (newPod ds nodeName r.Int63.1)
        nodeName with
    | none =>
      obtain ⟨k, hk1, hk2⟩ := daemonSetLoop_local predicateChecker snapshot nodeName rest
        (result ++ [newPod ds nodeName r.Int63.1]) r.Int63.2
      refine ⟨k + 1, ?_, ?_⟩
      · simp only [daemonSetLoop, hc]
        rw [hk1, Rng.drop_int63]
      · intro r' hagree
        have hhead := hagree.head
        have := hk2 r'.Int63.2 hagree.tail
        simp only [daemonSetLoop, hhead, hc]
        rw [this, Rng.drop_int63]
    | some e =>
      by_cases he : e.errorType = PredicateErrorType.NotSchedulablePredicateError
      · obtain ⟨k, hk1, hk2⟩ := daemonSetLoop_local predicateChecker snapshot nodeName rest
          result r.Int63.2
        refine ⟨k + 1, ?_, ?_⟩
        · simp only [daemonSetLoop, hc, he, if_true]
          rw [hk1, Rng.drop_int63]
        · intro r' hagree
          have hhead := hagree.head
          have := hk2 r'.Int63.2 hagree.tail
          simp only [daemonSetLoop, hhead, hc, he, if_true]
          rw [this, Rng.drop_int63]
      · refine ⟨1, ?_, ?_⟩
        · simp only [daemonSetLoop, hc, he, if_false]
          rfl
        · intro r' hagree
          have hhead := hagree.head
          simp only [daemonSetLoop, hhead, hc, he, if_false]
          rfl

/-- The synthesis from a provider template reads the generator through calls only. -/
theorem GetNodeInfoFromTemplate_local {S : Type} (deps : UtilsDeps) (g : NodeGroup)
    (daemonsets : List DaemonSet) (predicateChecker : PredicateChecker S)
    (ignoredTaints : List String) (r : Rng) :
    ∃ k, (GetNodeInfoFromTemplate deps g daemonsets predicateChecker ignoredTaints r).2 =
        Rng.drop k r ∧
      ∀ r', Rng.AgreeUpTo k r r' →
        GetNodeInfoFromTemplate deps g daemonsets predicateChecker ignoredTaints r' =
          ((GetNodeInfoFromTemplate deps g daemonsets predicateChecker ignoredTaints r).1,
            Rng.drop k r') := by
  cases hbase : g.templateNodeInfo with
  | error e =>
    exact ⟨0, by simp [GetNodeInfoFromTemplate, hbase, Rng.drop_zero],
      fun r' _ => by simp [GetNodeInfoFromTemplate, hbase, Rng.drop_zero]⟩
  | ok baseNodeInfo =>
    cases hsnap : predicateChecker.AddNodeWithPods baseNodeInfo.node baseNodeInfo.pods with
    | error e =>
      exact ⟨0, by simp [GetNodeInfoFromTemplate, hbase, GetDaemonSetPodsForNode, hsnap,
          Rng.drop_zero],
        fun r' _ => by simp [GetNodeInfoFromTemplate, hbase, GetDaemonSetPodsForNode, hsnap,
          Rng.drop_zero]⟩
    | ok snapshot =>
      obtain ⟨k, hk1, hk2⟩ := daemonSetLoop_local predicateChecker snapshot
        baseNodeInfo.node.name daemonsets [] r
      rcases hloop : daemonSetLoop predicateChecker snapshot baseNodeInfo.node.name daemonsets
        [] r with ⟨e | pods, r1⟩
      · rw [hloop] at hk1 hk2
        simp only at hk1 hk2
        refine ⟨k, ?_, ?_⟩
        · simp only [GetNodeInfoFromTemplate, hbase, GetDaemonSetPodsForNode, hsnap, hloop, hk1]
        · intro r' hagree
          simp only [GetNodeInfoFromTemplate, hbase, GetDaemonSetPodsForNode, hsnap, hloop,
            hk2 r' hagree]
      · rw [hloop] at hk1 hk2
        simp only at hk1 hk2
        refine ⟨k + 1, ?_, ?_⟩
        · simp only [GetNodeInfoFromTemplate, hbase, GetDaemonSetPodsForNode, hsnap, hloop,
            sanitizeNodeInfo_eq]
          rw [hk1, Rng.int63_drop]
        · intro r' hagree
          have hdraw : (Rng.drop k r').Int63.1 = r1.Int63.1 := by
            rw [hk1]
            show r' (0 + k) = r (0 + k)
            exact hagree (0 + k) (by omega)
          simp only [GetNodeInfoFromTemplate, hbase, GetDaemonSetPodsForNode, hsnap, hloop,
            hk2 r' (hagree.mono (Nat.le_add_right _ _)), sanitizeNodeInfo_eq, hdraw]
          rw [Rng.int63_drop]

section Locality

variable {S : Type} (deps : UtilsDeps) (cloudProvider : CloudProvider)
  (podsForNodes : String → List Pod) (ignoredTaints : List String)
  (daemonsets : List DaemonSet) (predicateChecker : PredicateChecker S)

/-- The closure `processNode` reads the generator through calls only. -/
theorem processNodeFor_local (force : Bool) (node : Node) (st : SynthState) :
    ∃ k, (processNodeFor deps cloudProvider podsForNodes ignoredTaints force node st).2.rng =
        Rng.drop k st.rng ∧
      ∀ r', Rng.AgreeUpTo k st.rng r' →
        processNodeFor deps cloudProvider podsForNodes ignoredTaints force node
            { st with rng := r' } =
          ((processNodeFor deps cloudProvider podsForNodes ignoredTaints force node st).1,
            { (processNodeFor deps cloudProvider podsForNodes ignoredTaints force node st).2
                with rng := Rng.drop k r' }) := by
  cases force
  · simp only [processNodeFor, Bool.false_eq_true, if_false]
    rcases processNode_cases deps cloudProvider podsForNodes ignoredTaints node st with
      ⟨e, hg, hp⟩ | ⟨hg, hp⟩ | ⟨g, hg, hsome, hp⟩ | ⟨g, e, hg, hnone, hb, hp⟩ |
      ⟨g, ni, t, hg, hnone, hb, hsan, hp⟩
    · refine ⟨0, by rw [hp]; rfl, fun r' _ => ?_⟩
      rw [hp]
      simp [processNode, hg, Rng.drop_zero]
    · refine ⟨0, by rw [hp]; rfl, fun r' _ => ?_⟩
      rw [hp]
      simp [processNode, hg, Rng.drop_zero]
    · refine ⟨0, by rw [hp]; rfl, fun r' _ => ?_⟩
      rw [hp]
      cases hr : st.result g.id with
      | none => exact absurd hr hsome
      | some t0 => simp [processNode, hg, hr, Rng.drop_zero]
    · refine ⟨0, by rw [hp]; rfl, fun r' _ => ?_⟩
      rw [hp]
      simp [processNode, hg, hnone, hb, Rng.drop_zero]
    · refine ⟨1, by rw [hp]; rfl, fun r' hagree => ?_⟩
      rw [hp]
      have hhead : r'.Int63.1 = st.rng.Int63.1 := hagree 0 (by decide)
      rw [sanitizeNodeInfo_eq] at hsan
      cases hsan
      simp only [processNode, hg, hnone, hb, sanitizeNodeInfo_eq, hhead, Option.isNone_none,
        if_true]
      rfl
  · exact ⟨0, rfl, fun r' _ => rfl⟩

theorem cacheAdded_rng (added : Bool) (id : String) (st : SynthState) (r : Rng) :
    cacheAdded added id { st with rng := r } = { cacheAdded added id st with rng := r } := by
  obtain ⟨result, seenGroups, nodeInfoCache, rng⟩ := st
  cases added with
  | false => rfl
  | true =>
    cases nodeInfoCache with
    | none => rfl
    | some cache =>
      cases hres : result id with
      | none => simp [cacheAdded, hres]
      | some nodeInfo => simp [cacheAdded, hres, deepCopyNodeInfo_eq]

/-- One iteration of the first loop reads the generator through calls only. -/
theorem readyStep_local (force : Bool) (node : Node) :
    StepLocal (readyStep (processNodeFor deps cloudProvider podsForNodes ignoredTaints force)
      node) := by
  intro st
  by_cases hready : IsNodeReadyAndSchedulable node = true
  · obtain ⟨k, hk1, hk2⟩ := processNodeFor_local deps cloudProvider podsForNodes ignoredTaints
      force node st
    refine ⟨k, ?_, ?_⟩
    · simp only [readyStep, hready, Bool.not_true, Bool.false_eq_true, if_false]
      rcases hp : processNodeFor deps cloudProvider podsForNodes ignoredTaints force node st
        with ⟨⟨added, id, _ | e⟩, st1⟩
      · rw [hp] at hk1
        simp only [(cacheAdded_fields _ _ _).2.2]
        exact hk1
      · rw [hp] at hk1
        exact hk1
    · intro r' hagree
      have h := hk2 r' hagree
      simp only [readyStep, hready, Bool.not_true, Bool.false_eq_true, if_false, h]
      rcases hp : processNodeFor deps cloudProvider podsForNodes ignoredTaints force node st
        with ⟨⟨added, id, _ | e⟩, st1⟩
      · simp only [cacheAdded_rng]
      · rfl
  · simp only [Bool.not_eq_true] at hready
    exact ⟨0, by simp [readyStep, hready, Rng.drop_zero],
      fun r' _ => by simp [readyStep, hready, Rng.drop_zero]⟩

theorem readyNodesLoop_cons_seq (process : Node → SynthState → ProcessResult × SynthState)
    (node : Node) (rest : List Node) :
    readyNodesLoop process (node :: rest) =
      seqStep (readyStep process node) (readyNodesLoop process rest) := by
  funext st
  simp only [readyNodesLoop, seqStep, readyStep]
  by_cases hready : IsNodeReadyAndSchedulable node = true
  · simp only [hready, Bool.not_true, Bool.false_eq_true, if_false]
    rcases hp : process node st with ⟨⟨added, id, _ | e⟩, st1⟩ <;> rfl
  · simp only [Bool.not_eq_true] at hready
    simp only [hready, Bool.not_false, if_true]

/-- The first loop reads the generator through calls only. -/
theorem readyNodesLoop_local (force : Bool) :
    ∀ nodes : List Node,
      StepLocal (readyNodesLoop (processNodeFor deps cloudProvider podsForNodes ignoredTaints
        force) nodes)
  | [] => fun st => ⟨0, rfl, fun r' _ => rfl⟩
  | node :: rest => by
    rw [readyNodesLoop_cons_seq]
    exact (readyStep_local deps cloudProvider podsForNodes ignoredTaints force node).seq
      (readyNodesLoop_local force rest)

/-- One iteration of the second loop reads the generator through calls only. -/
theorem nodeGroupStep_local (g : NodeGroup) :
    StepLocal (fun st =>
      (nodeGroupStep deps daemonsets predicateChecker ignoredTaints st g, none)) := by
  intro st
  rcases nodeGroupStep_cases deps ignoredTaints daemonsets predicateChecker st g with
    ⟨hsome, hs⟩ | ⟨t, hnone, hc, hs⟩ | ⟨e, r, hnone, hc, hb, hs⟩ | ⟨t, r, hnone, hc, hb, hs⟩
  · refine ⟨0, by simp only [hs]; rfl, fun r' _ => ?_⟩
    rcases nodeGroupStep_cases deps ignoredTaints daemonsets predicateChecker
        { st with rng := r' } g with
      ⟨_, hs'⟩ | ⟨t', hnone', _, _⟩ | ⟨e', r1, hnone', _, _, _⟩ | ⟨t', r1, hnone', _, _, _⟩
    · simp only [hs, hs']; rfl
    · exact absurd hnone' hsome
    · exact absurd hnone' hsome
    · exact absurd hnone' hsome
  · refine ⟨0, by simp only [hs]; rfl, fun r' _ => ?_⟩
    rcases nodeGroupStep_cases deps ignoredTaints daemonsets predicateChecker
        { st with rng := r' } g with
      ⟨hsome', _⟩ | ⟨t', _, hc', hs'⟩ | ⟨e', r1, _, hc', _, _⟩ | ⟨t', r1, _, hc', _, _⟩
    · exact absurd hnone hsome'
    · simp only at hc'
      rw [hc] at hc'
      cases hc'
      simp only [hs, hs']; rfl
    · simp only at hc'
      rw [hc] at hc'
      cases hc'
    · simp only at hc'
      rw [hc] at hc'
      cases hc'
  · obtain ⟨k, hk1, hk2⟩ := GetNodeInfoFromTemplate_local deps g daemonsets predicateChecker
      ignoredTaints st.rng
    rw [hb] at hk1 hk2
    simp only at hk1 hk2
    refine ⟨k, by simp only [hs]; exact hk1, fun r' hagree => ?_⟩
    rcases nodeGroupStep_cases deps ignoredTaints daemonsets predicateChecker
        { st with rng := r' } g with
      ⟨hsome', _⟩ | ⟨t', _, hc', _⟩ | ⟨e', r1, _, _, hb', hs'⟩ | ⟨t', r1, _, _, hb', _⟩
    · exact absurd hnone hsome'
    · simp only at hc'
      rw [hc] at hc'
      cases hc'
    · simp only at hb'
      rw [hk2 r' hagree] at hb'
      cases hb'
      simp only [hs, hs']
    · simp only at hb'
      rw [hk2 r' hagree] at hb'
      cases hb'
  · obtain ⟨k, hk1, hk2⟩ := GetNodeInfoFromTemplate_local deps g daemonsets predicateChecker
      ignoredTaints st.rng
    rw [hb] at hk1 hk2
    simp only at hk1 hk2
    refine ⟨k, by simp only [hs]; exact hk1, fun r' hagree => ?_⟩
    rcases nodeGroupStep_cases deps ignoredTaints daemonsets predicateChecker
        { st with rng := r' } g with
      ⟨hsome', _⟩ | ⟨t', _, hc', _⟩ | ⟨e', r1, _, _, hb', _⟩ | ⟨t', r1, _, _, hb', hs'⟩
    · exact absurd hnone hsome'
    · simp only at hc'
      rw [hc] at hc'
      cases hc'
    · simp only at hb'
      rw [hk2 r' hagree] at hb'
      cases hb'
    · simp only at hb'
      rw [hk2 r' hagree] at hb'
      cases hb'
      simp only [hs, hs']

/-- The second loop reads the generator through calls only. -/
theorem nodeGroupsLoop_local :
    ∀ nodeGroups : List NodeGroup,
      StepLocal (fun st =>
        (nodeGroupsLoop deps daemonsets predicateChecker ignoredTaints nodeGroups st, none))
  | [] => fun st => ⟨0, rfl, fun r' _ => rfl⟩
  | g :: rest => by
    have hseq : (fun st => (nodeGroupsLoop deps daemonsets predicateChecker ignoredTaints
          (g :: rest) st, (none : Option AutoscalerError))) =
        seqStep (fun st => (nodeGroupStep deps daemonsets predicateChecker ignoredTaints st g,
            none))
          (fun st => (nodeGroupsLoop deps daemonsets predicateChecker ignoredTaints rest st,
            none)) := by
      funext st
      rfl
    rw [hseq]
    exact (nodeGroupStep_local deps ignoredTaints daemonsets predicateChecker g).seq
      (nodeGroupsLoop_local rest)

/-! ### What the steps do not read -/

theorem Rng.skip_zero (k : Nat) (r : Rng) : Rng.skip k 0 r = r := by
  funext i
  simp [Rng.skip]

theorem Rng.skip_agree (k d : Nat) (r : Rng) : Rng.AgreeUpTo k r (Rng.skip k d r) := by
  intro i hi
  simp [Rng.skip, hi]

theorem Rng.drop_skip (k d : Nat) (r : Rng) : Rng.drop k (Rng.skip k d r) = Rng.drop (k + d) r := by
  funext i
  have h : ¬ i + k < k := by omega
  simp only [Rng.drop, Rng.skip, h, if_false]
  congr 1
  omega

/-- The closure `processNode` reads neither `seenGroups` nor the cache. -/
theorem processNodeFor_unread (force : Bool) (node : Node) (st : SynthState)
    (l : List String) (c : Option NodeInfoMap) :
    processNodeFor deps cloudProvider podsForNodes ignoredTaints force node
        { st with seenGroups := l, nodeInfoCache := c } =
      ((processNodeFor deps cloudProvider podsForNodes ignoredTaints force node st).1,
        { (processNodeFor deps cloudProvider podsForNodes ignoredTaints force node st).2
            with seenGroups := l, nodeInfoCache := c }) := by
  cases force
  · simp only [processNodeFor, Bool.false_eq_true, if_false]
    rcases processNode_cases deps cloudProvider podsForNodes ignoredTaints node st with
      ⟨e, hg, hp⟩ | ⟨hg, hp⟩ | ⟨g, hg, hsome, hp⟩ | ⟨g, e, hg, hnone, hb, hp⟩ |
      ⟨g, ni, t, hg, hnone, hb, hsan, hp⟩
    · rw [hp]
      simp [processNode, hg]
    · rw [hp]
      simp [processNode, hg]
    · rw [hp]
      cases hr : st.result g.id with
      | none => exact absurd hr hsome
      | some t0 => simp [processNode, hg, hr]
    · rw [hp]
      simp [processNode, hg, hnone, hb]
    · rw [hp]
      rw [sanitizeNodeInfo_eq] at hsan
      cases hsan
      simp only [processNode, hg, hnone, hb, sanitizeNodeInfo_eq, Option.isNone_none, if_true]
  · rfl

/-- The last loop reads neither `seenGroups` nor the cache. -/
theorem unreadyNodesLoop_unread (force : Bool) (l : List String) (c : Option NodeInfoMap) :
    ∀ (nodes : List Node) (st : SynthState),
      unreadyNodesLoop (processNodeFor deps cloudProvider podsForNodes ignoredTaints force)
          cloudProvider nodes { st with seenGroups := l, nodeInfoCache := c } =
        ({ (unreadyNodesLoop (processNodeFor deps cloudProvider podsForNodes ignoredTaints force)
              cloudProvider nodes st).1 with seenGroups := l, nodeInfoCache := c },
          (unreadyNodesLoop (processNodeFor deps cloudProvider podsForNodes ignoredTaints force)
              cloudProvider nodes st).2)
  | [], st => rfl
  | node :: rest, st => by
    simp only [unreadyNodesLoop]
    by_cases hready : IsNodeReadyAndSchedulable node = true
    · simp only [hready, Bool.not_true, Bool.false_eq_true, if_false]
      exact unreadyNodesLoop_unread force l c rest st
    · simp only [Bool.not_eq_true] at hready
      simp only [hready, Bool.not_false, if_true, processNodeFor_unread]
      rcases hp : processNodeFor deps cloudProvider podsForNodes ignoredTaints force node st
        with ⟨⟨added, id, _ | e⟩, st1⟩
      · cases hg : cloudProvider.NodeGroupForNode node with
        | error err => rfl
        | ok og => exact unreadyNodesLoop_unread force l c rest st1
      · rfl

/-- One iteration of the second loop reads `seenGroups` to add to it only. -/
theorem nodeGroupStep_seen (g : NodeGroup) (st : SynthState) (l : List String) :
    nodeGroupStep deps daemonsets predicateChecker ignoredTaints { st with seenGroups := l } g =
      { nodeGroupStep deps daemonsets predicateChecker ignoredTaints st g
          with seenGroups := g.id :: l } := by
  cases hr : st.result g.id with
  | some t0 => simp [nodeGroupStep, hr]
  | none =>
    cases hc : cachedCopy st.nodeInfoCache g.id with
    | some t => simp [nodeGroupStep, hr, hc]
    | none =>
      rcases hb : GetNodeInfoFromTemplate deps g daemonsets predicateChecker ignoredTaints
        st.rng with ⟨e | t, r⟩ <;> simp [nodeGroupStep, hr, hc, hb]

/-- The second loop reads `seenGroups` to add to it only. -/
theorem nodeGroupsLoop_seen :
    ∀ (nodeGroups : List NodeGroup) (st : SynthState) (l : List String),
      ∃ l', nodeGroupsLoop deps daemonsets predicateChecker ignoredTaints nodeGroups
          { st with seenGroups := l } =
        { nodeGroupsLoop deps daemonsets predicateChecker ignoredTaints nodeGroups st
            with seenGroups := l' }
  | [], st, l => ⟨l, rfl⟩
  | g :: rest, st, l => by
    simp only [nodeGroupsLoop, List.foldl_cons]
    rw [nodeGroupStep_seen]
    exact nodeGroupsLoop_seen rest _ (g.id :: l)

/-! ### A node group whose template cannot be built -/

/-- While the result has no template of `id`, the cache has no entry of `id`: the first
loop and the second loop keep this. -/
theorem cacheAdded_uncached (added : Bool) (id' id : String) (st : SynthState)
    (h : st.result id = none → st.nodeInfoCache.bind (fun cache => cache id) = none) :
    (cacheAdded added id' st).result id = none →
      (cacheAdded added id' st).nodeInfoCache.bind (fun cache => cache id) = none := by
  rw [(cacheAdded_fields added id' st).1]
  intro hres
  by_cases hid : id' = id
  · subst hid
    obtain ⟨result, seenGroups, nodeInfoCache, rng⟩ := st
    simp only at hres h
    cases added with
    | false => exact h hres
    | true =>
      cases nodeInfoCache with
      | none => rfl
      | some cache =>
        have hst : cacheAdded true id'
            { result := result, seenGroups := seenGroups, nodeInfoCache := some cache,
              rng := rng } =
            { result := result, seenGroups := seenGroups, nodeInfoCache := some cache,
              rng := rng } := by
          simp [cacheAdded, hres]
        rw [hst]
        exact h hres
  · rw [cacheAdded_other added id' id st hid]
    exact h hres

theorem readyNodesLoop_uncached (force : Bool) (id : String) (nodes : List Node)
    (st : SynthState)
    (h : st.result id = none → st.nodeInfoCache.bind (fun cache => cache id) = none) :
    (readyNodesLoop (processNodeFor deps cloudProvider podsForNodes ignoredTaints force)
        nodes st).1.result id = none →
      (readyNodesLoop (processNodeFor deps cloudProvider podsForNodes ignoredTaints force)
        nodes st).1.nodeInfoCache.bind (fun cache => cache id) = none :=
  readyNodesLoop_invariant _
    (fun st' => st'.result id = none → st'.nodeInfoCache.bind (fun cache => cache id) = none)
    (fun node st' h' => by
      show (processNodeFor deps cloudProvider podsForNodes ignoredTaints force node
          st').2.result id = none →
        (processNodeFor deps cloudProvider podsForNodes ignoredTaints force node
          st').2.nodeInfoCache.bind (fun cache => cache id) = none
      rw [(processNodeFor_cache deps cloudProvider podsForNodes ignoredTaints force node st').2]
      intro hres
      apply h'
      cases hr : st'.result id with
      | none => rfl
      | some t =>
        rw [processNodeFor_frame deps cloudProvider podsForNodes ignoredTaints force node st' id
          t hr] at hres
        cases hres)
    (fun node st' h' => cacheAdded_uncached _ _ id _ h')
    nodes st h

theorem nodeGroupsLoop_uncached (id : String) (nodeGroups : List NodeGroup) (st : SynthState)
    (h : st.result id = none → st.nodeInfoCache.bind (fun cache => cache id) = none) :
    (nodeGroupsLoop deps daemonsets predicateChecker ignoredTaints nodeGroups st).result id =
        none →
      (nodeGroupsLoop deps daemonsets predicateChecker ignoredTaints nodeGroups
        st).nodeInfoCache.bind (fun cache => cache id) = none :=
  nodeGroupsLoop_invariant deps ignoredTaints daemonsets predicateChecker
    (fun st' => st'.result id = none → st'.nodeInfoCache.bind (fun cache => cache id) = none)
    (fun st' g h' => by
      show (nodeGroupStep deps daemonsets predicateChecker ignoredTaints st' g).result id =
          none →
        (nodeGroupStep deps daemonsets predicateChecker ignoredTaints
          st' g).nodeInfoCache.bind (fun cache => cache id) = none
      rw [nodeGroupStep_cache]
      intro hres
      apply h'
      cases hr : st'.result id with
      | none => rfl
      | some t =>
        rw [nodeGroupStep_frame deps ignoredTaints daemonsets predicateChecker st' g id t hr]
          at hres
        cases hres)
    nodeGroups st h

/-- The iteration of the second loop for a node group whose template cannot be built, from
a state whose cache has an entry of the group only if the result has one: the id is added
to `seenGroups` and some calls of the generator are made, nothing else; no call is made
when it is `TemplateNodeInfo` that fails. -/
theorem nodeGroupStep_failing (g : NodeGroup) (st : SynthState)
    (hfail : ∀ r, ∃ e,
      (GetNodeInfoFromTemplate deps g daemonsets predicateChecker ignoredTaints r).1 = .error e)
    (h : st.result g.id = none → st.nodeInfoCache.bind (fun cache => cache g.id) = none) :
    ∃ d, ((∃ e, g.templateNodeInfo = .error e) → d = 0) ∧
      nodeGroupStep deps daemonsets predicateChecker ignoredTaints st g =
        { st with seenGroups := g.id :: st.seenGroups, rng := Rng.drop d st.rng } := by
  rcases nodeGroupStep_cases deps ignoredTaints daemonsets predicateChecker st g with
    ⟨_, hs⟩ | ⟨t, hnone, hc, _⟩ | ⟨e, r, _, _, hb, hs⟩ | ⟨t, r, _, _, hb, _⟩
  · exact ⟨0, fun _ => rfl, hs⟩
  · rw [h hnone] at hc
    cases hc
  · cases ht : g.templateNodeInfo with
    | error e0 =>
      have hr : r = st.rng := by
        simp only [GetNodeInfoFromTemplate, ht] at hb
        exact (congrArg Prod.snd hb).symm
      exact ⟨0, fun _ => rfl, by rw [hs, hr]; rfl⟩
    | ok base =>
      obtain ⟨d, hd, _⟩ := GetNodeInfoFromTemplate_local deps g daemonsets predicateChecker
        ignoredTaints st.rng
      rw [hb] at hd
      simp only at hd
      refine ⟨d, fun h0 => ?_, by rw [hs, hd]⟩
      obtain ⟨e0, he0⟩ := h0
      cases he0
  · obtain ⟨e, he⟩ := hfail st.rng
    rw [hb] at he
    cases he

/-- The closure `processNode` reads the cloud provider through `NodeGroupForNode` only. -/
theorem processNodeFor_provider (cloudProvider' : CloudProvider)
    (h : cloudProvider'.NodeGroupForNode = cloudProvider.NodeGroupForNode) (force : Bool) :
    processNodeFor deps cloudProvider' podsForNodes ignoredTaints force =
      processNodeFor deps cloudProvider podsForNodes ignoredTaints force := by
  funext node st
  cases force
  · simp only [processNodeFor, Bool.false_eq_true, if_false, processNode, h]
  · rfl

/-- The last loop reads the cloud provider through `NodeGroupForNode` only. -/
theorem unreadyNodesLoop_provider (cloudProvider' : CloudProvider)
    (h : cloudProvider'.NodeGroupForNode = cloudProvider.NodeGroupForNode)
    (process : Node → SynthState → ProcessResult × SynthState) :
    ∀ (nodes : List Node) (st : SynthState),
      unreadyNodesLoop process cloudProvider' nodes st =
        unreadyNodesLoop process cloudProvider nodes st
  | [], _ => rfl
  | node :: rest, st => by
    simp only [unreadyNodesLoop, h, unreadyNodesLoop_provider cloudProvider' h process rest]

/-- The values `GetNodeInfosForGroups` returns, from its loops. -/
theorem GetNodeInfosForGroups_loops (nodes : List Node) (nodeInfoCache : Option NodeInfoMap)
    (listers : ListerRegistry) (force : Bool) (rng : Rng)
    (hl : getPodsForNodes listers = .ok podsForNodes) :
    (GetNodeInfosForGroups deps nodes nodeInfoCache cloudProvider listers daemonsets
        predicateChecker ignoredTaints force rng).err =
      (synthesisLoops deps cloudProvider podsForNodes daemonsets predicateChecker ignoredTaints
        force nodes (initialState nodeInfoCache rng)).2 ∧
    (GetNodeInfosForGroups deps nodes nodeInfoCache cloudProvider listers daemonsets
        predicateChecker ignoredTaints force rng).result =
      match (synthesisLoops deps cloudProvider podsForNodes daemonsets predicateChecker
        ignoredTaints force nodes (initialState nodeInfoCache rng)).2 with
      | none => (synthesisLoops deps cloudProvider podsForNodes daemonsets predicateChecker
          ignoredTaints force nodes (initialState nodeInfoCache rng)).1.result
      | some _ => NodeInfoMap.empty := by
  rcases GetNodeInfosForGroups_cases deps nodes nodeInfoCache cloudProvider listers daemonsets
      predicateChecker ignoredTaints force rng with
    ⟨e, hl', _⟩ | ⟨pfn, st1, e, hl', h1, hG⟩ | ⟨pfn, st1, st4, e, hl', h1, h4, hG⟩ |
    ⟨pfn, st1, st4, hl', h1, h4, hG⟩
  · rw [hl] at hl'
    cases hl'
  · rw [hl] at hl'
    cases hl'
    rw [hG]
    simp [synthesisLoops, seqStep, h1]
  · rw [hl] at hl'
    cases hl'
    rw [hG]
    simp [synthesisLoops, seqStep, h1, h4]
  · rw [hl] at hl'
    cases hl'
    rw [hG]
    simp [synthesisLoops, seqStep, h1, h4]

/-- The loops of `GetNodeInfosForGroups` with and without a node group whose template
cannot be built: the same error and the same result, when the generator of the run without
the group skips the calls made for the group. -/
theorem synthesisLoops_isolation (force : Bool) (nodes : List Node)
    (nodeInfoCache : Option NodeInfoMap) (rng : Rng) (cloudProvider' : CloudProvider)
    (gpre gpost : List NodeGroup) (g : NodeGroup)
    (hprovider : cloudProvider'.NodeGroupForNode = cloudProvider.NodeGroupForNode)
    (hgroups : cloudProvider.NodeGroups = gpre ++ g :: gpost)
    (hgroups' : cloudProvider'.NodeGroups = gpre ++ gpost)
    (hcache : nodeInfoCache.bind (fun cache => cache g.id) = none)
    (hfail : ∀ r, ∃ e,
      (GetNodeInfoFromTemplate deps g daemonsets predicateChecker ignoredTaints r).1 =
        .error e) :
    ∃ k d, ((∃ e, g.templateNodeInfo = .error e) → d = 0) ∧
      (synthesisLoops deps cloudProvider' podsForNodes daemonsets predicateChecker
          ignoredTaints force nodes (initialState nodeInfoCache (Rng.skip k d rng))).2 =
        (synthesisLoops deps cloudProvider podsForNodes daemonsets predicateChecker
          ignoredTaints force nodes (initialState nodeInfoCache rng)).2 ∧
      (synthesisLoops deps cloudProvider' podsForNodes daemonsets predicateChecker
          ignoredTaints force nodes (initialState nodeInfoCache (Rng.skip k d rng))).1.result =
        (synthesisLoops deps cloudProvider podsForNodes daemonsets predicateChecker
          ignoredTaints force nodes (initialState nodeInfoCache rng)).1.result := by
  simp only [synthesisLoops,
    processNodeFor_provider deps cloudProvider podsForNodes ignoredTaints cloudProvider'
      hprovider,
    unreadyNodesLoop_provider cloudProvider cloudProvider' hprovider, hgroups, hgroups', seqStep]
  obtain ⟨k1, hk1, hloc1⟩ := readyNodesLoop_local deps cloudProvider podsForNodes ignoredTaints
    force nodes (initialState nodeInfoCache rng)
  have hinv1 := readyNodesLoop_uncached deps cloudProvider podsForNodes ignoredTaints force g.id
    nodes (initialState nodeInfoCache rng) (fun _ => hcache)
  rcases h1 : readyNodesLoop (processNodeFor deps cloudProvider podsForNodes ignoredTaints
    force) nodes (initialState nodeInfoCache rng) with ⟨s1, _ | e⟩
  · rw [h1] at hk1 hloc1 hinv1
    simp only at hk1 hloc1 hinv1
    obtain ⟨k2, hk2, hloc2⟩ := nodeGroupsLoop_local deps ignoredTaints daemonsets
      predicateChecker gpre s1
    simp only at hk2 hloc2
    have hinv2 := nodeGroupsLoop_uncached deps ignoredTaints daemonsets predicateChecker g.id
      gpre s1 hinv1
    obtain ⟨d, hzero, hd⟩ := nodeGroupStep_failing deps ignoredTaints daemonsets
      predicateChecker g _ hfail hinv2
    refine ⟨k1 + k2, d, hzero, ?_⟩
    have hagree := Rng.skip_agree (k1 + k2) d rng
    have hB1 : readyNodesLoop (processNodeFor deps cloudProvider podsForNodes ignoredTaints
          force) nodes (initialState nodeInfoCache (Rng.skip (k1 + k2) d rng)) =
        ({ s1 with rng := Rng.drop k1 (Rng.skip (k1 + k2) d rng) }, none) :=
      hloc1 (Rng.skip (k1 + k2) d rng) (hagree.mono (Nat.le_add_right _ _))
    have hagree2 : Rng.AgreeUpTo k2 s1.rng (Rng.drop k1 (Rng.skip (k1 + k2) d rng)) := by
      rw [hk1]
      exact hagree.drop
    have hrng : Rng.drop k2 (Rng.drop k1 (Rng.skip (k1 + k2) d rng)) =
        Rng.drop d (nodeGroupsLoop deps daemonsets predicateChecker ignoredTaints gpre
          s1).rng := by
      rw [hk2, hk1, Rng.drop_drop, Rng.drop_skip]
      show _ = Rng.drop d (Rng.drop k2 (Rng.drop k1 rng))
      rw [Rng.drop_drop, Rng.drop_drop, Nat.add_assoc]
    have hB2 : nodeGroupsLoop deps daemonsets predicateChecker ignoredTaints gpre
          { s1 with rng := Rng.drop k1 (Rng.skip (k1 + k2) d rng) } =
        { nodeGroupsLoop deps daemonsets predicateChecker ignoredTaints gpre s1 with
          rng := Rng.drop d (nodeGroupsLoop deps daemonsets predicateChecker ignoredTaints
            gpre s1).rng } := by
      have h := congrArg Prod.fst (hloc2 _ hagree2)
      simp only at h
      rw [h, hrng]
    obtain ⟨l, hseen⟩ := nodeGroupsLoop_seen deps ignoredTaints daemonsets predicateChecker gpost
      { nodeGroupsLoop deps daemonsets predicateChecker ignoredTaints gpre s1 with
        rng := Rng.drop d (nodeGroupsLoop deps daemonsets predicateChecker ignoredTaints
          gpre s1).rng }
      (g.id :: (nodeGroupsLoop deps daemonsets predicateChecker ignoredTaints gpre
        s1).seenGroups)
    have hA : nodeGroupsLoop deps daemonsets predicateChecker ignoredTaints
          (gpre ++ g :: gpost) s1 =
        { nodeGroupsLoop deps daemonsets predicateChecker ignoredTaints gpost
            { nodeGroupsLoop deps daemonsets predicateChecker ignoredTaints gpre s1 with
              rng := Rng.drop d (nodeGroupsLoop deps daemonsets predicateChecker ignoredTaints
                gpre s1).rng } with seenGroups := l } := by
      rw [nodeGroupsLoop_append, nodeGroupsLoop_cons, hd]
      exact hseen
    rw [hB1]
    simp only
    rw [hA, nodeGroupsLoop_append, hB2]
    generalize nodeGroupsLoop deps daemonsets predicateChecker ignoredTaints gpost
      { nodeGroupsLoop deps daemonsets predicateChecker ignoredTaints gpre s1 with
        rng := Rng.drop d (nodeGroupsLoop deps daemonsets predicateChecker ignoredTaints
          gpre s1).rng } = X
    have hUA := unreadyNodesLoop_unread deps cloudProvider podsForNodes ignoredTaints force l
      (X.nodeInfoCache.map (fun cache => fun id => if id ∈ l then cache id else none)) nodes X
    have hUB := unreadyNodesLoop_unread deps cloudProvider podsForNodes ignoredTaints force
      X.seenGroups
      (X.nodeInfoCache.map (fun cache => fun id => if id ∈ X.seenGroups then cache id else none))
      nodes X
    have hUA' : unreadyNodesLoop (processNodeFor deps cloudProvider podsForNodes ignoredTaints
        force) cloudProvider nodes (pruneCache { X with seenGroups := l }) = _ := hUA
    have hUB' : unreadyNodesLoop (processNodeFor deps cloudProvider podsForNodes ignoredTaints
        force) cloudProvider nodes (pruneCache X) = _ := hUB
    rw [hUA', hUB']
    exact ⟨rfl, rfl⟩
  · refine ⟨0, 0, fun _ => rfl, ?_⟩
    rw [Rng.skip_zero, h1]
    exact ⟨rfl, rfl⟩

end Locality

/-! ## Node templates: the claim on the isolation of failures -/

/-- C18 as stated fails: the provider enumerates "ng-b", whose daemon projection fails
after one result of the generator is drawn for the pod of the daemon set, before "ng-1".
The call returns no error, and from the same state of the generator the template of
"ng-1" is named with the third result of the generator, and with the second one when
"ng-b" is not enumerated: the template of "ng-1" is not the same. -/
theorem GetNodeInfosForGroups_isolation_counterexample :
    (∀ r, ∃ e, (GetNodeInfoFromTemplate exampleUtilsDeps groupB [dsLogging]
      zonedPredicateChecker [] r).1 = .error e) ∧
    (GetNodeInfosForGroups exampleUtilsDeps [unreadyNode2] none zonedCloudProvider
      exampleListers [dsLogging] zonedPredicateChecker [] false exampleRng).err = none ∧
    ((GetNodeInfosForGroups exampleUtilsDeps [unreadyNode2] none zonedCloudProvider
      exampleListers [dsLogging] zonedPredicateChecker [] false exampleRng).result
        "ng-1").map (fun t => t.node.name) = some "template-node-for-ng-1-3" ∧
    ((GetNodeInfosForGroups exampleUtilsDeps [unreadyNode2] none
      { zonedCloudProvider with NodeGroups := [group1] } exampleListers [dsLogging]
      zonedPredicateChecker [] false exampleRng).result
        "ng-1").map (fun t => t.node.name) = some "template-node-for-ng-1-2" ∧
    (GetNodeInfosForGroups exampleUtilsDeps [unreadyNode2] none zonedCloudProvider
      exampleListers [dsLogging] zonedPredicateChecker [] false exampleRng).result "ng-1" ≠
    (GetNodeInfosForGroups exampleUtilsDeps [unreadyNode2] none
      { zonedCloudProvider with NodeGroups := [group1] } exampleListers [dsLogging]
      zonedPredicateChecker [] false exampleRng).result "ng-1" :=
  ⟨fun _ => ⟨_, rfl⟩, by decide, by decide, by decide,
    fun h => absurd (congrArg (Option.map (fun t => t.node.name)) h) (by decide)⟩

/-- C18 amended: a node group whose template cannot be built from the cloud provider,
whether `TemplateNodeInfo` or the daemon projection fails and whatever the error, while the
cache has no entry for the group. The iteration of the second loop for that group leaves
the result as it is, and the call returns the same mapping and the same error as the call
on the node groups without that group returns when its generator skips the `d` results
drawn for the failed build, after the first `k`; no result is drawn when it is
`TemplateNodeInfo` that fails, and the generator is then the same. -/
theorem GetNodeInfosForGroups_isolation {S : Type} (deps : UtilsDeps) (nodes : List Node)
    (nodeInfoCache : Option NodeInfoMap) (cloudProvider : CloudProvider)
    (listers : ListerRegistry) (daemonsets : List DaemonSet)
    (predicateChecker : PredicateChecker S) (ignoredTaints : List String)
    (forceTemplateFromCloudProvider : Bool) (rng : Rng)
    (gpre gpost : List NodeGroup) (g : NodeGroup)
    (hgroups : cloudProvider.NodeGroups = gpre ++ g :: gpost)
    (hcache : nodeInfoCache.bind (fun cache => cache g.id) = none)
    (hfail : ∀ r, ∃ e,
      (GetNodeInfoFromTemplate deps g daemonsets predicateChecker ignoredTaints r).1 =
        .error e) :
    (∀ st : SynthState, st.nodeInfoCache.bind (fun cache => cache g.id) = none →
      (nodeGroupStep deps daemonsets predicateChecker ignoredTaints st g).result = st.result) ∧
    ∃ k d, ((∃ e, g.templateNodeInfo = .error e) → d = 0) ∧
      (GetNodeInfosForGroups deps nodes nodeInfoCache
          { cloudProvider with NodeGroups := gpre ++ gpost } listers daemonsets
          predicateChecker ignoredTaints forceTemplateFromCloudProvider
          (Rng.skip k d rng)).result =
        (GetNodeInfosForGroups deps nodes nodeInfoCache cloudProvider listers daemonsets
          predicateChecker ignoredTaints forceTemplateFromCloudProvider rng).result ∧
      (GetNodeInfosForGroups deps nodes nodeInfoCache
          { cloudProvider with NodeGroups := gpre ++ gpost } listers daemonsets
          predicateChecker ignoredTaints forceTemplateFromCloudProvider
          (Rng.skip k d rng)).err =
        (GetNodeInfosForGroups deps nodes nodeInfoCache cloudProvider listers daemonsets
          predicateChecker ignoredTaints forceTemplateFromCloudProvider rng).err := by
  constructor
  · intro st hc
    rcases nodeGroupStep_cases deps ignoredTaints daemonsets predicateChecker st g with
      ⟨_, hs⟩ | ⟨t, _, hc', _⟩ | ⟨e, r, _, _, _, hs⟩ | ⟨t, r, _, _, hb, _⟩
    · rw [hs]
    · rw [hc] at hc'
      cases hc'
    · rw [hs]
    · obtain ⟨e, he⟩ := hfail st.rng
      rw [hb] at he
      cases he
  · cases hl : getPodsForNodes listers with
    | error e =>
      refine ⟨0, 0, fun _ => rfl, ?_⟩
      rw [Rng.skip_zero]
      simp [GetNodeInfosForGroups, hl]
    | ok podsForNodes =>
      obtain ⟨k, d, hzero, herr, hres⟩ := synthesisLoops_isolation deps cloudProvider
        podsForNodes ignoredTaints daemonsets predicateChecker forceTemplateFromCloudProvider
        nodes nodeInfoCache rng { cloudProvider with NodeGroups := gpre ++ gpost } gpre gpost g
        rfl hgroups rfl hcache hfail
      have hA := GetNodeInfosForGroups_loops deps cloudProvider podsForNodes ignoredTaints
        daemonsets predicateChecker nodes nodeInfoCache listers forceTemplateFromCloudProvider
        rng hl
      have hB := GetNodeInfosForGroups_loops deps
        { cloudProvider with NodeGroups := gpre ++ gpost } podsForNodes ignoredTaints
        daemonsets predicateChecker nodes nodeInfoCache listers forceTemplateFromCloudProvider
        (Rng.skip k d rng) hl
      refine ⟨k, d, hzero, ?_, ?_⟩
      · rw [hB.2, hA.2, herr, hres]
      · rw [hB.1, hA.1, herr]

/-- C18 amended, at a provider that enumerates "ng-b", whose daemon projection fails after
one result of the generator is drawn, before "ng-1": the template of "ng-1" in the call
without "ng-b" is named with the third result of the generator when that generator skips
the first result. -/
theorem GetNodeInfosForGroups_isolation_witness :
    (∀ r, ∃ e, (GetNodeInfoFromTemplate exampleUtilsDeps groupB [dsLogging]
      zonedPredicateChecker [] r).1 = .error e) ∧
    ((∀ st : SynthState, st.nodeInfoCache.bind (fun cache => cache groupB.id) = none →
        (nodeGroupStep exampleUtilsDeps [dsLogging] zonedPredicateChecker [] st groupB).result =
          st.result) ∧
      ∃ k d, ((∃ e, groupB.templateNodeInfo = .error e) → d = 0) ∧
        (GetNodeInfosForGroups exampleUtilsDeps [unreadyNode2] none
            { zonedCloudProvider with NodeGroups := [] ++ [group1] } exampleListers [dsLogging]
            zonedPredicateChecker [] false (Rng.skip k d exampleRng)).result =
          (GetNodeInfosForGroups exampleUtilsDeps [unreadyNode2] none zonedCloudProvider
            exampleListers [dsLogging] zonedPredicateChecker [] false exampleRng).result ∧
        (GetNodeInfosForGroups exampleUtilsDeps [unreadyNode2] none
            { zonedCloudProvider with NodeGroups := [] ++ [group1] } exampleListers [dsLogging]
            zonedPredicateChecker [] false (Rng.skip k d exampleRng)).err =
          (GetNodeInfosForGroups exampleUtilsDeps [unreadyNode2] none zonedCloudProvider
            exampleListers [dsLogging] zonedPredicateChecker [] false exampleRng).err) ∧
    ((GetNodeInfosForGroups exampleUtilsDeps [unreadyNode2] none
      { zonedCloudProvider with NodeGroups := [group1] } exampleListers [dsLogging]
      zonedPredicateChecker [] false (Rng.skip 0 1 exampleRng)).result
        "ng-1").map (fun t => t.node.name) = some "template-node-for-ng-1-3" :=
  ⟨fun _ => ⟨_, rfl⟩,
    GetNodeInfosForGroups_isolation exampleUtilsDeps [unreadyNode2] none zonedCloudProvider
      exampleListers [dsLogging] zonedPredicateChecker [] false exampleRng [] [group1] groupB
      rfl rfl (fun _ => ⟨_, rfl⟩),
    by decide⟩

/-! ## The unready copy of a node -/

theorem unreadyConditions_foldl (cs : List NodeCondition) (acc : List NodeCondition) :
    cs.foldl
        (fun newNodeConditions condition =>
          if condition.type ≠ NodeReady then newNodeConditions ++ [condition]
          else newNodeConditions)
        acc =
      acc ++ cs.filter (fun c => decide (c.type ≠ NodeReady)) := by
  induction cs generalizing acc with
  | nil => simp
  | cons c cs ih =>
    rw [List.foldl_cons, ih]
    by_cases h : c.type = NodeReady <;> simp [h]

/-- C24: the conditions of the copy `GetUnreadyNodeCopy` returns are one Ready condition
of status False whose transition time is the creation timestamp of the node, followed by
the conditions of the node that are not Ready conditions, in their order; the other
fields of the copy are those of the node; and `GetReadinessState` on the copy returns
not ready and no error. On every store of nodes and for every allocated node, the pointer
returned is not the pointer handed in, the object it points to is that copy, and every
node allocated before the call, the original among them, is after the call what it was
before. -/
theorem GetUnreadyNodeCopy_spec (node : Node) :
    (GetUnreadyNodeCopy node).conditions =
      { type := NodeReady, status := ConditionFalse,
        lastTransitionTime := node.creationTimestamp } ::
        node.conditions.filter (fun c => decide (c.type ≠ NodeReady)) ∧
    GetUnreadyNodeCopy node =
      { node with conditions := (GetUnreadyNodeCopy node).conditions } ∧
    (GetReadinessState (GetUnreadyNodeCopy node)).1 = false ∧
    (GetReadinessState (GetUnreadyNodeCopy node)).2.2 = none ∧
    ∀ (s : Store Node) (p : Nat), p < s.next →
      (GetUnreadyNodeCopyInStore s p).1 ≠ p ∧
      (GetUnreadyNodeCopyInStore s p).2.cells (GetUnreadyNodeCopyInStore s p).1 =
        GetUnreadyNodeCopy (s.cells p) ∧
      ∀ q, q < s.next → (GetUnreadyNodeCopyInStore s p).2.cells q = s.cells q := by
  have hc : (GetUnreadyNodeCopy node).conditions =
      { type := NodeReady, status := ConditionFalse,
        lastTransitionTime := node.creationTimestamp } ::
        node.conditions.filter (fun c => decide (c.type ≠ NodeReady)) := by
    simp only [GetUnreadyNodeCopy, unreadyConditions_foldl, List.singleton_append]
  have hfound : (readinessLoop
      { canNodeBeReady := true, readyFound := false, lastTransitionTime := Time.zero }
      (GetUnreadyNodeCopy node).conditions).readyFound = true := by
    rw [readinessLoop_readyFound, hc]
    simp
  have hcan : (readinessLoop
      { canNodeBeReady := true, readyFound := false, lastTransitionTime := Time.zero }
      (GetUnreadyNodeCopy node).conditions).canNodeBeReady = false := by
    rw [readinessLoop_canNodeBeReady, hc]
    simp [clearsReady]
  refine ⟨hc, rfl, ?_, ?_, ?_⟩
  · simp only [GetReadinessState, hfound, hcan]
    simp
  · simp only [GetReadinessState, hfound]
    simp
  · intro s p hp
    obtain ⟨h1, h2, h3, _⟩ := GetUnreadyNodeCopyInStore_eq s p hp
    rw [h1]
    exact ⟨fun heq => absurd hp (by rw [heq]; exact Nat.lt_irrefl _), h2, h3⟩

/-- C24, at the store that holds `healthyNode`, `nodeWithoutReady` and `readyNode1` at the
addresses 0, 1 and 2, for the pointer 0: the pointer returned is the new address 3, the
node there has the new Ready condition of status False followed by the three other
conditions of `healthyNode`, and the nodes at the addresses 0, 1 and 2 are what they
were. -/
theorem GetUnreadyNodeCopy_spec_witness :
    ((GetUnreadyNodeCopyInStore exampleNodeStore 0).1 ≠ 0 ∧
      (GetUnreadyNodeCopyInStore exampleNodeStore 0).2.cells
          (GetUnreadyNodeCopyInStore exampleNodeStore 0).1 =
        GetUnreadyNodeCopy (exampleNodeStore.cells 0) ∧
      ∀ q, q < exampleNodeStore.next →
        (GetUnreadyNodeCopyInStore exampleNodeStore 0).2.cells q = exampleNodeStore.cells q) ∧
    (GetUnreadyNodeCopyInStore exampleNodeStore 0).1 = 3 ∧
    (GetUnreadyNodeCopyInStore exampleNodeStore 0).2.cells 3 =
      { healthyNode with
        conditions :=
          [{ type := NodeReady, status := ConditionFalse, lastTransitionTime := 0 },
           { type := NodeDiskPressure, status := ConditionFalse, lastTransitionTime := 8 },
           { type := NodeNetworkUnavailable, status := ConditionFalse,
             lastTransitionTime := 3 },
           { type := "MemoryPressure", status := ConditionTrue, lastTransitionTime := 11 }] } ∧
    (GetUnreadyNodeCopyInStore exampleNodeStore 0).2.cells 0 = healthyNode ∧
    (GetUnreadyNodeCopyInStore exampleNodeStore 0).2.cells 1 = nodeWithoutReady ∧
    (GetUnreadyNodeCopyInStore exampleNodeStore 0).2.cells 2 = readyNode1 :=
  ⟨(GetUnreadyNodeCopy_spec healthyNode).2.2.2.2 exampleNodeStore 0 (by decide),
    by decide, by decide, by decide, by decide, by decide⟩

/-! ## The nodes of no node group -/

theorem filterOutLoop_ok (cloudProvider : CloudProvider) :
    ∀ (nodes result : List Node), (∀ n ∈ nodes, lookupFails cloudProvider n = false) →
      filterOutLoop cloudProvider nodes result =
        (result ++ nodes.filter (hasNoNodeGroup cloudProvider), none)
  | [], result, _ => by simp [filterOutLoop]
  | node :: rest, result, h => by
    have hrest : ∀ n ∈ rest, lookupFails cloudProvider n = false :=
      fun n hn => h n (List.mem_cons_of_mem _ hn)
    have hnode := h node (List.mem_cons_self _ _)
    cases hg : cloudProvider.NodeGroupForNode node with
    | error e => simp [lookupFails, hg] at hnode
    | ok og =>
      cases og with
      | none =>
        simp only [filterOutLoop, hg]
        rw [filterOutLoop_ok cloudProvider rest _ hrest]
        simp [hasNoNodeGroup, hg]
      | some g =>
        simp only [filterOutLoop, hg]
        rw [filterOutLoop_ok cloudProvider rest _ hrest]
        simp [hasNoNodeGroup, hg]

theorem filterOutLoop_error (cloudProvider : CloudProvider) :
    ∀ (nodes result : List Node), (∃ n ∈ nodes, lookupFails cloudProvider n = true) →
      ∃ pre n post e, nodes = pre ++ n :: post ∧
        (∀ m ∈ pre, lookupFails cloudProvider m = false) ∧
        cloudProvider.NodeGroupForNode n = .error e ∧
        filterOutLoop cloudProvider nodes result =
          ([], some (ToAutoscalerError AutoscalerErrorType.CloudProviderError e))
  | [], _, h => by
    obtain ⟨n, hn, _⟩ := h
    cases hn
  | node :: rest, result, h => by
    cases hg : cloudProvider.NodeGroupForNode node with
    | error e =>
      exact ⟨[], node, rest, e, rfl, fun m hm => (List.not_mem_nil m hm).elim, hg,
        by simp [filterOutLoop, hg]⟩
    | ok og =>
      have hnode : lookupFails cloudProvider node = false := by simp [lookupFails, hg]
      have hrest : ∃ n ∈ rest, lookupFails cloudProvider n = true := by
        obtain ⟨n, hn, hf⟩ := h
        rcases List.mem_cons.mp hn with heq | hmem
        · rw [heq, hnode] at hf
          cases hf
        · exact ⟨n, hmem, hf⟩
      have hpre : ∀ (pre : List Node), (∀ m ∈ pre, lookupFails cloudProvider m = false) →
          ∀ m ∈ node :: pre, lookupFails cloudProvider m = false := by
        intro pre hp m hm
        rcases List.mem_cons.mp hm with heq | hmem
        · rw [heq]
          exact hnode
        · exact hp m hmem
      cases og with
      | none =>
        obtain ⟨pre, n, post, e, hsplit, hp, hn, hloop⟩ :=
          filterOutLoop_error cloudProvider rest (result ++ [node]) hrest
        exact ⟨node :: pre, n, post, e, by rw [hsplit]; rfl, hpre pre hp, hn,
          by simp only [filterOutLoop, hg]; exact hloop⟩
      | some g =>
        obtain ⟨pre, n, post, e, hsplit, hp, hn, hloop⟩ :=
          filterOutLoop_error cloudProvider rest result hrest
        exact ⟨node :: pre, n, post, e, by rw [hsplit]; rfl, hpre pre hp, hn,
          by simp only [filterOutLoop, hg]; exact hloop⟩

/-- C23: when the lookup of the node group fails for no node of the list,
`FilterOutNodesFromNotAutoscaledGroups` returns the nodes for which the provider returns
no node group, in the order of the list, and no error; when the lookup fails for a node of
the list, it returns the empty list and the error of the first node whose lookup fails,
with the kind CloudProviderError. -/
theorem FilterOutNodesFromNotAutoscaledGroups_spec (nodes : List Node)
    (cloudProvider : CloudProvider) :
    ((∀ n ∈ nodes, lookupFails cloudProvider n = false) →
      FilterOutNodesFromNotAutoscaledGroups nodes cloudProvider =
        (nodes.filter (hasNoNodeGroup cloudProvider), none)) ∧
    ((∃ n ∈ nodes, lookupFails cloudProvider n = true) →
      ∃ pre n post e, nodes = pre ++ n :: post ∧
        (∀ m ∈ pre, lookupFails cloudProvider m = false) ∧
        cloudProvider.NodeGroupForNode n = .error e ∧
        FilterOutNodesFromNotAutoscaledGroups nodes cloudProvider =
          ([], some (ToAutoscalerError AutoscalerErrorType.CloudProviderError e)) ∧
        (ToAutoscalerError AutoscalerErrorType.CloudProviderError e).errorType =
          AutoscalerErrorType.CloudProviderError) := by
  constructor
  · intro h
    have := filterOutLoop_ok cloudProvider nodes [] h
    simpa [FilterOutNodesFromNotAutoscaledGroups] using this
  · intro h
    obtain ⟨pre, n, post, e, hsplit, hp, hn, hloop⟩ := filterOutLoop_error cloudProvider nodes [] h
    exact ⟨pre, n, post, e, hsplit, hp, hn, hloop, rfl⟩

/-- C23, at the list of a node of no node group, a node of "ng-1" and a second node of no
node group, which gives the two nodes of no node group in their order, and at a list
whose second node has a failing lookup, which gives the empty list and that error. -/
theorem FilterOutNodesFromNotAutoscaledGroups_spec_witness :
    FilterOutNodesFromNotAutoscaledGroups [healthyNode, readyNode1, earlyNode]
        exampleCloudProvider = ([healthyNode, earlyNode], none) ∧
    (∃ pre n post e, [healthyNode, readyNodeBroken, readyNode1] = pre ++ n :: post ∧
      (∀ m ∈ pre, lookupFails exampleCloudProvider m = false) ∧
      exampleCloudProvider.NodeGroupForNode n = .error e ∧
      FilterOutNodesFromNotAutoscaledGroups [healthyNode, readyNodeBroken, readyNode1]
          exampleCloudProvider =
        ([], some (ToAutoscalerError AutoscalerErrorType.CloudProviderError e)) ∧
      (ToAutoscalerError AutoscalerErrorType.CloudProviderError e).errorType =
        AutoscalerErrorType.CloudProviderError) ∧
    FilterOutNodesFromNotAutoscaledGroups [healthyNode, readyNodeBroken, readyNode1]
        exampleCloudProvider =
      ([], some { errorType := AutoscalerErrorType.CloudProviderError,
                  message := "lookup failed" }) :=
  ⟨(FilterOutNodesFromNotAutoscaledGroups_spec [healthyNode, readyNode1, earlyNode]
      exampleCloudProvider).1 (by decide),
    (FilterOutNodesFromNotAutoscaledGroups_spec [healthyNode, readyNodeBroken, readyNode1]
      exampleCloudProvider).2 (by decide),
    by decide⟩

/-! ## The requests of the containers of a daemon pod -/

/-- The requests after the loop over the limits: a resource has the request it had or,
without one, its limit. -/
theorem fixupRequests_lookup (r : String) :
    ∀ (limits requests : ResourceList),
      (fixupRequests limits requests).lookup r =
        (requests.lookup r).or (limits.lookup r)
  | [], requests => by simp [fixupRequests]
  | (k, v) :: rest, requests => by
    have ih := fixupRequests_lookup r rest
    simp only [fixupRequests, List.foldl_cons] at ih ⊢
    rw [ih, List.lookup_cons]
    by_cases hrk : r = k
    · subst hrk
      cases hreq : requests.lookup r with
      | none => simp [hreq, List.lookup_append]
      | some q => simp [hreq]
    · have hbeq : (r == k) = false := by simpa using hrk
      simp only [hbeq]
      cases hreq : requests.lookup k with
      | none =>
        simp only [Option.isNone_none, if_true, List.lookup_append, List.lookup_cons, hbeq,
          List.lookup_nil, Option.or_none]
      | some q => simp

/-- C21: `fixupContainers` returns the containers of the spec one for one and in their
order, each with its name and its limits as they are; a resource that has a limit has a
request in the result, the value of the request it had in the input or, when it had none,
the value of the limit; a resource that has no limit has the request it had, or none. The
pod that `newPod` makes has these containers and the labels and owner references of the
template. On every store of pod specs and resource maps and for every allocated pod spec,
the pointer returned is not the pointer handed in, the containers of the pod spec it
points to are those described, and every pod spec and every resource map allocated before
the call is after the call what it was before, so that the containers of the input spec
are what they were. -/
theorem fixupContainers_spec (containers : List Container) :
    List.Forall₂
      (fun c c' : Container =>
        c'.name = c.name ∧ c'.limits = c.limits ∧
        (∀ r v, c.limits.lookup r = some v →
          c'.requests.lookup r = some ((c.requests.lookup r).getD v)) ∧
        (∀ r, c.limits.lookup r = none → c'.requests.lookup r = c.requests.lookup r))
      containers (fixupContainers containers) ∧
    (∀ (ds : DaemonSet) (nodeName : String) (randInt63 : Nat),
      (newPod ds nodeName randInt63).containers = fixupContainers ds.template.containers ∧
      (newPod ds nodeName randInt63).labels = ds.template.labels ∧
      (newPod ds nodeName randInt63).ownerReferences = ds.template.ownerReferences) ∧
    ∀ (s : SpecStore) (spec : Nat), s.Allocated spec →
      (fixupContainersInStore s spec).1 ≠ spec ∧
      (fixupContainersInStore s spec).2.containers (fixupContainersInStore s spec).1 =
        fixupContainers (s.containers spec) ∧
      (∀ p, p < s.specs.next →
        (fixupContainersInStore s spec).2.specs.cells p = s.specs.cells p) ∧
      (∀ a, a < s.maps.next →
        (fixupContainersInStore s spec).2.maps.cells a = s.maps.cells a) ∧
      (fixupContainersInStore s spec).2.containers spec = s.containers spec := by
  refine ⟨?_, fun ds nodeName randInt63 => ⟨rfl, rfl, rfl⟩, ?_⟩
  · induction containers with
    | nil => exact List.Forall₂.nil
    | cons c cs ih =>
      refine List.Forall₂.cons ⟨rfl, rfl, ?_, ?_⟩ ih
      · intro r v hv
        show (fixupRequests c.limits c.requests).lookup r = _
        rw [fixupRequests_lookup, hv]
        cases c.requests.lookup r <;> rfl
      · intro r hnone
        show (fixupRequests c.limits c.requests).lookup r = _
        rw [fixupRequests_lookup, hnone, Option.or_none]
  · intro s spec hall
    obtain ⟨h1, h2, h3, h4⟩ := fixupContainersInStore_eq s spec hall
    obtain ⟨hspec, hrefs⟩ := hall
    refine ⟨?_, ?_, h3, h4, ?_⟩
    · rw [h1]
      exact fun heq => absurd hspec (by rw [heq]; exact Nat.lt_irrefl _)
    · rw [h1]
      exact h2
    · simp only [SpecStore.containers]
      rw [h3 spec hspec]
      exact containersAt_congr s.maps _ _ (fun a ha => h4 a (hrefs a ha))

/-- C21, at a container with limits for CPU and memory and requests for memory and disk,
and at the store that holds at address 0 a pod spec of that container and of a container
with a limit for CPU and nil requests: the pointer returned is the new address 1, the
containers of the pod spec there have the requests completed from the limits, and the pod
spec at address 0 and the three resource maps of its containers are what they were. -/
theorem fixupContainers_spec_witness :
    fixupContainers
        [{ name := "agent", limits := [("cpu", 100), ("memory", 200)],
           requests := [("memory", 50), ("disk", 7)] }] =
      [{ name := "agent", limits := [("cpu", 100), ("memory", 200)],
         requests := [("memory", 50), ("disk", 7), ("cpu", 100)] }] ∧
    ((fixupContainersInStore exampleSpecStore 0).1 ≠ 0 ∧
      (fixupContainersInStore exampleSpecStore 0).2.containers
          (fixupContainersInStore exampleSpecStore 0).1 =
        fixupContainers (exampleSpecStore.containers 0) ∧
      (∀ p, p < exampleSpecStore.specs.next →
        (fixupContainersInStore exampleSpecStore 0).2.specs.cells p =
          exampleSpecStore.specs.cells p) ∧
      (∀ a, a < exampleSpecStore.maps.next →
        (fixupContainersInStore exampleSpecStore 0).2.maps.cells a =
          exampleSpecStore.maps.cells a) ∧
      (fixupContainersInStore exampleSpecStore 0).2.containers 0 =
        exampleSpecStore.containers 0) ∧
    (fixupContainersInStore exampleSpecStore 0).1 = 1 ∧
    (fixupContainersInStore exampleSpecStore 0).2.containers 1 =
      [{ name := "agent", limits := [("cpu", 100), ("memory", 200)],
         requests := [("memory", 50), ("disk", 7), ("cpu", 100)] },
       { name := "sidecar", limits := [("cpu", 10)], requests := [("cpu", 10)] }] ∧
    (fixupContainersInStore exampleSpecStore 0).2.containers 0 =
      [{ name := "agent", limits := [("cpu", 100), ("memory", 200)],
         requests := [("memory", 50), ("disk", 7)] },
       { name := "sidecar", limits := [("cpu", 10)], requests := [] }] ∧
    (fixupContainersInStore exampleSpecStore 0).2.specs.cells 0 =
      [{ name := "agent", limits := some 0, requests := some 1 },
       { name := "sidecar", limits := some 2, requests := none }] ∧
    (fixupContainersInStore exampleSpecStore 0).2.maps.cells 1 = [("memory", 50), ("disk", 7)] :=
  ⟨by decide,
    (fixupContainers_spec
      [{ name := "agent", limits := [("cpu", 100), ("memory", 200)],
         requests := [("memory", 50), ("disk", 7)] }]).2.2 exampleSpecStore 0
      ⟨by decide, by decide⟩,
    by decide, by decide, by decide, by decide, by decide⟩

/-! ## The scenario of a node group without nodes -/

theorem digitChar_isDigit : ∀ k < 10, (Nat.digitChar k).isDigit = true := by decide

theorem toDigitsCore_digits :
    ∀ (fuel n : Nat) (ds : List Char), (∀ c ∈ ds, c.isDigit = true) →
      ∀ c ∈ Nat.toDigitsCore 10 fuel n ds, c.isDigit = true
  | 0, _, _, h => by simpa [Nat.toDigitsCore] using h
  | fuel + 1, n, ds, h => by
    have hcons : ∀ c ∈ Nat.digitChar (n % 10) :: ds, c.isDigit = true := by
      intro c hc
      rcases List.mem_cons.mp hc with heq | hmem
      · rw [heq]
        exact digitChar_isDigit _ (Nat.mod_lt n (by decide))
      · exact h c hmem
    by_cases hq : n / 10 = 0
    · simpa [Nat.toDigitsCore, hq] using hcons
    · have ih := toDigitsCore_digits fuel (n / 10) _ hcons
      simpa [Nat.toDigitsCore, hq] using ih

theorem toDigitsCore_length :
    ∀ (fuel n : Nat) (ds : List Char), ds.length ≤ (Nat.toDigitsCore 10 fuel n ds).length
  | 0, _, _ => by simp [Nat.toDigitsCore]
  | fuel + 1, n, ds => by
    by_cases hq : n / 10 = 0
    · simp [Nat.toDigitsCore, hq]
    · have ih := toDigitsCore_length fuel (n / 10) (Nat.digitChar (n % 10) :: ds)
      simp only [Nat.toDigitsCore, hq, if_false]
      simp only [List.length_cons] at ih
      omega

/-- The decimal rendering of a number is made of decimal digits, and of one at least. -/
theorem isDecimal_toString (n : Nat) : isDecimal (toString n) = true := by
  have hdata : (toString n).toList = Nat.toDigitsCore 10 (n + 1) n [] := by
    show (Nat.repr n).data = _
    simp [Nat.repr, Nat.toDigits, List.asString]
  have hdigits := toDigitsCore_digits (n + 1) n [] (fun c hc => (List.not_mem_nil c hc).elim)
  have hlen : 1 ≤ (Nat.toDigitsCore 10 (n + 1) n []).length := by
    by_cases hq : n / 10 = 0
    · simp [Nat.toDigitsCore, hq]
    · have := toDigitsCore_length n (n / 10) [Nat.digitChar (n % 10)]
      simp only [Nat.toDigitsCore, hq, if_false]
      simp only [List.length_singleton] at this
      exact this
  simp only [isDecimal, hdata, Bool.and_eq_true, Bool.not_eq_true', List.all_eq_true]
  refine ⟨?_, hdigits⟩
  cases hl : Nat.toDigitsCore 10 (n + 1) n [] with
  | nil => rw [hl] at hlen; simp at hlen
  | cons c cs => rfl

theorem NodeInfoMap.set_self (m : NodeInfoMap) (id : String) (t : NodeInfo) :
    m.set id t id = some t := by
  simp [NodeInfoMap.set]

/-- The template `GetNodeInfoFromTemplate` builds for a node group whose provider template
declares no pod, with one daemon set whose pod the checker admits. -/
theorem GetNodeInfoFromTemplate_scenario {S : Type} (deps : UtilsDeps) (g : NodeGroup)
    (ds : DaemonSet) (predicateChecker : PredicateChecker S) (ignoredTaints : List String)
    (rng : Rng) (base : NodeInfo) (snapshot : S)
    (hbase : g.templateNodeInfo = .ok base) (hpods : base.pods = [])
    (hstage : predicateChecker.AddNodeWithPods base.node base.pods = .ok snapshot)
    (hchecks : ∀ n, predicateChecker.CheckPredicates snapshot (newPod ds base.node.name n)
      base.node.name = none) :
    GetNodeInfoFromTemplate deps g [ds] predicateChecker ignoredTaints rng =
      (sanitizeNodeInfo
        { node := base.node, pods := [newPod ds base.node.name (rng 0)] }
        g.id ignoredTaints (rng 1), Rng.drop 2 rng) := by
  have hds : GetDaemonSetPodsForNode base [ds] predicateChecker rng =
      (.ok [newPod ds base.node.name (rng 0)], rng.Int63.2) := by
    simp only [GetDaemonSetPodsForNode, hstage, daemonSetLoop, hchecks, List.nil_append]
    rfl
  rw [GetNodeInfoFromTemplate_ok deps g [ds] predicateChecker ignoredTaints rng rng.Int63.2 base
    _ hbase hds, hpods]
  simp only [effectiveNodePods, List.filter_nil, List.append_nil]
  rfl

/-- C22: the scenario of a node group "ng-1" that the provider enumerates alone, with no
node, no cache entry for "ng-1", a provider template that declares no pod and one daemon
set whose pod the checker admits, when the listing of the scheduled pods succeeds.
`GetNodeInfosForGroups` returns no error and a mapping whose only key is "ng-1"; the node
of its template is named "template-node-for-ng-1-" followed by a decimal number, has the
capacity and the allocatable resources of the provider template, and its only pod is the
pod made for the daemon set, bound to that name. -/
theorem GetNodeInfosForGroups_scenario {S : Type} (deps : UtilsDeps)
    (nodeInfoCache : Option NodeInfoMap) (cloudProvider : CloudProvider)
    (listers : ListerRegistry) (ds : DaemonSet) (predicateChecker : PredicateChecker S)
    (ignoredTaints : List String) (forceTemplateFromCloudProvider : Bool) (rng : Rng)
    (g : NodeGroup) (base : NodeInfo) (snapshot : S) (scheduled : List Pod)
    (hlist : listers.scheduledPods = .ok scheduled)
    (hgroups : cloudProvider.NodeGroups = [g]) (hid : g.id = "ng-1")
    (hbase : g.templateNodeInfo = .ok base) (hpods : base.pods = [])
    (hcache : nodeInfoCache.bind (fun cache => cache "ng-1") = none)
    (hstage : predicateChecker.AddNodeWithPods base.node base.pods = .ok snapshot)
    (hchecks : ∀ n, predicateChecker.CheckPredicates snapshot (newPod ds base.node.name n)
      base.node.name = none) :
    (GetNodeInfosForGroups deps [] nodeInfoCache cloudProvider listers [ds] predicateChecker
      ignoredTaints forceTemplateFromCloudProvider rng).err = none ∧
    (∀ id, (GetNodeInfosForGroups deps [] nodeInfoCache cloudProvider listers [ds]
      predicateChecker ignoredTaints forceTemplateFromCloudProvider rng).result id ≠ none ↔
        id = "ng-1") ∧
    ∃ t digits, (GetNodeInfosForGroups deps [] nodeInfoCache cloudProvider listers [ds]
        predicateChecker ignoredTaints forceTemplateFromCloudProvider rng).result "ng-1" =
          some t ∧
      t.node.name = "template-node-for-ng-1-" ++ digits ∧ isDecimal digits = true ∧
      t.node.capacity = base.node.capacity ∧ t.node.allocatable = base.node.allocatable ∧
      t.pods = [{ newPod ds base.node.name (rng 0) with nodeName := t.node.name }] := by
  have hcache' : cachedCopy nodeInfoCache g.id = none := by
    rw [cachedCopy_eq, hid]
    exact hcache
  have hbuild := GetNodeInfoFromTemplate_scenario deps g ds predicateChecker ignoredTaints rng
    base snapshot hbase hpods hstage hchecks
  rw [sanitizeNodeInfo_eq] at hbuild
  have hG : GetNodeInfosForGroups deps [] nodeInfoCache cloudProvider listers [ds]
      predicateChecker ignoredTaints forceTemplateFromCloudProvider rng =
      { result := NodeInfoMap.empty.set "ng-1"
          { node := { base.node with
              labels := base.node.labels.map (fun kv =>
                if kv.1 ≠ LabelHostname then (kv.1, kv.2)
                else (kv.1, "template-node-for-ng-1-" ++ toString (rng 1)))
              name := "template-node-for-ng-1-" ++ toString (rng 1)
              taints := SanitizeTaints base.node.taints ignoredTaints }
            pods := [{ newPod ds base.node.name (rng 0) with
              nodeName := "template-node-for-ng-1-" ++ toString (rng 1) }] }
        err := none
        nodeInfoCache := nodeInfoCache.map (fun cache => fun id =>
          if id ∈ ["ng-1"] then cache id else none)
        rng := Rng.drop 2 rng } := by
    simp only [GetNodeInfosForGroups, getPodsForNodes, hlist, readyNodesLoop, unreadyNodesLoop,
      hgroups, nodeGroupsLoop, List.foldl_cons, List.foldl_nil, nodeGroupStep, hcache', hbuild,
      pruneCache]
    simp [NodeInfoMap.empty, hid]
  rw [hG]
  refine ⟨rfl, ?_, ?_⟩
  · intro id
    by_cases h : id = "ng-1" <;> simp [NodeInfoMap.set, NodeInfoMap.empty, h]
  · dsimp only
    exact ⟨_, toString (rng 1), NodeInfoMap.set_self _ _ _, rfl, isDecimal_toString _, rfl, rfl,
      rfl⟩

/-- C22, at the provider that enumerates "ng-1" alone with a template of 4 CPU and 8Gi that
declares no pod, no node, no cache and the daemon set "logging", whose container has a
limit of 100m CPU: the template of "ng-1" is named with the second result of the
generator and holds the pod of the daemon set, named with the first result, with a request
of 100m CPU. -/
theorem GetNodeInfosForGroups_scenario_witness :
    ((GetNodeInfosForGroups exampleUtilsDeps [] none scenarioCloudProvider exampleListers
        [dsLogging] examplePredicateChecker [] false exampleRng).err = none ∧
      (∀ id, (GetNodeInfosForGroups exampleUtilsDeps [] none scenarioCloudProvider
        exampleListers [dsLogging] examplePredicateChecker [] false exampleRng).result id ≠
          none ↔ id = "ng-1") ∧
      ∃ t digits, (GetNodeInfosForGroups exampleUtilsDeps [] none scenarioCloudProvider
          exampleListers [dsLogging] examplePredicateChecker [] false exampleRng).result
            "ng-1" = some t ∧
        t.node.name = "template-node-for-ng-1-" ++ digits ∧ isDecimal digits = true ∧
        t.node.capacity = bareTemplate.node.capacity ∧
        t.node.allocatable = bareTemplate.node.allocatable ∧
        t.pods = [{ newPod dsLogging bareTemplate.node.name (exampleRng 0) with
          nodeName := t.node.name }]) ∧
    (GetNodeInfosForGroups exampleUtilsDeps [] none scenarioCloudProvider exampleListers
      [dsLogging] examplePredicateChecker [] false exampleRng).result "ng-1" =
      some { node := { bareTemplate.node with
               name := "template-node-for-ng-1-2"
               labels := [(LabelHostname, "template-node-for-ng-1-2"), ("zone", "a")] }
             pods :=
               [{ ns := "kube-system", name := "logging-pod-1"
                  nodeName := "template-node-for-ng-1-2"
                  containers :=
                    [{ name := "agent", limits := [("cpu", 100)],
                       requests := [("cpu", 100)] }] }] } :=
  ⟨GetNodeInfosForGroups_scenario exampleUtilsDeps none scenarioCloudProvider exampleListers
      dsLogging examplePredicateChecker [] false exampleRng bareGroup1 bareTemplate
      { node := bareTemplate.node, pods := [] } _ rfl rfl rfl rfl rfl rfl rfl (fun _ => rfl),
    by decide⟩

/-! ## The fake kube-proxy pod -/

/-- C25, the code at a failing input: the base template of "ng-1" declares the fake
kube-proxy pod and a second pod, and the daemon set "kube-proxy" of namespace
"kube-system" is projected. `effectiveNodePods` drops the fake pod, and the template
`GetNodeInfoFromTemplate` builds holds it all the same, after the pods that
`effectiveNodePods` returned. -/
theorem GetNodeInfoFromTemplate_keeps_fake_kube_proxy :
    (GetDaemonSetPodsForNode proxyTemplate [dsKubeProxy] examplePredicateChecker
      exampleRng).1 =
        .ok [{ ns := "kube-system", name := "kube-proxy-pod-1", nodeName := "base" }] ∧
    isDaemonsetKubeProxy { ns := "kube-system", name := "kube-proxy-pod-1", nodeName := "base" } =
      true ∧
    effectiveNodePods exampleUtilsDeps.IsFakeKubeProxyPod
        [{ ns := "kube-system", name := "kube-proxy-pod-1", nodeName := "base" }]
        proxyTemplate.pods =
      [{ ns := "kube-system", name := "kube-proxy-pod-1", nodeName := "base" },
       { ns := "kube-system", name := "static", nodeName := "base" }] ∧
    (GetNodeInfoFromTemplate exampleUtilsDeps proxyGroup1 [dsKubeProxy] examplePredicateChecker
        [] exampleRng).1 =
      .ok { node := { proxyTemplate.node with
              name := "template-node-for-ng-1-2"
              labels := [(LabelHostname, "template-node-for-ng-1-2")] }
            pods :=
              [{ ns := "kube-system", name := "kube-proxy-pod-1",
                 nodeName := "template-node-for-ng-1-2" },
               { ns := "kube-system", name := "static", nodeName := "template-node-for-ng-1-2" },
               { ns := "kube-system", name := "kube-proxy-fake",
                 nodeName := "template-node-for-ng-1-2" },
               { ns := "kube-system", name := "static",
                 nodeName := "template-node-for-ng-1-2" }] } ∧
    exampleUtilsDeps.IsFakeKubeProxyPod
      { ns := "kube-system", name := "kube-proxy-fake",
        nodeName := "template-node-for-ng-1-2" } = true := by
  decide

end Autoscaler
